import Mathlib

/-!
WebSocket system handle: a verification development.

A shallow embedding of the rosbridge-v2 JSON encoding (`src/src/json_encoding.cpp`) and of the
handlers of the WebSocket server for connection admission, opening and close and for runtime
advertisements (`src/websocket/src/Server.cpp`), followed by theorems about them.

Conventions of the embedding.

* `std::string` is a Lean `String` (a sequence of Unicode scalar values, that is, a valid UTF-8
  byte string), except where `dump()` meets bytes that are not UTF-8: there the string is the
  list of its bytes. The byte `/` (0x2F) occurs in UTF-8 text only as the character `/`, so the
  byte-level search and replace of `transform_type` acts on characters in the same way.
  Lengths are counted in characters; replacing one `/` by `__` adds one character and one byte
  alike.
* Code that mutates members (`mutable std::map` members of `JsonEncoding`, the connection object
  of `websocketpp`) is embedded by explicit state passing.
* A C++ exception that leaves a function is an explicit result value.
* The handlers of the server are called one after another, as the thread of the transport
  does; a call that waits for the mutex without end is the result `none`.
-/

namespace WebSocketSH

set_option maxRecDepth 100000

/-! ## `std::string` primitives used by the sources -/

/-- `std::string::find(ch, pos)`: the index of the first occurrence of `ch` at or after `pos`;
`none` stands for `std::string::npos`. -/
def str_find : List Char → Char → Nat → Option Nat
  | [], _, _ => none
  | c :: cs, ch, 0 => if c = ch then some 0 else (str_find cs ch 0).map (· + 1)
  | _ :: cs, ch, pos + 1 => (str_find cs ch pos).map (· + 1)

/-- `std::string::replace(pos, len, str)` for `pos` within the string. -/
def str_replace (s : List Char) (pos len : Nat) (str : List Char) : List Char :=
  s.take pos ++ str ++ s.drop (pos + len)

/-- `std::string::substr(pos, len)` for `pos` within the string. -/
def str_substr (s : List Char) (pos len : Nat) : List Char :=
  (s.drop pos).take len

/-! ## `transform_type` (json_encoding.cpp, lines 179-190) -/

/-- The `for` loop of `transform_type`:
`for (i = type.find('/'); i != npos; i = type.find('/', i)) type.replace(i, 1, "__");`
The second argument is the local `type`, the third the loop variable `i`. The first argument
bounds the number of iterations; `none` is returned when the bound is exhausted before the loop
condition fails. -/
def transform_type_loop : Nat → List Char → Option Nat → Option (List Char)
  | _, type, none => some type
  | 0, _, some _ => none
  | fuel + 1, type, some i =>
      transform_type_loop fuel (str_replace type i 1 ['_', '_'])
        (str_find (str_replace type i 1 ['_', '_']) '/' i)

/-- One run of `transform_type` with an iteration bound of `|message_type| + 1`. -/
def transform_type_run (message_type : String) : Option String :=
  (transform_type_loop (message_type.length + 1) message_type.data
    (str_find message_type.data '/' 0)).map String.mk

/-- The function `transform_type`. A run never returns `none`, as is proved below, so the
default is never used. -/
def transform_type (message_type : String) : String :=
  (transform_type_run message_type).getD message_type

/-- The canonicalization as the specification words it: every `/` is replaced by `__`, every
other character is kept, in order. -/
def canon_reference (s : String) : String :=
  String.mk (s.data.flatMap (fun c => if c = '/' then ['_', '_'] else [c]))

/-! ## JSON values (`json_xtypes::Json`, an alias of `nlohmann::json`)

The JSON library is not part of the sources. Its value type, `find`, `get<std::string>()`,
`dump()` and `parse` are modelled here after the library's documented behaviour (default
template arguments: objects are `std::map`s, so members are kept sorted by key and a key occurs
once; `dump()` without arguments is compact and does not escape non-ASCII characters). -/

/-- A JSON value. Integers are kept exactly. A number with a fraction or an exponent, or outside
the 64-bit ranges, is a `number_float` and is represented by its lexeme: floating-point
arithmetic is not modelled, and `dump()` of such a number is taken to print the lexeme. -/
inductive Json where
  | null
  | boolean (b : Bool)
  | number_integer (n : Int)
  | number_unsigned (n : Nat)
  | number_float (lexeme : String)
  | string (s : String)
  | array (elems : List Json)
  | object (members : List (String × Json))

/-- `std::less<std::string>`: lexicographic comparison. Comparing code points orders the
strings as comparing their UTF-8 bytes does. -/
def str_lt : List Char → List Char → Bool
  | [], [] => false
  | [], _ :: _ => true
  | _ :: _, [] => false
  | a :: as, b :: bs =>
      if a.toNat < b.toNat then true
      else if b.toNat < a.toNat then false
      else str_lt as bs

/-- Assignment `object[key] = v` on the sorted member list of an object. -/
def obj_set : List (String × Json) → String → Json → List (String × Json)
  | [], key, v => [(key, v)]
  | (k, w) :: ms, key, v =>
      if key = k then (k, v) :: ms
      else if str_lt key.data k.data then (key, v) :: (k, w) :: ms
      else (k, w) :: obj_set ms key v

/-- Lookup of a key in the member list of an object. -/
def obj_find : List (String × Json) → String → Option Json
  | [], _ => none
  | (k, w) :: ms, key => if key = k then some w else obj_find ms key

/-- `j.find(key)`: `none` stands for `j.end()`. On a value that is not an object `find`
returns `end()`. -/
def Json.find : Json → String → Option Json
  | Json.object ms, key => obj_find ms key
  | _, _ => none

/-! ### `dump()` -/

/-- A hexadecimal digit, lower case, as printed by the `%04x` of `dump_escaped`. -/
def hex_digit (n : Nat) : Char :=
  if n < 10 then Char.ofNat ('0'.toNat + n) else Char.ofNat ('a'.toNat + (n - 10))

/-- How `dump()` writes one character of a string (`ensure_ascii = false`). -/
def escape_char (c : Char) : List Char :=
  if c = '"' then ['\\', '"']
  else if c = '\\' then ['\\', '\\']
  else if c = '\x08' then ['\\', 'b']
  else if c = '\x0c' then ['\\', 'f']
  else if c = '\n' then ['\\', 'n']
  else if c = '\r' then ['\\', 'r']
  else if c = '\t' then ['\\', 't']
  else if c.toNat ≤ 0x1F then ['\\', 'u', '0', '0', hex_digit (c.toNat / 16), hex_digit (c.toNat % 16)]
  else [c]

/-- The escaped form of a string, without the surrounding quotes. -/
def escape (s : List Char) : List Char :=
  s.flatMap escape_char

/-- Whether `dump()` writes the character otherwise than as itself: the quote, the backslash
and the control characters below U+0020. -/
def needs_escape (c : Char) : Bool :=
  c = '"' || c = '\\' || c.toNat ≤ 0x1F

/-- A string without a character that JSON escapes. -/
def plain (s : String) : Bool :=
  s.data.all (fun c => !needs_escape c)

mutual
/-- The characters of `j.dump()`. -/
def dump_chars : Json → List Char
  | Json.null => ['n', 'u', 'l', 'l']
  | Json.boolean b => if b then ['t', 'r', 'u', 'e'] else ['f', 'a', 'l', 's', 'e']
  | Json.number_integer n => (toString n).data
  | Json.number_unsigned n => (toString n).data
  | Json.number_float l => l.data
  | Json.string s => '"' :: escape s.data ++ ['"']
  | Json.array es => '[' :: dump_elements es ++ [']']
  | Json.object ms => '{' :: dump_members ms ++ ['}']
/-- The elements of an array, separated by commas. -/
def dump_elements : List Json → List Char
  | [] => []
  | e :: es =>
      match es with
      | [] => dump_chars e
      | _ :: _ => dump_chars e ++ ',' :: dump_elements es
/-- The members of an object, separated by commas. -/
def dump_members : List (String × Json) → List Char
  | [] => []
  | (k, v) :: ms =>
      match ms with
      | [] => '"' :: escape k.data ++ '"' :: ':' :: dump_chars v
      | _ :: _ => '"' :: escape k.data ++ '"' :: ':' :: dump_chars v ++ ',' :: dump_members ms
end

/-- `j.dump()`. -/
def Json.dump (j : Json) : String :=
  String.mk (dump_chars j)

/-! ### `Json::parse`

The grammar is that of RFC 8259, as the library reads it with its default arguments: a leading
byte-order mark is skipped, nothing but white space may follow the value, and of two members
with the same key the later one wins. All functions work on the list of characters still to be
read and return what they read together with the rest. -/

/-- White space between tokens. -/
def is_ws (c : Char) : Bool :=
  c = ' ' || c = '\t' || c = '\n' || c = '\r'

/-- Skipping of white space. -/
def skip_ws : List Char → List Char
  | [] => []
  | c :: cs => if is_ws c then skip_ws cs else c :: cs

/-- The value of a hexadecimal digit, either case. -/
def hex_value (c : Char) : Option Nat :=
  if '0'.toNat ≤ c.toNat ∧ c.toNat ≤ '9'.toNat then some (c.toNat - '0'.toNat)
  else if 'a'.toNat ≤ c.toNat ∧ c.toNat ≤ 'f'.toNat then some (c.toNat - 'a'.toNat + 10)
  else if 'A'.toNat ≤ c.toNat ∧ c.toNat ≤ 'F'.toNat then some (c.toNat - 'A'.toNat + 10)
  else none

/-- The four hexadecimal digits after `\u`. -/
def get_codepoint (a b c d : Char) : Option Nat :=
  match hex_value a, hex_value b, hex_value c, hex_value d with
  | some x, some y, some z, some w => some (x * 4096 + y * 256 + z * 16 + w)
  | _, _, _, _ => none

/-- Prepending a character to the string read so far. -/
def push_char (c : Char) (r : Option (List Char × List Char)) : Option (List Char × List Char) :=
  r.map (fun p => (c :: p.1, p.2))

/-- Reading of one escape sequence after its backslash: the character it stands for and the
rest. A `\u` escape of a high surrogate must be followed by a `\u` escape of a low surrogate;
the two stand for one character. -/
def scan_escape : List Char → Option (Char × List Char)
  | [] => none
  | e :: rest1 =>
      if e = '"' then some ('"', rest1)
      else if e = '\\' then some ('\\', rest1)
      else if e = '/' then some ('/', rest1)
      else if e = 'b' then some ('\x08', rest1)
      else if e = 'f' then some ('\x0c', rest1)
      else if e = 'n' then some ('\n', rest1)
      else if e = 'r' then some ('\r', rest1)
      else if e = 't' then some ('\t', rest1)
      else if e = 'u' then
        match rest1 with
        | h1 :: h2 :: h3 :: h4 :: rest2 =>
            match get_codepoint h1 h2 h3 h4 with
            | none => none
            | some cp1 =>
                if 0xD800 ≤ cp1 ∧ cp1 ≤ 0xDBFF then
                  match rest2 with
                  | b2 :: u2 :: l1 :: l2 :: l3 :: l4 :: rest3 =>
                      if b2 = '\\' ∧ u2 = 'u' then
                        match get_codepoint l1 l2 l3 l4 with
                        | none => none
                        | some cp2 =>
                            if 0xDC00 ≤ cp2 ∧ cp2 ≤ 0xDFFF then
                              some (Char.ofNat (0x10000 + (cp1 - 0xD800) * 1024 + (cp2 - 0xDC00)),
                                rest3)
                            else none
                      else none
                  | _ => none
                else if 0xDC00 ≤ cp1 ∧ cp1 ≤ 0xDFFF then none
                else some (Char.ofNat cp1, rest2)
        | _ => none
      else none

/-- Reading of a string after its opening quote, up to and including the closing quote. The
first argument bounds the number of characters and escape sequences read. -/
def scan_string_loop : Nat → List Char → Option (List Char × List Char)
  | 0, _ => none
  | _ + 1, [] => none
  | n + 1, c :: rest =>
      if c = '"' then some ([], rest)
      else if c = '\\' then
        match scan_escape rest with
        | none => none
        | some (d, rest1) => push_char d (scan_string_loop n rest1)
      else if c.toNat < 0x20 then none
      else push_char c (scan_string_loop n rest)

/-- Reading of a string after its opening quote. Every step of the loop reads at least one
character, so the bound is not reached. -/
def scan_string (cs : List Char) : Option (List Char × List Char) :=
  scan_string_loop cs.length cs

/-- A decimal digit. -/
def is_digit (c : Char) : Bool :=
  '0'.toNat ≤ c.toNat && c.toNat ≤ '9'.toNat

/-- The longest run of digits at the front, and the rest. -/
def take_digits : List Char → List Char × List Char
  | [] => ([], [])
  | c :: cs => if is_digit c then (c :: (take_digits cs).1, (take_digits cs).2) else ([], c :: cs)

/-- The number written by a list of digits. -/
def digits_value (ds : List Char) : Nat :=
  ds.foldl (fun acc d => acc * 10 + (d.toNat - '0'.toNat)) 0

/-- The integer part of a number: `0`, or a digit other than `0` followed by digits. -/
def scan_int_part : List Char → Option (List Char × List Char)
  | [] => none
  | c :: cs =>
      if c = '0' then some (['0'], cs)
      else if is_digit c then some (c :: (take_digits cs).1, (take_digits cs).2)
      else none

/-- The optional fraction of a number. -/
def scan_frac : List Char → Option (List Char × List Char)
  | [] => some ([], [])
  | c :: cs =>
      if c = '.' then
        match take_digits cs with
        | ([], _) => none
        | (d :: ds, r) => some ('.' :: d :: ds, r)
      else some ([], c :: cs)

/-- The digits of an exponent, after the letter and the sign `pre`. -/
def scan_exp_digits (pre : List Char) (cs : List Char) : Option (List Char × List Char) :=
  match take_digits cs with
  | ([], _) => none
  | (d :: ds, r) => some (pre ++ d :: ds, r)

/-- The optional exponent of a number. -/
def scan_exp : List Char → Option (List Char × List Char)
  | [] => some ([], [])
  | e :: cs =>
      if e = 'e' ∨ e = 'E' then
        match cs with
        | [] => none
        | s :: cs1 =>
            if s = '+' ∨ s = '-' then scan_exp_digits [e, s] cs1
            else scan_exp_digits [e] (s :: cs1)
      else some ([], e :: cs)

/-- Reading of a number. An integer without sign that fits 64 bits is a `number_unsigned`, an
integer with a minus sign that fits 64 bits is a `number_integer`, every other number is a
`number_float`. -/
def scan_number (cs : List Char) : Option (Json × List Char) :=
  let neg : Bool := cs.head? = some '-'
  let body := if neg then cs.drop 1 else cs
  match scan_int_part body with
  | none => none
  | some (ip, r1) =>
      match scan_frac r1 with
      | none => none
      | some (fp, r2) =>
          match scan_exp r2 with
          | none => none
          | some (ep, r3) =>
              let lexeme := (if neg then ['-'] else []) ++ ip ++ fp ++ ep
              if fp = [] ∧ ep = [] then
                if neg then
                  if digits_value ip ≤ 2 ^ 63 then
                    some (Json.number_integer (- (digits_value ip : Int)), r3)
                  else some (Json.number_float (String.mk lexeme), r3)
                else
                  if digits_value ip < 2 ^ 64 then some (Json.number_unsigned (digits_value ip), r3)
                  else some (Json.number_float (String.mk lexeme), r3)
              else some (Json.number_float (String.mk lexeme), r3)

/-- The elements of an array after the opening bracket, the array being known not to be
empty; `pv` reads one value. The first argument bounds the number of elements. -/
def parse_elements (pv : List Char → Option (Json × List Char)) :
    Nat → List Char → Option (List Json × List Char)
  | 0, _ => none
  | n + 1, cs =>
      match pv cs with
      | none => none
      | some (v, r) =>
          match skip_ws r with
          | [] => none
          | c :: r1 =>
              if c = ',' then (parse_elements pv n r1).map (fun p => (v :: p.1, p.2))
              else if c = ']' then some ([v], r1)
              else none

/-- The members of an object after the opening brace, the object being known not to be empty;
`pv` reads one value and `acc` holds the members read so far. The first argument bounds the
number of members. -/
def parse_members (pv : List Char → Option (Json × List Char)) :
    Nat → List (String × Json) → List Char → Option (List (String × Json) × List Char)
  | 0, _, _ => none
  | n + 1, acc, cs =>
      match skip_ws cs with
      | [] => none
      | q :: r0 =>
          if q = '"' then
            match scan_string r0 with
            | none => none
            | some (key, r1) =>
                match skip_ws r1 with
                | [] => none
                | col :: r2 =>
                    if col = ':' then
                      match pv r2 with
                      | none => none
                      | some (v, r3) =>
                          match skip_ws r3 with
                          | [] => none
                          | c :: r4 =>
                              if c = ',' then
                                parse_members pv n (obj_set acc (String.mk key) v) r4
                              else if c = '}' then some (obj_set acc (String.mk key) v, r4)
                              else none
                    else none
          else none

/-- The rest of the input after the prefix `p`, if the input starts with `p`. -/
def starts_with (p : List Char) (cs : List Char) : Option (List Char) :=
  if p.isPrefixOf cs then some (cs.drop p.length) else none

/-- Reading of one value. The first argument bounds the nesting depth. -/
def parse_value : Nat → List Char → Option (Json × List Char)
  | 0, _ => none
  | fuel + 1, cs =>
      match skip_ws cs with
      | [] => none
      | c :: rest =>
          if c = '{' then
            match skip_ws rest with
            | [] => none
            | d :: rest1 =>
                if d = '}' then some (Json.object [], rest1)
                else (parse_members (parse_value fuel) rest.length [] (d :: rest1)).map
                  (fun p => (Json.object p.1, p.2))
          else if c = '[' then
            match skip_ws rest with
            | [] => none
            | d :: rest1 =>
                if d = ']' then some (Json.array [], rest1)
                else (parse_elements (parse_value fuel) rest.length (d :: rest1)).map
                  (fun p => (Json.array p.1, p.2))
          else if c = '"' then
            (scan_string rest).map (fun p => (Json.string (String.mk p.1), p.2))
          else if c = 't' then
            (starts_with ['r', 'u', 'e'] rest).map (fun r => (Json.boolean true, r))
          else if c = 'f' then
            (starts_with ['a', 'l', 's', 'e'] rest).map (fun r => (Json.boolean false, r))
          else if c = 'n' then
            (starts_with ['u', 'l', 'l'] rest).map (fun r => (Json.null, r))
          else if c = '-' ∨ is_digit c = true then scan_number (c :: rest)
          else none

/-- The input without a leading byte-order mark. -/
def skip_bom : List Char → List Char
  | [] => []
  | c :: r => if c = Char.ofNat 0xFEFF then r else c :: r

/-- `Json::parse(s)`: `none` stands for a thrown `Json::exception` (a parse error). The
nesting depth of a text is less than its length, and so are the numbers of the elements and
members of its arrays and objects, so the bounds used here are never reached by a text that
the grammar accepts. -/
def Json.parse (s : String) : Option Json :=
  match parse_value ((skip_bom s.data).length + 1) (skip_bom s.data) with
  | none => none
  | some (j, r) => if skip_ws r = [] then some j else none

/-! ## Faults

What can end a function of the encoding other than a `return`. -/

/-- Ways in which control leaves a function without returning. -/
inductive Fault where
  /-- A `Json::exception` with the given id leaves the function: `302` is the `type_error` of
  `get<std::string>()` on a value that is not a string, `304` the `type_error` of `at(key)` on a
  value that is not an object, `403` the `out_of_range` of `at(key)` for a missing key. -/
  | json_exception (id : Nat)
  /-- The expression `it.value()` is evaluated with `it == object.end()` on an object. The
  library asserts that this does not happen; without assertions the behaviour is undefined. -/
  | end_iterator_value
  deriving DecidableEq, Repr

/-- `j.get<std::string>()`. -/
def Json.get_string : Json → Except Fault String
  | Json.string s => Except.ok s
  | _ => Except.error (Fault.json_exception 302)

/-- `j.at(key)`. -/
def Json.at : Json → String → Except Fault Json
  | Json.object ms, key =>
      match obj_find ms key with
      | some v => Except.ok v
      | none => Except.error (Fault.json_exception 403)
  | _, _ => Except.error (Fault.json_exception 304)

/-! ## Dynamic types and values (`xtypes`, `json_xtypes`)

These libraries are not part of the sources. The encoding reads the name of a type and
otherwise only stores types and passes types and values on. -/

/-- `xtypes::DynamicType`: a name and a description of the members (member name and the name of
the member's type). -/
structure DynamicType where
  name : String
  members : List (String × String) := []
  deriving DecidableEq, Repr

/-- `xtypes::DynamicData`: a value of a dynamic type. The encoding never looks into a value;
its content is kept as a tree. -/
structure DynamicData where
  type : DynamicType
  content : Json

/-- The two exceptions that the conversion functions of `json_xtypes` throw. -/
inductive ConvertError where
  | UnsupportedType
  | JsonException
  deriving DecidableEq, Repr

/-- The two overloads of `json_xtypes::convert`. Their bodies are not part of the sources, so
every definition that converts takes them as an argument of this type. -/
structure JsonXtypes where
  /-- `json_xtypes::convert(type, json)`: a JSON value to a value of the given type. -/
  to_data : DynamicType → Json → Except ConvertError DynamicData
  /-- `json_xtypes::convert(data)`: a value to JSON. -/
  to_json : DynamicData → Except ConvertError Json

/-! ## Message fields and op codes (json_encoding.cpp, lines 37-61) -/

def JsonOpKey : String := "op"
def JsonIdKey : String := "id"
def JsonTopicNameKey : String := "topic"
def JsonTypeNameKey : String := "type"
def JsonRequestTypeNameKey : String := "request_type"
def JsonReplyTypeNameKey : String := "reply_type"
def JsonMsgKey : String := "msg"
def JsonServiceKey : String := "service"
def JsonArgsKey : String := "args"
def JsonValuesKey : String := "values"
def JsonResultKey : String := "result"

def JsonOpAdvertiseTopicKey : String := "advertise"
def JsonOpUnadvertiseTopicKey : String := "unadvertise"
def JsonOpPublishKey : String := "publish"
def JsonOpSubscribeKey : String := "subscribe"
def JsonOpUnsubscribeKey : String := "unsubscribe"
def JsonOpServiceRequestKey : String := "call_service"
def JsonOpAdvertiseServiceKey : String := "advertise_service"
def JsonOpUnadvertiseServiceKey : String := "unadvertise_service"
def JsonOpServiceResponseKey : String := "service_response"

/-! ## Field extraction (json_encoding.cpp, lines 193-280) -/

/-- The function `throw_missing_key`: it evaluates `object.at("op").get<std::string>()` and
writes a log line. Despite its name it throws nothing of its own. -/
def throw_missing_key (object : Json) (_key : String) : Except Fault Unit :=
  match object.at "op" with
  | Except.error f => Except.error f
  | Except.ok v =>
      match v.get_string with
      | Except.error f => Except.error f
      | Except.ok _ => Except.ok ()

/-- The common tail of `get_optional_string` and `get_required_string`: the text `temp_str`
of `it.value().dump()`, without its first and last character if it starts with a quote:
`if (temp_str.find("\"") == 0) return temp_str.substr(1, temp_str.size() - 2);`.
The difference `temp_str.size() - 2` is computed in `size_t`. It is exact for a size of at least
2; for the size 1 it wraps around to `2^64 - 1`, and `substr(1, 2^64 - 1)` is then the empty
rest of the string, which is also what the truncated difference `0` used here gives. -/
def trim_quotes (temp_str : List Char) : List Char :=
  if str_find temp_str '"' 0 = some 0 then str_substr temp_str 1 (temp_str.length - 2)
  else temp_str

/-- The function `get_optional_string`. -/
def get_optional_string (object : Json) (key : String) : String :=
  match object.find key with
  | none => ""
  | some value => String.mk (trim_quotes value.dump.data)

/-- The function `get_required_string`. When the key is missing, `throw_missing_key` is called
and, if it returns, `it.value()` is evaluated on the end iterator. -/
def get_required_string (object : Json) (key : String) : Except Fault String :=
  match object.find key with
  | none =>
      match throw_missing_key object key with
      | Except.error f => Except.error f
      | Except.ok _ => Except.error Fault.end_iterator_value
  | some value => Except.ok (String.mk (trim_quotes value.dump.data))

/-- The function `get_required_msg`, for a `dynamicdata` of type `type`. The result `some d`
stands for `true`, with `d` assigned to `dynamicdata`; `none` stands for `false`, which is
returned when the conversion throws one of the two exceptions that are caught. -/
def get_required_msg (X : JsonXtypes) (object : Json) (type : DynamicType) (key : String) :
    Except Fault (Option DynamicData) :=
  match object.find key with
  | none =>
      match throw_missing_key object key with
      | Except.error f => Except.error f
      | Except.ok _ => Except.error Fault.end_iterator_value
  | some value =>
      match X.to_data type value with
      | Except.ok d => Except.ok (some d)
      | Except.error _ => Except.ok none

/-! ## The state of a `JsonEncoding` (json_encoding.cpp, lines 763-767) -/

/-- A `std::map<std::string, V>`, as the partial function from keys to values that it
represents. -/
abbrev StdMap (V : Type) := String → Option V

/-- The empty map. -/
def StdMap.empty {V : Type} : StdMap V :=
  fun _ => none

/-- The statement `m[key] = v`. -/
def StdMap.assign {V : Type} (m : StdMap V) (key : String) (v : V) : StdMap V :=
  fun k => if k = key then some v else m k

/-- The expression `m[key]` read as a value: the mapped value, after a value-initialized entry
was inserted if there was none. The result is the value and the map afterwards. -/
def StdMap.index {V : Type} (m : StdMap V) (key : String) (dflt : V) : V × StdMap V :=
  match m key with
  | some v => (v, m)
  | none => (dflt, m.assign key dflt)

/-- The call `m.emplace(key, v)`: the map afterwards and whether the insertion took place. -/
def StdMap.emplace {V : Type} (m : StdMap V) (key : String) (v : V) : StdMap V × Bool :=
  match m key with
  | some _ => (m, false)
  | none => (m.assign key v, true)

/-- The data members of `JsonEncoding`: the type registry, the topic bindings and the service
bindings (request type name, reply type name). -/
structure JsonEncoding where
  types_ : StdMap DynamicType
  types_by_topic_ : StdMap String
  types_by_service_ : StdMap (String × String)

/-- The method `JsonEncoding::get_type` (lines 702-718): `none` stands for `nullptr`. -/
def JsonEncoding.get_type (self : JsonEncoding) (type_name : String) : Option DynamicType :=
  self.types_ (transform_type type_name)

/-- The method `JsonEncoding::add_type` (lines 720-727). -/
def JsonEncoding.add_type (self : JsonEncoding) (type : DynamicType) (type_name : String) :
    JsonEncoding × Bool :=
  let name := transform_type (if type_name = "" then type.name else type_name)
  let result := self.types_.emplace name type
  ({ self with types_ := result.1 }, result.2)

/-- The method `JsonEncoding::get_type_by_topic` (lines 729-733). The subscript
`types_by_topic_[topic_name]` acts on a `mutable` member, so the encoding afterwards is part of
the result. -/
def JsonEncoding.get_type_by_topic (self : JsonEncoding) (topic_name : String) :
    Option DynamicType × JsonEncoding :=
  let r := self.types_by_topic_.index topic_name ""
  let self1 := { self with types_by_topic_ := r.2 }
  (self1.get_type r.1, self1)

/-- The method `JsonEncoding::get_req_type_from_service` (lines 735-747). -/
def JsonEncoding.get_req_type_from_service (self : JsonEncoding) (service_name : String) :
    Option DynamicType × JsonEncoding :=
  let r := self.types_by_service_.index service_name ("", "")
  let self1 := { self with types_by_service_ := r.2 }
  let req_type := r.1.1
  if req_type = "" then (none, self1) else (self1.get_type req_type, self1)

/-- The method `JsonEncoding::get_rep_type_from_service` (lines 749-761). -/
def JsonEncoding.get_rep_type_from_service (self : JsonEncoding) (service_name : String) :
    Option DynamicType × JsonEncoding :=
  let r := self.types_by_service_.index service_name ("", "")
  let self1 := { self with types_by_service_ := r.2 }
  let rep_type := r.1.2
  if rep_type = "" then (none, self1) else (self1.get_type rep_type, self1)

/-- The structs of the rosbridge protocol declared in the IDL text `idl_messages`
(lines 64-176), in the order of the text, each with its members. The IDL parser belongs to the
`xtypes` library; what `xtypes::idl::parse(idl_messages).get_all_types()` returns is taken to
be these structs under their names. -/
def idl_messages : List DynamicType :=
  [ { name := "fragment",
      members := [("id", "string"), ("data", "string"), ("num", "int32"), ("total", "int32")] },
    { name := "png",
      members := [("id", "string"), ("data", "string"), ("num", "int32"), ("total", "int32")] },
    { name := "cbor", members := [("data", "sequence<int8>")] },
    { name := "set_level", members := [("id", "string"), ("level", "string")] },
    { name := "status", members := [("id", "string"), ("level", "string"), ("msg", "string")] },
    { name := "auth",
      members := [("mac", "string"), ("client", "string"), ("dest", "string"),
        ("rand", "string"), ("t", "int32"), ("level", "string"), ("end", "int32")] },
    { name := "advertise", members := [("id", "string"), ("topic", "string"), ("type", "string")] },
    { name := "unadvertise", members := [("id", "string"), ("topic", "string")] },
    { name := "publish", members := [("id", "string"), ("topic", "string"), ("msg", "string")] },
    { name := "subscribe",
      members := [("id", "string"), ("topic", "string"), ("type", "string"),
        ("throttle_rate", "int32"), ("queue_length", "int32"), ("fragment_size", "int32"),
        ("compression", "string")] },
    { name := "unsubscribe", members := [("id", "string"), ("topic", "string")] },
    { name := "call_service",
      members := [("id", "string"), ("service", "string"), ("args", "sequence<string>"),
        ("fragment_size", "int32"), ("compression", "string")] },
    { name := "advertise_service", members := [("type", "string"), ("service", "string")] },
    { name := "unadvertise_service", members := [("service", "string")] },
    { name := "service_response",
      members := [("id", "string"), ("service", "string"), ("values", "sequence<string>"),
        ("result", "boolean")] } ]

/-- The constructor `JsonEncoding::JsonEncoding()` (lines 292-295), which is what
`make_json_encoding()` (lines 772-775) returns: the registry holds the structs of the built-in
IDL, and there are no bindings. -/
def make_json_encoding : JsonEncoding :=
  { types_ := fun key => idl_messages.find? (fun type => type.name = key),
    types_by_topic_ := StdMap.empty,
    types_by_service_ := StdMap.empty }

/-! ## Decoding: `JsonEncoding::interpret_websocket_msg` (lines 297-491) -/

/-- The connection handle `std::shared_ptr<void>`, by its identity. -/
abbrev ConnectionHandle := Nat

/-- A call of one of the `receive_*_ws` methods of `Endpoint` (Endpoint.hpp), with its
arguments. A `const DynamicType*` argument is an `Option`, `none` standing for `nullptr`. -/
inductive EndpointCall where
  | receive_topic_advertisement_ws (topic_name : String) (message_type : DynamicType)
      (id : String) (connection_handle : ConnectionHandle)
  | receive_topic_unadvertisement_ws (topic_name : String) (id : String)
      (connection_handle : ConnectionHandle)
  | receive_publication_ws (topic_name : String) (message : DynamicData)
      (connection_handle : ConnectionHandle)
  | receive_subscribe_request_ws (topic_name : String) (message_type : Option DynamicType)
      (id : String) (connection_handle : ConnectionHandle)
  | receive_unsubscribe_request_ws (topic_name : String) (id : String)
      (connection_handle : ConnectionHandle)
  | receive_service_request_ws (service_name : String) (request : DynamicData) (id : String)
      (connection_handle : ConnectionHandle)
  | receive_service_advertisement_ws (service_name : String) (req_type : DynamicType)
      (reply_type : DynamicType) (connection_handle : ConnectionHandle)
  | receive_service_unadvertisement_ws (service_name : String) (service_type : Option DynamicType)
      (connection_handle : ConnectionHandle)
  | receive_service_response_ws (service_name : String) (response : DynamicData) (id : String)
      (connection_handle : ConnectionHandle)

/-- How a call of `interpret_websocket_msg` ends. -/
inductive Exit where
  | returned
  | fault (f : Fault)
  deriving DecidableEq, Repr

/-- What a call of `interpret_websocket_msg` does: how it ends, the encoding afterwards, and
the calls made on the endpoint, in order. The bodies of the `receive_*_ws` methods are not part
of the sources (only Endpoint.hpp is); a call is recorded with its arguments, and the encoding
afterwards is the one that the statements of `interpret_websocket_msg` themselves leave. -/
structure Interpreted where
  exit : Exit
  encoding : JsonEncoding
  calls : List EndpointCall

/-- The branch `op_str == JsonOpPublishKey` (lines 336-354). -/
def interpret_publish (X : JsonXtypes) (self : JsonEncoding) (msg : Json)
    (connection_handle : ConnectionHandle) : Interpreted :=
  match get_required_string msg JsonTopicNameKey with
  | Except.error f => ⟨Exit.fault f, self, []⟩
  | Except.ok topic_name =>
      match self.get_type_by_topic topic_name with
      | (none, self1) => ⟨Exit.returned, self1, []⟩
      | (some dest_type, self1) =>
          match get_required_msg X msg dest_type JsonMsgKey with
          | Except.error f => ⟨Exit.fault f, self1, []⟩
          | Except.ok none => ⟨Exit.returned, self1, []⟩
          | Except.ok (some dest_data) =>
              ⟨Exit.returned, self1,
                [EndpointCall.receive_publication_ws topic_name dest_data connection_handle]⟩

/-- The branch `op_str == JsonOpServiceRequestKey` (lines 358-377). -/
def interpret_call_service (X : JsonXtypes) (self : JsonEncoding) (msg : Json)
    (connection_handle : ConnectionHandle) : Interpreted :=
  match get_required_string msg JsonServiceKey with
  | Except.error f => ⟨Exit.fault f, self, []⟩
  | Except.ok service_name =>
      match self.get_req_type_from_service service_name with
      | (none, self1) => ⟨Exit.returned, self1, []⟩
      | (some dest_type, self1) =>
          match get_required_msg X msg dest_type JsonArgsKey with
          | Except.error f => ⟨Exit.fault f, self1, []⟩
          | Except.ok none => ⟨Exit.returned, self1, []⟩
          | Except.ok (some dest_data) =>
              ⟨Exit.returned, self1,
                [EndpointCall.receive_service_request_ws service_name dest_data
                  (get_optional_string msg JsonIdKey) connection_handle]⟩

/-- The branch `op_str == JsonOpServiceResponseKey` (lines 381-400). -/
def interpret_service_response (X : JsonXtypes) (self : JsonEncoding) (msg : Json)
    (connection_handle : ConnectionHandle) : Interpreted :=
  match get_required_string msg JsonServiceKey with
  | Except.error f => ⟨Exit.fault f, self, []⟩
  | Except.ok service_name =>
      match self.get_rep_type_from_service service_name with
      | (none, self1) => ⟨Exit.returned, self1, []⟩
      | (some dest_type, self1) =>
          match get_required_msg X msg dest_type JsonValuesKey with
          | Except.error f => ⟨Exit.fault f, self1, []⟩
          | Except.ok none => ⟨Exit.returned, self1, []⟩
          | Except.ok (some dest_data) =>
              match get_required_string msg JsonServiceKey with
              | Except.error f => ⟨Exit.fault f, self1, []⟩
              | Except.ok service_name2 =>
                  ⟨Exit.returned, self1,
                    [EndpointCall.receive_service_response_ws service_name2 dest_data
                      (get_optional_string msg JsonIdKey) connection_handle]⟩

/-- The branch `op_str == JsonOpAdvertiseTopicKey` (lines 402-416). -/
def interpret_advertise (self : JsonEncoding) (msg : Json)
    (connection_handle : ConnectionHandle) : Interpreted :=
  match get_required_string msg JsonTypeNameKey with
  | Except.error f => ⟨Exit.fault f, self, []⟩
  | Except.ok type_name =>
      match self.get_type type_name with
      | none => ⟨Exit.returned, self, []⟩
      | some topic_type =>
          match get_required_string msg JsonTopicNameKey with
          | Except.error f => ⟨Exit.fault f, self, []⟩
          | Except.ok topic_name =>
              ⟨Exit.returned, self,
                [EndpointCall.receive_topic_advertisement_ws topic_name topic_type
                  (get_optional_string msg JsonIdKey) connection_handle]⟩

/-- The branch `op_str == JsonOpUnadvertiseTopicKey` (lines 418-425). -/
def interpret_unadvertise (self : JsonEncoding) (msg : Json)
    (connection_handle : ConnectionHandle) : Interpreted :=
  match get_required_string msg JsonTopicNameKey with
  | Except.error f => ⟨Exit.fault f, self, []⟩
  | Except.ok topic_name =>
      ⟨Exit.returned, self,
        [EndpointCall.receive_topic_unadvertisement_ws topic_name
          (get_optional_string msg JsonIdKey) connection_handle]⟩

/-- The branch `op_str == JsonOpSubscribeKey` (lines 427-441). -/
def interpret_subscribe (self : JsonEncoding) (msg : Json)
    (connection_handle : ConnectionHandle) : Interpreted :=
  match self.get_type (get_optional_string msg JsonTypeNameKey) with
  | none => ⟨Exit.returned, self, []⟩
  | some topic_type =>
      match get_required_string msg JsonTopicNameKey with
      | Except.error f => ⟨Exit.fault f, self, []⟩
      | Except.ok topic_name =>
          ⟨Exit.returned, self,
            [EndpointCall.receive_subscribe_request_ws topic_name (some topic_type)
              (get_optional_string msg JsonIdKey) connection_handle]⟩

/-- The branch `op_str == JsonOpUnsubscribeKey` (lines 443-450). -/
def interpret_unsubscribe (self : JsonEncoding) (msg : Json)
    (connection_handle : ConnectionHandle) : Interpreted :=
  match get_required_string msg JsonTopicNameKey with
  | Except.error f => ⟨Exit.fault f, self, []⟩
  | Except.ok topic_name =>
      ⟨Exit.returned, self,
        [EndpointCall.receive_unsubscribe_request_ws topic_name
          (get_optional_string msg JsonIdKey) connection_handle]⟩

/-- The branch `op_str == JsonOpAdvertiseServiceKey` (lines 452-472). -/
def interpret_advertise_service (self : JsonEncoding) (msg : Json)
    (connection_handle : ConnectionHandle) : Interpreted :=
  match get_required_string msg JsonRequestTypeNameKey with
  | Except.error f => ⟨Exit.fault f, self, []⟩
  | Except.ok request_type_name =>
      let req_type := self.get_type request_type_name
      match get_required_string msg JsonReplyTypeNameKey with
      | Except.error f => ⟨Exit.fault f, self, []⟩
      | Except.ok reply_type_name =>
          let reply_type := self.get_type reply_type_name
          match req_type, reply_type with
          | some req, some reply =>
              match get_required_string msg JsonServiceKey with
              | Except.error f => ⟨Exit.fault f, self, []⟩
              | Except.ok service_name =>
                  ⟨Exit.returned,
                    { self with
                      types_by_service_ := self.types_by_service_.assign service_name
                        (transform_type request_type_name, transform_type reply_type_name) },
                    [EndpointCall.receive_service_advertisement_ws service_name req reply
                      connection_handle]⟩
          | _, _ => ⟨Exit.returned, self, []⟩

/-- The branch `op_str == JsonOpUnadvertiseServiceKey` (lines 474-487). -/
def interpret_unadvertise_service (self : JsonEncoding) (msg : Json)
    (connection_handle : ConnectionHandle) : Interpreted :=
  match self.get_type (get_optional_string msg JsonTypeNameKey) with
  | none => ⟨Exit.returned, self, []⟩
  | some topic_type =>
      match get_required_string msg JsonServiceKey with
      | Except.error f => ⟨Exit.fault f, self, []⟩
      | Except.ok service_name =>
          ⟨Exit.returned, self,
            [EndpointCall.receive_service_unadvertisement_ws service_name (some topic_type)
              connection_handle]⟩

/-- The dispatch on `op_str` (lines 336-490), in the order of the source. -/
def interpret_op (X : JsonXtypes) (self : JsonEncoding) (msg : Json) (op_str : String)
    (connection_handle : ConnectionHandle) : Interpreted :=
  if op_str = JsonOpPublishKey then interpret_publish X self msg connection_handle
  else if op_str = JsonOpServiceRequestKey then
    interpret_call_service X self msg connection_handle
  else if op_str = JsonOpServiceResponseKey then
    interpret_service_response X self msg connection_handle
  else if op_str = JsonOpAdvertiseTopicKey then interpret_advertise self msg connection_handle
  else if op_str = JsonOpUnadvertiseTopicKey then
    interpret_unadvertise self msg connection_handle
  else if op_str = JsonOpSubscribeKey then interpret_subscribe self msg connection_handle
  else if op_str = JsonOpUnsubscribeKey then interpret_unsubscribe self msg connection_handle
  else if op_str = JsonOpAdvertiseServiceKey then
    interpret_advertise_service self msg connection_handle
  else if op_str = JsonOpUnadvertiseServiceKey then
    interpret_unadvertise_service self msg connection_handle
  else ⟨Exit.returned, self, []⟩

/-- The keys that the decoder looks up in a frame whose op code is `op_str`: `op`, and the keys
passed to `get_required_string`, `get_optional_string` and `get_required_msg` in the branch of
`interpret_websocket_msg` taken for that op code (lines 336-490). -/
def fields_read (op_str : String) : List String :=
  if op_str = JsonOpPublishKey then [JsonOpKey, JsonTopicNameKey, JsonMsgKey]
  else if op_str = JsonOpServiceRequestKey then
    [JsonOpKey, JsonServiceKey, JsonArgsKey, JsonIdKey]
  else if op_str = JsonOpServiceResponseKey then
    [JsonOpKey, JsonServiceKey, JsonValuesKey, JsonIdKey]
  else if op_str = JsonOpAdvertiseTopicKey then
    [JsonOpKey, JsonTypeNameKey, JsonTopicNameKey, JsonIdKey]
  else if op_str = JsonOpUnadvertiseTopicKey then [JsonOpKey, JsonTopicNameKey, JsonIdKey]
  else if op_str = JsonOpSubscribeKey then
    [JsonOpKey, JsonTypeNameKey, JsonTopicNameKey, JsonIdKey]
  else if op_str = JsonOpUnsubscribeKey then [JsonOpKey, JsonTopicNameKey, JsonIdKey]
  else if op_str = JsonOpAdvertiseServiceKey then
    [JsonOpKey, JsonRequestTypeNameKey, JsonReplyTypeNameKey, JsonServiceKey]
  else if op_str = JsonOpUnadvertiseServiceKey then [JsonOpKey, JsonTypeNameKey, JsonServiceKey]
  else [JsonOpKey]

/-- The method `JsonEncoding::interpret_websocket_msg` on an already parsed message: the part
of the body after the `try` block around `Json::parse` (lines 315-491). -/
def interpret_json (X : JsonXtypes) (self : JsonEncoding) (msg : Json)
    (connection_handle : ConnectionHandle) : Interpreted :=
  match msg.find JsonOpKey with
  | none => ⟨Exit.returned, self, []⟩
  | some op_value =>
      match op_value.get_string with
      | Except.error f => ⟨Exit.fault f, self, []⟩
      | Except.ok op_str => interpret_op X self msg op_str connection_handle

/-- The method `JsonEncoding::interpret_websocket_msg`. The lookup `types_.find(op_str)`
(lines 326-332) fills a local variable that is not read again and is left out. -/
def JsonEncoding.interpret_websocket_msg (X : JsonXtypes) (self : JsonEncoding)
    (msg_str : String) (connection_handle : ConnectionHandle) : Interpreted :=
  match Json.parse msg_str with
  | none => ⟨Exit.returned, self, []⟩
  | some msg => interpret_json X self msg connection_handle

/-! ## Encoding: the `encode_*_msg` methods (lines 493-700) -/

/-- The statement `output[key] = v` on a `Json output` that is `null` (as default-constructed)
or an object. On any other value the library throws; the encoders never get there. -/
def Json.set : Json → String → Json → Json
  | Json.null, key, v => Json.object [(key, v)]
  | Json.object ms, key, v => Json.object (obj_set ms key v)
  | j, _, _ => j

/-- The method `encode_publication_msg` (lines 493-532), for arguments that are text: the
returned string and the encoding afterwards. When the conversion of `msg` throws, the empty
string is returned. For an `id` that is any sequence of bytes see
`encode_publication_msg_bytes`. -/
def JsonEncoding.encode_publication_msg (X : JsonXtypes) (self : JsonEncoding)
    (topic_name topic_type id : String) (msg : DynamicData) : String × JsonEncoding :=
  match X.to_json msg with
  | Except.error _ => ("", self)
  | Except.ok converted =>
      let output := ((Json.null.set JsonOpKey (Json.string JsonOpPublishKey)).set
        JsonTopicNameKey (Json.string topic_name)).set JsonMsgKey converted
      let output := if ¬ id = "" then output.set JsonIdKey (Json.string id) else output
      (output.dump,
        { self with
          types_by_topic_ := self.types_by_topic_.assign topic_name (transform_type topic_type) })

/-- The method `encode_service_response_msg` (lines 534-585), for arguments that are text; for
an `id` that is any sequence of bytes see `encode_service_response_msg_bytes`. -/
def JsonEncoding.encode_service_response_msg (X : JsonXtypes) (self : JsonEncoding)
    (service_name service_type id : String) (response : DynamicData) (result : Bool) :
    String × JsonEncoding :=
  match X.to_json response with
  | Except.error _ => ("", self)
  | Except.ok converted =>
      let output := (((Json.null.set JsonOpKey (Json.string JsonOpServiceResponseKey)).set
        JsonServiceKey (Json.string service_name)).set JsonValuesKey converted).set
        JsonResultKey (Json.boolean result)
      let output := if ¬ id = "" then output.set JsonIdKey (Json.string id) else output
      let binding : String × String :=
        match self.types_by_service_ service_name with
        | some it => (it.1, transform_type service_type)
        | none => ("", transform_type service_type)
      (output.dump,
        { self with types_by_service_ := self.types_by_service_.assign service_name binding })

/-- The method `encode_subscribe_msg` (lines 587-607). -/
def JsonEncoding.encode_subscribe_msg (self : JsonEncoding)
    (topic_name message_type id : String) : String × JsonEncoding :=
  let output := ((Json.null.set JsonOpKey (Json.string JsonOpSubscribeKey)).set
    JsonTopicNameKey (Json.string topic_name)).set
    JsonTypeNameKey (Json.string (transform_type message_type))
  let output := if ¬ id = "" then output.set JsonIdKey (Json.string id) else output
  (output.dump,
    { self with
      types_by_topic_ := self.types_by_topic_.assign topic_name (transform_type message_type) })

/-- The method `encode_advertise_msg` (lines 609-627). -/
def JsonEncoding.encode_advertise_msg (self : JsonEncoding)
    (topic_name message_type id : String) : String × JsonEncoding :=
  let output := ((Json.null.set JsonOpKey (Json.string JsonOpAdvertiseTopicKey)).set
    JsonTopicNameKey (Json.string topic_name)).set
    JsonTypeNameKey (Json.string (transform_type message_type))
  let output := if ¬ id = "" then output.set JsonIdKey (Json.string id) else output
  (output.dump,
    { self with
      types_by_topic_ := self.types_by_topic_.assign topic_name (transform_type message_type) })

/-- The method `encode_call_service_msg` (lines 629-681), for arguments that are text; for an
`id` that is any sequence of bytes see `encode_call_service_msg_bytes`. -/
def JsonEncoding.encode_call_service_msg (X : JsonXtypes) (self : JsonEncoding)
    (service_name service_type : String) (service_request : DynamicData) (id : String) :
    String × JsonEncoding :=
  match X.to_json service_request with
  | Except.error _ => ("", self)
  | Except.ok converted =>
      let output := ((Json.null.set JsonOpKey (Json.string JsonOpServiceRequestKey)).set
        JsonServiceKey (Json.string service_name)).set JsonArgsKey converted
      let output := if ¬ id = "" then output.set JsonIdKey (Json.string id) else output
      let binding : String × String :=
        match self.types_by_service_ service_name with
        | some it => (transform_type service_type, it.2)
        | none => (transform_type service_type, "")
      (output.dump,
        { self with types_by_service_ := self.types_by_service_.assign service_name binding })

/-- The method `encode_advertise_service_msg` (lines 683-700); the `id` is not used. -/
def JsonEncoding.encode_advertise_service_msg (self : JsonEncoding)
    (service_name request_type reply_type : String) (_id : String) : String × JsonEncoding :=
  let output := (((Json.null.set JsonOpKey (Json.string JsonOpAdvertiseServiceKey)).set
    JsonRequestTypeNameKey (Json.string (transform_type request_type))).set
    JsonReplyTypeNameKey (Json.string (transform_type reply_type))).set
    JsonServiceKey (Json.string service_name)
  (output.dump,
    { self with
      types_by_service_ := self.types_by_service_.assign service_name
        (transform_type request_type, transform_type reply_type) })

/-! ## Encoding with an `id` that is not UTF-8 text (lines 493-585, 629-681)

A `std::string` holds bytes. `dump()` checks every string of the value, byte by byte, and
throws `type_error.316` when the bytes are not well-formed UTF-8. In the three encoders that
have a `try` block, `output.dump()` stands inside it, after the statement that writes the
binding, and `catch (const json_xtypes::Json::exception&)` catches the exception. The
definitions below embed this path for the argument `id`, given as its bytes; topic, service
and type names are text as before. -/

/-- The UTF-8 decoder of `dump()`, byte by byte. `pending` lists the ranges allowed for the
continuation bytes still to come, `codep` is the code point read so far. The result is `none`
when the bytes are not well-formed UTF-8, which is when `dump()` throws `type_error.316`:
a byte that cannot start a character, a byte outside the range allowed for its place, or an
end of the bytes inside a character. -/
def utf8_decode_from : List Nat → List (Nat × Nat) → Nat → Option (List Char)
  | [], [], _ => some []
  | [], _ :: _, _ => none
  | b :: rest, [], _ =>
      if b ≤ 0x7F then (utf8_decode_from rest [] 0).map (fun cs => Char.ofNat b :: cs)
      else if 0xC2 ≤ b ∧ b ≤ 0xDF then utf8_decode_from rest [(0x80, 0xBF)] (b - 0xC0)
      else if b = 0xE0 then utf8_decode_from rest [(0xA0, 0xBF), (0x80, 0xBF)] 0
      else if b = 0xED then utf8_decode_from rest [(0x80, 0x9F), (0x80, 0xBF)] 0x0D
      else if 0xE1 ≤ b ∧ b ≤ 0xEF then
        utf8_decode_from rest [(0x80, 0xBF), (0x80, 0xBF)] (b - 0xE0)
      else if b = 0xF0 then
        utf8_decode_from rest [(0x90, 0xBF), (0x80, 0xBF), (0x80, 0xBF)] 0
      else if b = 0xF4 then
        utf8_decode_from rest [(0x80, 0x8F), (0x80, 0xBF), (0x80, 0xBF)] 4
      else if 0xF1 ≤ b ∧ b ≤ 0xF3 then
        utf8_decode_from rest [(0x80, 0xBF), (0x80, 0xBF), (0x80, 0xBF)] (b - 0xF0)
      else none
  | b :: rest, (low, high) :: pending, codep =>
      if low ≤ b ∧ b ≤ high then
        match pending with
        | [] =>
            (utf8_decode_from rest [] 0).map
              (fun cs => Char.ofNat (codep * 64 + (b - 0x80)) :: cs)
        | _ :: _ => utf8_decode_from rest pending (codep * 64 + (b - 0x80))
      else none

/-- The text that the bytes of a `std::string` are, if they are well-formed UTF-8. -/
def utf8_decode (bytes : List Nat) : Option String :=
  (utf8_decode_from bytes [] 0).map String.mk

/-- The method `encode_publication_msg` (lines 493-532) for an `id` given as its bytes. When
`output.dump()` throws because of the `id`, the binding is written already and the empty
string is returned. -/
def JsonEncoding.encode_publication_msg_bytes (X : JsonXtypes) (self : JsonEncoding)
    (topic_name topic_type : String) (id : List Nat) (msg : DynamicData) :
    String × JsonEncoding :=
  match X.to_json msg with
  | Except.error _ => ("", self)
  | Except.ok converted =>
      let self1 := { self with
        types_by_topic_ := self.types_by_topic_.assign topic_name (transform_type topic_type) }
      match utf8_decode id with
      | none => ("", self1)
      | some id_text =>
          let output := ((Json.null.set JsonOpKey (Json.string JsonOpPublishKey)).set
            JsonTopicNameKey (Json.string topic_name)).set JsonMsgKey converted
          let output :=
            if ¬ id_text = "" then output.set JsonIdKey (Json.string id_text) else output
          (output.dump, self1)

/-- The method `encode_service_response_msg` (lines 534-585) for an `id` given as its
bytes. -/
def JsonEncoding.encode_service_response_msg_bytes (X : JsonXtypes) (self : JsonEncoding)
    (service_name service_type : String) (id : List Nat) (response : DynamicData)
    (result : Bool) : String × JsonEncoding :=
  match X.to_json response with
  | Except.error _ => ("", self)
  | Except.ok converted =>
      let binding : String × String :=
        match self.types_by_service_ service_name with
        | some it => (it.1, transform_type service_type)
        | none => ("", transform_type service_type)
      let self1 := { self with
        types_by_service_ := self.types_by_service_.assign service_name binding }
      match utf8_decode id with
      | none => ("", self1)
      | some id_text =>
          let output := (((Json.null.set JsonOpKey (Json.string JsonOpServiceResponseKey)).set
            JsonServiceKey (Json.string service_name)).set JsonValuesKey converted).set
            JsonResultKey (Json.boolean result)
          let output :=
            if ¬ id_text = "" then output.set JsonIdKey (Json.string id_text) else output
          (output.dump, self1)

/-- The method `encode_call_service_msg` (lines 629-681) for an `id` given as its bytes. -/
def JsonEncoding.encode_call_service_msg_bytes (X : JsonXtypes) (self : JsonEncoding)
    (service_name service_type : String) (service_request : DynamicData) (id : List Nat) :
    String × JsonEncoding :=
  match X.to_json service_request with
  | Except.error _ => ("", self)
  | Except.ok converted =>
      let binding : String × String :=
        match self.types_by_service_ service_name with
        | some it => (transform_type service_type, it.2)
        | none => (transform_type service_type, "")
      let self1 := { self with
        types_by_service_ := self.types_by_service_.assign service_name binding }
      match utf8_decode id with
      | none => ("", self1)
      | some id_text =>
          let output := ((Json.null.set JsonOpKey (Json.string JsonOpServiceRequestKey)).set
            JsonServiceKey (Json.string service_name)).set JsonArgsKey converted
          let output :=
            if ¬ id_text = "" then output.set JsonIdKey (Json.string id_text) else output
          (output.dump, self1)

/-! ## Connection admission: `Server::_handle_validate` (Server.cpp, lines 770-836) -/

/-- The value `websocketpp::http::status_code::unauthorized`. -/
def unauthorized : Nat := 401

/-- What `JwtValidator::verify(token)` does, seen from its caller: it returns, or it throws
`jwt::VerificationError` (JwtValidator.hpp, lines 84-92). -/
inductive VerifyOutcome where
  | returns
  | throws_VerificationError (what : String)
  deriving DecidableEq, Repr

/-- The class `JwtValidator`, as far as `Server` uses it. The body of `verify` is not part of
the sources at hand, so it is a field here: any function from tokens to outcomes. -/
structure JwtValidator where
  verify : String → VerifyOutcome

/-- The part of a `websocketpp` connection that `_handle_validate` reads and writes:
`get_requested_subprotocols()`, the response status written by `set_status`, and the
subprotocol chosen by `select_subprotocol`. `none` means that the setter was not called. -/
structure Connection where
  requested_subprotocols : List String
  status : Option Nat := none
  subprotocol : Option String := none
  deriving DecidableEq, Repr

/-- The call `connection_ptr->set_status(code)`. -/
def Connection.set_status (c : Connection) (code : Nat) : Connection :=
  { c with status := some code }

/-- The call `connection_ptr->select_subprotocol(value)`. -/
def Connection.select_subprotocol (c : Connection) (value : String) : Connection :=
  { c with subprotocol := some value }

/-- The data members of `Server` (lines 838-853) and of its base class `Endpoint` that the
methods embedded here read or write. The defaults are the values after construction
(lines 170-176 and 852): the counters are 0, the containers are empty, `_closing_down` is `false`.
A connection is known by its identity; `_mutex` is `true` while the mutex is locked. -/
structure Server where
  _use_security : Bool
  _jwt_validator : Option JwtValidator
  _encoding : JsonEncoding := make_json_encoding
  _mutex : Bool := false
  _open_tls_connections : List ConnectionHandle := []
  _opened_tls_conn_counter : Nat := 0
  _open_tls_conn_to_id : ConnectionHandle → Option Nat := fun _ => none
  _open_tcp_connections : List ConnectionHandle := []
  _opened_tcp_conn_counter : Nat := 0
  _open_tcp_conn_to_id : ConnectionHandle → Option Nat := fun _ => none
  _closing_down : Bool := false

/-- The TLS branch of `_handle_validate` (lines 778-806), given the validator and the
connection obtained from the handle. The last component lists the tokens that `verify` was
called with. -/
def _handle_validate_tls (v : JwtValidator) (connection_ptr : Connection) :
    Bool × Connection × List String :=
  let requested_sub_protos := connection_ptr.requested_subprotocols
  if requested_sub_protos.length ≠ 1 then
    (false, connection_ptr.set_status unauthorized, [])
  else
    let token := requested_sub_protos.headD ""
    match v.verify token with
    | VerifyOutcome.throws_VerificationError _ =>
        (false, connection_ptr.set_status unauthorized, [token])
    | VerifyOutcome.returns =>
        (true, connection_ptr.select_subprotocol token, [token])

/-- The TCP branch of `_handle_validate` (lines 807-835). -/
def _handle_validate_tcp (v : JwtValidator) (connection_ptr : Connection) :
    Bool × Connection × List String :=
  let requested_sub_protos := connection_ptr.requested_subprotocols
  if requested_sub_protos.length ≠ 1 then
    (false, connection_ptr.set_status unauthorized, [])
  else
    let token := requested_sub_protos.headD ""
    match v.verify token with
    | VerifyOutcome.throws_VerificationError _ =>
        (false, connection_ptr.set_status unauthorized, [token])
    | VerifyOutcome.returns =>
        (true, connection_ptr.select_subprotocol token, [token])

/-- The method `Server::_handle_validate`. The result is the returned `bool`, the connection
after the call, and the tokens that `JwtValidator::verify` was called with, in order. -/
def Server._handle_validate (srv : Server) (connection_ptr : Connection) :
    Bool × Connection × List String :=
  match srv._jwt_validator with
  | none => (true, connection_ptr, [])
  | some v =>
      if srv._use_security then _handle_validate_tls v connection_ptr
      else _handle_validate_tcp v connection_ptr

/-! ## Open connections: `runtime_advertisement`, `_handle_close`, `_handle_opening`
(Server.cpp, lines 629-761)

The handlers are run one after another by the thread of the transport. A call returns `none`
when it does not get past `_mutex.lock()`: the mutex is held, and no statement of the handlers
releases a mutex that they did not lock themselves. -/

/-- The value `++counter` of a `uint16_t` counter. -/
def pre_increment (counter : Nat) : Nat :=
  (counter + 1) % 2 ^ 16

/-- The call `set.insert(connection)` on a `std::unordered_set` of connections. The order of
the list stands for the order of iteration, which the standard leaves open. -/
def unordered_set_insert (set : List ConnectionHandle) (connection : ConnectionHandle) :
    List ConnectionHandle :=
  if connection ∈ set then set else connection :: set

/-- The call `set.erase(connection)`. -/
def unordered_set_erase (set : List ConnectionHandle) (connection : ConnectionHandle) :
    List ConnectionHandle :=
  set.filter (fun other => other ≠ connection)

/-- The call `map.insert({connection, id})` on a `std::unordered_map`: an entry that is there
is kept. -/
def unordered_map_insert (map : ConnectionHandle → Option Nat) (connection : ConnectionHandle)
    (id : Nat) : ConnectionHandle → Option Nat :=
  match map connection with
  | some _ => map
  | none => fun other => if other = connection then some id else map other

/-- The expression `map[connection]`: the mapped value, after an entry with the value 0 was
inserted if there was none, and the map afterwards. -/
def unordered_map_index (map : ConnectionHandle → Option Nat) (connection : ConnectionHandle) :
    Nat × (ConnectionHandle → Option Nat) :=
  match map connection with
  | some id => (id, map)
  | none => (0, fun other => if other = connection then some 0 else map other)

/-- The call `map.erase(connection)`. -/
def unordered_map_erase (map : ConnectionHandle → Option Nat) (connection : ConnectionHandle) :
    ConnectionHandle → Option Nat :=
  fun other => if other = connection then none else map other

/-- What a handler does, step by step: the calls on the mutex, on the containers of open
connections, on `Endpoint` (`notify_connection_opened`, `notify_connection_closed`, whose
bodies are not part of the sources) and on the connection (`close`, `send`). -/
inductive ServerStep where
  | mutex_lock
  | mutex_unlock
  | conn_to_id_insert (connection : ConnectionHandle) (id : Nat)
  | conn_to_id_erase (connection : ConnectionHandle)
  | notify_connection_opened (connection : ConnectionHandle)
  | notify_connection_closed (connection : ConnectionHandle)
  | open_connections_insert (connection : ConnectionHandle)
  | open_connections_erase (connection : ConnectionHandle)
  | close (connection : ConnectionHandle) (reason : String)
  | send (connection : ConnectionHandle) (payload : String)
  deriving DecidableEq, Repr

/-- The set of open connections of the transport in use. -/
def Server.open_connections (srv : Server) : List ConnectionHandle :=
  if srv._use_security then srv._open_tls_connections else srv._open_tcp_connections

/-- The counter of opened connections of the transport in use. -/
def Server.opened_conn_counter (srv : Server) : Nat :=
  if srv._use_security then srv._opened_tls_conn_counter else srv._opened_tcp_conn_counter

/-- The map from connections to ids of the transport in use. -/
def Server.open_conn_to_id (srv : Server) : ConnectionHandle → Option Nat :=
  if srv._use_security then srv._open_tls_conn_to_id else srv._open_tcp_conn_to_id

/-- The method `Server::runtime_advertisement` (lines 629-657). -/
def Server.runtime_advertisement (srv : Server) (topic : String) (message_type : DynamicType)
    (id : String) : Option (Server × List ServerStep) :=
  let encoded := srv._encoding.encode_advertise_msg topic message_type.name id
  let advertise_msg := encoded.1
  let srv := { srv with _encoding := encoded.2 }
  if srv._use_security then
    if srv._mutex then none
    else
      some (srv,
        [ServerStep.mutex_lock] ++
        srv._open_tls_connections.map (fun connection =>
          ServerStep.send connection advertise_msg) ++
        [ServerStep.mutex_unlock])
  else
    if srv._mutex then none
    else
      some (srv,
        [ServerStep.mutex_lock] ++
        srv._open_tcp_connections.map (fun connection =>
          ServerStep.send connection advertise_msg) ++
        [ServerStep.mutex_unlock])

/-- The method `Server::_handle_close` (lines 677-714), for the connection that
`get_con_from_hdl(handle)` returns. -/
def Server._handle_close (srv : Server) (connection : ConnectionHandle) :
    Option (Server × List ServerStep) :=
  if srv._mutex then none
  else
    let srv := { srv with _mutex := true }
    if srv._use_security then
      let indexed := unordered_map_index srv._open_tls_conn_to_id connection
      let srv := { srv with _open_tls_conn_to_id := unordered_map_erase indexed.2 connection }
      let srv := { srv with
        _open_tls_connections := unordered_set_erase srv._open_tls_connections connection }
      some ({ srv with _mutex := false },
        [ServerStep.mutex_lock, ServerStep.conn_to_id_erase connection,
          ServerStep.notify_connection_closed connection,
          ServerStep.open_connections_erase connection, ServerStep.mutex_unlock])
    else
      let indexed := unordered_map_index srv._open_tcp_conn_to_id connection
      let srv := { srv with _open_tcp_conn_to_id := unordered_map_erase indexed.2 connection }
      let srv := { srv with
        _open_tcp_connections := unordered_set_erase srv._open_tcp_connections connection }
      some ({ srv with _mutex := false },
        [ServerStep.mutex_lock, ServerStep.conn_to_id_erase connection,
          ServerStep.notify_connection_closed connection,
          ServerStep.open_connections_erase connection, ServerStep.mutex_unlock])

/-- The method `Server::_handle_opening` (lines 716-761), for the connection that
`get_con_from_hdl(handle)` returns. When the server is closing down, the method returns from
inside the branch, after `connection->close`. -/
def Server._handle_opening (srv : Server) (connection : ConnectionHandle) :
    Option (Server × List ServerStep) :=
  if srv._mutex then none
  else
    let srv := { srv with _mutex := true }
    if srv._use_security then
      if srv._closing_down then
        some (srv, [ServerStep.mutex_lock, ServerStep.close connection "shutdown"])
      else
        let id := pre_increment srv._opened_tls_conn_counter
        let srv := { srv with
          _opened_tls_conn_counter := id,
          _open_tls_conn_to_id := unordered_map_insert srv._open_tls_conn_to_id connection id }
        let srv := { srv with
          _open_tls_connections := unordered_set_insert srv._open_tls_connections connection }
        some ({ srv with _mutex := false },
          [ServerStep.mutex_lock, ServerStep.conn_to_id_insert connection id,
            ServerStep.notify_connection_opened connection,
            ServerStep.open_connections_insert connection, ServerStep.mutex_unlock])
    else
      if srv._closing_down then
        some (srv, [ServerStep.mutex_lock, ServerStep.close connection "shutdown"])
      else
        let id := pre_increment srv._opened_tcp_conn_counter
        let srv := { srv with
          _opened_tcp_conn_counter := id,
          _open_tcp_conn_to_id := unordered_map_insert srv._open_tcp_conn_to_id connection id }
        let srv := { srv with
          _open_tcp_connections := unordered_set_insert srv._open_tcp_connections connection }
        some ({ srv with _mutex := false },
          [ServerStep.mutex_lock, ServerStep.conn_to_id_insert connection id,
            ServerStep.notify_connection_opened connection,
            ServerStep.open_connections_insert connection, ServerStep.mutex_unlock])

/-- An event for which the transport calls a handler of the server. -/
inductive TransportEvent where
  | opening (connection : ConnectionHandle)
  | close (connection : ConnectionHandle)
  deriving DecidableEq, Repr

/-- The handler that the transport calls for an event (`set_close_handler`,
`set_open_handler`, lines 386-396 and 446-456). -/
def Server.handle (srv : Server) : TransportEvent → Option (Server × List ServerStep)
  | TransportEvent.opening connection => srv._handle_opening connection
  | TransportEvent.close connection => srv._handle_close connection

/-- The handlers called for a sequence of events, one after another: the server afterwards and
the steps taken, in order. -/
def Server.run (srv : Server) : List TransportEvent → Option (Server × List ServerStep)
  | [] => some (srv, [])
  | event :: events =>
      match srv.handle event with
      | none => none
      | some (srv1, steps) =>
          match Server.run srv1 events with
          | none => none
          | some (srv2, more) => some (srv2, steps ++ more)

/-- The ids passed to `conn_to_id.insert` in a sequence of steps, in order. -/
def assigned_ids : List ServerStep → List Nat
  | [] => []
  | ServerStep.conn_to_id_insert _ id :: steps => id :: assigned_ids steps
  | _ :: steps => assigned_ids steps

/-- The number of `opening` events in a sequence of events. -/
def openings : List TransportEvent → Nat
  | [] => 0
  | TransportEvent.opening _ :: events => openings events + 1
  | TransportEvent.close _ :: events => openings events

/-! ## Values used in examples -/

/-- A validator that accepts the token `good` and no other. -/
def example_validator : JwtValidator :=
  ⟨fun token => if token = "good" then VerifyOutcome.returns
    else VerifyOutcome.throws_VerificationError "no policy matches"⟩

/-- A server over plain TCP with `example_validator` configured. -/
def example_server : Server :=
  { _use_security := false, _jwt_validator := some example_validator }

/-- A server over TLS without an `authentication` block. -/
def example_open_server : Server :=
  { _use_security := true, _jwt_validator := none }

/-- A connection whose client offers the one subprotocol `good`. -/
def example_connection : Connection :=
  { requested_subprotocols := ["good"] }

/-- A connection whose client offers the one subprotocol `bad`. -/
def example_bad_connection : Connection :=
  { requested_subprotocols := ["bad"] }

/-- A conversion library that accepts every JSON value for every type and keeps it as the
content of the value. -/
def example_xtypes : JsonXtypes :=
  { to_data := fun type json => Except.ok ⟨type, json⟩,
    to_json := fun data => Except.ok data.content }

/-- The type `Dispatch` of the dispatch test. -/
def Dispatch : DynamicType :=
  { name := "Dispatch", members := [("name", "string"), ("number", "uint32")] }

/-- The request type of the services test. -/
def Data_Request : DynamicType :=
  { name := "Data_Request", members := [("request", "string")] }

/-- The reply type of the services test. -/
def Data_Response : DynamicType :=
  { name := "Data_Response", members := [("response", "string")] }

/-- A freshly made encoding to which the three types of the tests were added. -/
def example_encoding : JsonEncoding :=
  (((make_json_encoding.add_type Dispatch "").1.add_type Data_Request "").1.add_type
    Data_Response "").1

/-- The example encoding after a local subscription to the topic `a"b` with type `Dispatch`. -/
def quoted_topic_encoding : JsonEncoding :=
  (example_encoding.encode_subscribe_msg "a\"b" "Dispatch" "").2

/-- A `Dispatch` value. -/
def apple : DynamicData :=
  { type := Dispatch,
    content := Json.object [("name", Json.string "apple"), ("number", Json.number_unsigned 1)] }

/-- A type without a name. -/
def nameless_type : DynamicType :=
  { name := "" }

/-- A freshly made encoding to which a type without a name was added. -/
def nameless_encoding : JsonEncoding :=
  (make_json_encoding.add_type nameless_type "").1

/-- The frame that the server of the services test sends when a connection opens. -/
def advertise_service_frame : String :=
  "\x7b\"op\":\"advertise_service\",\"request_type\":\"Data_Request\",\"reply_type\":\"Data_Response\",\"service\":\"client_request\"\x7d"

/-- The response frame that the server of the services test sends. -/
def service_response_frame : String :=
  "\x7b\"op\":\"service_response\",\"type\":\"Data_Response\",\"service\":\"client_request\",\"id\":\"1\", \"values\":\x7b\"response\":\"Server Response\"\x7d, \"result\":\"true\"\x7d"

/-- The request of the services test. -/
def client_request : DynamicData :=
  { type := Data_Request, content := Json.object [("request", Json.string "Client Request")] }

/-- The response of the services test. -/
def server_response : DynamicData :=
  { type := Data_Response, content := Json.object [("response", Json.string "Server Response")] }

/-- An `advertise_service` frame for the service `a"b`, as `encode_advertise_service_msg`
writes it. -/
def quoted_advertise_service_frame : String :=
  "\x7b\"op\":\"advertise_service\",\"reply_type\":\"Data_Response\",\"request_type\":\"Data_Request\",\"service\":\"a\\\"b\"\x7d"

/-- A `service_response` frame for the service `a"b` with the id `1`, as
`encode_service_response_msg` writes it. -/
def quoted_service_response_frame : String :=
  "\x7b\"id\":\"1\",\"op\":\"service_response\",\"result\":true,\"service\":\"a\\\"b\",\"values\":\x7b\"response\":\"Server Response\"\x7d\x7d"

/-- An `advertise_service` frame whose two type names are empty. -/
def nameless_advertise_service_frame : String :=
  "\x7b\"op\":\"advertise_service\",\"reply_type\":\"\",\"request_type\":\"\",\"service\":\"s\"\x7d"

/-- A `service_response` frame for the service `s`. -/
def nameless_service_response_frame : String :=
  "\x7b\"id\":\"1\",\"op\":\"service_response\",\"result\":true,\"service\":\"s\",\"values\":\x7b\x7d\x7d"

/-- A `service_response` frame for the service `client_request` with the id `x"y`. -/
def quoted_id_service_response_frame : String :=
  "\x7b\"id\":\"x\\\"y\",\"op\":\"service_response\",\"result\":true,\"service\":\"client_request\",\"values\":\x7b\"response\":\"Server Response\"\x7d\x7d"

/-- An `advertise_service` frame for the service `client_request` whose reply type name is
`T"x`. -/
def quoted_type_advertise_service_frame : String :=
  "\x7b\"op\":\"advertise_service\",\"reply_type\":\"T\\\"x\",\"request_type\":\"Data_Request\",\"service\":\"client_request\"\x7d"

/-- The example encoding after a local advertisement of the service `client_request`. -/
def advertised_encoding : JsonEncoding :=
  (example_encoding.encode_advertise_service_msg "client_request" "Data_Request"
    "Data_Response" "").2

/-- An `advertise` frame for the topic `fruit` with the type `Dispatch` and the id `7`. -/
def advertise_frame : String :=
  "\x7b\"op\":\"advertise\",\"topic\":\"fruit\",\"type\":\"Dispatch\",\"id\":\"7\"\x7d"

/-- A `publish` frame for the topic `fruit`. -/
def publish_frame : String :=
  "\x7b\"op\":\"publish\",\"topic\":\"fruit\",\"msg\":\x7b\"name\":\"apple\",\"number\":1\x7d\x7d"

/-- An `advertise` frame for the topic `a"b` with the type `Dispatch`, as
`encode_advertise_msg` writes it. -/
def quoted_advertise_frame : String :=
  "\x7b\"op\":\"advertise\",\"topic\":\"a\\\"b\",\"type\":\"Dispatch\"\x7d"

/-- An `advertise` frame for the topic `t` whose type name is empty. -/
def nameless_advertise_frame : String :=
  "\x7b\"op\":\"advertise\",\"topic\":\"t\",\"type\":\"\"\x7d"

/-- A `publish` frame for the topic `t`. -/
def nameless_publish_frame : String :=
  "\x7b\"op\":\"publish\",\"topic\":\"t\",\"msg\":\x7b\x7d\x7d"

/-- A `subscribe` frame for the topic `fruit` that carries no `type`. -/
def untyped_subscribe_frame : String :=
  "\x7b\"op\":\"subscribe\",\"topic\":\"fruit\",\"id\":\"7\"\x7d"

/-- An `unadvertise_service` frame for the service `client_request` that carries no `type`. -/
def untyped_unadvertise_service_frame : String :=
  "\x7b\"op\":\"unadvertise_service\",\"service\":\"client_request\"\x7d"

/-- A `service_response` frame for the service `client_request` that carries no `result`. -/
def resultless_service_response_frame : String :=
  "\x7b\"op\":\"service_response\",\"service\":\"client_request\",\"id\":\"1\",\"values\":\x7b\"response\":\"Server Response\"\x7d\x7d"

/-- A `subscribe` frame with the fields of the rosbridge protocol that the decoder does not
look up. -/
def throttled_subscribe_frame : String :=
  "\x7b\"op\":\"subscribe\",\"topic\":\"fruit\",\"type\":\"Dispatch\",\"throttle_rate\":10,\"queue_length\":2,\"compression\":\"png\"\x7d"

/-- The server of the examples with the connections 1 and 2 open, under the ids 1 and 2. -/
def two_connections_server : Server :=
  { example_server with
    _open_tcp_connections := [2, 1],
    _opened_tcp_conn_counter := 2,
    _open_tcp_conn_to_id := fun connection =>
      if connection = 1 then some 1 else if connection = 2 then some 2 else none }

/-- The server of the examples while it is closing down. -/
def closing_server : Server :=
  { example_server with _closing_down := true }

/-! # Theorems -/

/-! ## `transform_type` -/

/-- The reference canonicalization on lists of characters. -/
theorem canon_reference_data (s : String) :
    (canon_reference s).data = s.data.flatMap (fun c => if c = '/' then ['_', '_'] else [c]) :=
  rfl

/-- Searching from the end of a prefix is searching the rest from its start. -/
theorem str_find_append (pre suf : List Char) (ch : Char) :
    str_find (pre ++ suf) ch pre.length = (str_find suf ch 0).map (· + pre.length) := by
  induction pre with
  | nil => cases h : str_find suf ch 0 <;> simp [h]
  | cons c cs ih =>
      rw [List.cons_append, List.length_cons, str_find, ih]
      cases str_find suf ch 0 <;> simp [Nat.add_assoc]

/-- A search that finds nothing: the character does not occur. -/
theorem str_find_none (suf : List Char) (ch : Char) (h : str_find suf ch 0 = none) :
    ch ∉ suf := by
  induction suf with
  | nil => simp
  | cons c cs ih =>
      simp only [str_find] at h
      split at h
      · simp at h
      · rename_i hne
        simp only [Option.map_eq_none'] at h
        simp only [List.mem_cons, not_or]
        exact ⟨fun e => hne e.symm, ih h⟩

/-- A search that finds an index: the list splits there, and the character does not occur
before. -/
theorem str_find_some (suf : List Char) (ch : Char) (j : Nat) (h : str_find suf ch 0 = some j) :
    ∃ a b, suf = a ++ ch :: b ∧ a.length = j ∧ ch ∉ a := by
  induction suf generalizing j with
  | nil => simp [str_find] at h
  | cons c cs ih =>
      simp only [str_find] at h
      split at h
      · rename_i heq
        simp only [Option.some.injEq] at h
        exact ⟨[], cs, by simp [heq], by simp [h], by simp⟩
      · rename_i hne
        simp only [Option.map_eq_some'] at h
        obtain ⟨j', hj', rfl⟩ := h
        obtain ⟨a, b, hab, hlen, hnot⟩ := ih j' hj'
        refine ⟨c :: a, b, by simp [hab], by simp [hlen], ?_⟩
        simp only [List.mem_cons, not_or]
        exact ⟨fun e => hne e.symm, hnot⟩

/-- The reference canonicalization leaves a list without `/` as it is. -/
theorem canon_list_of_not_mem (a : List Char) (h : '/' ∉ a) :
    a.flatMap (fun c => if c = '/' then ['_', '_'] else [c]) = a := by
  induction a with
  | nil => rfl
  | cons c cs ih =>
      simp only [List.mem_cons, not_or] at h
      have hc : ¬ c = '/' := fun e => h.1 e.symm
      simp [List.flatMap_cons, hc, ih h.2]

/-- The loop invariant of `transform_type`: with the part before the loop variable free of `/`,
and more iterations allowed than there are `/` left, the loop ends by its own condition and
returns the prefix followed by the canonical form of the rest. -/
theorem transform_type_loop_spec (fuel : Nat) :
    ∀ pre suf : List Char, '/' ∉ pre → suf.count '/' < fuel →
      transform_type_loop fuel (pre ++ suf) ((str_find suf '/' 0).map (· + pre.length)) =
        some (pre ++ suf.flatMap (fun c => if c = '/' then ['_', '_'] else [c])) := by
  induction fuel with
  | zero => intro pre suf _ h; exact absurd h (Nat.not_lt_zero _)
  | succ fuel ih =>
      intro pre suf hpre hcount
      cases hfind : str_find suf '/' 0 with
      | none =>
          have := canon_list_of_not_mem suf (str_find_none suf '/' hfind)
          simp [transform_type_loop, this]
      | some j =>
          obtain ⟨a, b, hab, hlen, hnot⟩ := str_find_some suf '/' j hfind
          subst hab
          have hrep : str_replace (pre ++ (a ++ '/' :: b)) (j + pre.length) 1 ['_', '_'] =
              (pre ++ a) ++ ('_' :: '_' :: b) := by
            have hl : j + pre.length = (pre ++ a).length := by simp [hlen, Nat.add_comm]
            have e1 : pre ++ (a ++ '/' :: b) = (pre ++ a) ++ '/' :: b := by simp
            rw [str_replace, hl, e1, List.take_left, ← List.drop_drop, List.drop_left]
            simp
          have hidx : j + pre.length = (pre ++ a).length := by simp [hlen, Nat.add_comm]
          simp only [Option.map_some', transform_type_loop, hrep]
          rw [hidx, str_find_append (pre ++ a) ('_' :: '_' :: b) '/']
          have hpre2 : '/' ∉ pre ++ a := by
            simp only [List.mem_append, not_or]; exact ⟨hpre, hnot⟩
          have hcount2 : ('_' :: '_' :: b).count '/' < fuel := by
            simp only [List.count_append, List.count_cons] at hcount ⊢
            simp at hcount ⊢
            omega
          rw [ih (pre ++ a) ('_' :: '_' :: b) hpre2 hcount2]
          simp [List.flatMap_append, List.flatMap_cons, canon_list_of_not_mem a hnot]

/-- The run of `transform_type` ends by the loop condition and yields the reference form. -/
theorem transform_type_run_eq (s : String) : transform_type_run s = some (canon_reference s) := by
  have h := transform_type_loop_spec (s.length + 1) [] s.data (by simp)
    (Nat.lt_succ_of_le (List.count_le_length _ _))
  simp only [List.nil_append, List.length_nil, Nat.add_zero] at h
  have hid : (str_find s.data '/' 0).map (· + 0) = str_find s.data '/' 0 := by
    cases str_find s.data '/' 0 <;> simp
  simp only [Nat.add_zero] at hid
  rw [transform_type_run]
  rw [show (fun x : Nat => x) = id from rfl, Option.map_id] at h
  simp only [id] at h
  rw [h]
  rfl

/-- The function `transform_type` is the reference canonicalization. -/
theorem transform_type_eq_reference (s : String) : transform_type s = canon_reference s := by
  simp [transform_type, transform_type_run_eq]

/-- The reference form contains no `/`. -/
theorem canon_list_not_mem (l : List Char) :
    '/' ∉ l.flatMap (fun c => if c = '/' then ['_', '_'] else [c]) := by
  induction l with
  | nil => simp
  | cons c cs ih =>
      simp only [List.flatMap_cons, List.mem_append, not_or]
      refine ⟨?_, ih⟩
      by_cases hc : c = '/'
      · simp [hc]
      · simpa [hc] using fun e => hc e.symm

/-- The length of the reference form. -/
theorem canon_list_length (l : List Char) :
    (l.flatMap (fun c => if c = '/' then ['_', '_'] else [c])).length =
      l.length + l.count '/' := by
  induction l with
  | nil => simp
  | cons c cs ih =>
      simp only [List.flatMap_cons, List.length_append, ih, List.length_cons, List.count_cons]
      by_cases hc : c = '/'
      · simp [hc]; omega
      · simp [hc]; omega

/-- Claim C9. `transform_type` is total and equals the reference canonicalization: for every
string the loop ends by its own condition within the iteration bound, the result is the string
with every `/` replaced by `__` and every other character kept in order, so it contains no `/`
and its length is the length of the input plus the number of `/` in it; `foo/bar/Baz` becomes
`foo__bar__Baz`. -/
theorem transform_type_total_and_reference (s : String) :
    transform_type_run s = some (canon_reference s) ∧
    transform_type s = canon_reference s ∧
    '/' ∉ (transform_type s).data ∧
    (transform_type s).length = s.length + s.data.count '/' ∧
    transform_type "foo/bar/Baz" = "foo__bar__Baz" := by
  refine ⟨transform_type_run_eq s, transform_type_eq_reference s, ?_, ?_, ?_⟩
  · rw [transform_type_eq_reference, canon_reference_data]
    exact canon_list_not_mem s.data
  · rw [transform_type_eq_reference]
    exact canon_list_length s.data
  · decide

/-- Claim C10. Canonicalization is idempotent: applying `transform_type` to its own result
changes nothing. -/
theorem transform_type_idempotent (s : String) :
    transform_type (transform_type s) = transform_type s := by
  rw [transform_type_eq_reference (transform_type s), transform_type_eq_reference s]
  have h := canon_list_of_not_mem (canon_reference s).data
    (by rw [canon_reference_data]; exact canon_list_not_mem s.data)
  show String.mk ((canon_reference s).data.flatMap _) = canon_reference s
  rw [h]

/-! ## Connection admission -/

/-- The two branches of `_handle_validate` do the same. -/
theorem handle_validate_tcp_eq_tls (v : JwtValidator) (c : Connection) :
    _handle_validate_tcp v c = _handle_validate_tls v c :=
  rfl

/-- With a validator configured, `_handle_validate` does what its TLS branch does. -/
theorem handle_validate_eq_tls (srv : Server) (v : JwtValidator) (c : Connection)
    (hv : srv._jwt_validator = some v) :
    srv._handle_validate c = _handle_validate_tls v c := by
  unfold Server._handle_validate
  rw [hv]
  by_cases hs : srv._use_security = true
  · simp [hs]
  · simp [hs, handle_validate_tcp_eq_tls]

/-- Claim C1. With a validator configured, `_handle_validate` returns `true` exactly when the
client offered exactly one subprotocol and `verify` returns for it; and for a list of
requested subprotocols whose length is not 1 it returns `false` without calling `verify`. -/
theorem handle_validate_admits_iff (srv : Server) (v : JwtValidator) (c : Connection)
    (hv : srv._jwt_validator = some v) :
    ((srv._handle_validate c).1 = true ↔
      ∃ token, c.requested_subprotocols = [token] ∧ v.verify token = VerifyOutcome.returns) ∧
    (c.requested_subprotocols.length ≠ 1 →
      (srv._handle_validate c).1 = false ∧ (srv._handle_validate c).2.2 = []) := by
  rw [handle_validate_eq_tls srv v c hv]
  rcases c with ⟨protos, st, sub⟩
  match protos with
  | [] => simp [_handle_validate_tls]
  | [t] => cases hver : v.verify t <;> simp [_handle_validate_tls, hver]
  | _ :: _ :: _ => simp [_handle_validate_tls]

/-- Witness for claim C1: a validator that accepts the token `good`, and a client that offers
exactly that token, on a server without TLS. -/
theorem handle_validate_admits_iff_witness :
    example_server._jwt_validator = some example_validator ∧
    ((example_server._handle_validate example_connection).1 = true ↔
      ∃ token, example_connection.requested_subprotocols = [token] ∧
        example_validator.verify token = VerifyOutcome.returns) ∧
    (example_connection.requested_subprotocols.length ≠ 1 →
      (example_server._handle_validate example_connection).1 = false ∧
      (example_server._handle_validate example_connection).2.2 = []) :=
  ⟨rfl, handle_validate_admits_iff example_server example_validator example_connection rfl⟩

/-- Claim C2. With a validator configured, every rejection by `_handle_validate` (a number of
subprotocols other than one, or `verify` throwing `VerificationError`) leaves the connection
with the status 401 set and no subprotocol selected, and every admission leaves it with the
offered subprotocol selected and the status not set. -/
theorem handle_validate_status_and_subprotocol (srv : Server) (v : JwtValidator)
    (c : Connection) (hv : srv._jwt_validator = some v) :
    ((srv._handle_validate c).1 = false →
      (srv._handle_validate c).2.1 = c.set_status unauthorized ∧
      (srv._handle_validate c).2.1.status = some 401 ∧
      (srv._handle_validate c).2.1.subprotocol = c.subprotocol) ∧
    ((srv._handle_validate c).1 = true →
      ∃ token, c.requested_subprotocols = [token] ∧
        (srv._handle_validate c).2.1 = c.select_subprotocol token ∧
        (srv._handle_validate c).2.1.subprotocol = some token ∧
        (srv._handle_validate c).2.1.status = c.status) := by
  rw [handle_validate_eq_tls srv v c hv]
  rcases c with ⟨protos, st, sub⟩
  match protos with
  | [] => simp [_handle_validate_tls, Connection.set_status, unauthorized]
  | [t] =>
      cases hver : v.verify t <;>
        simp [_handle_validate_tls, hver, Connection.set_status, Connection.select_subprotocol,
          unauthorized]
  | _ :: _ :: _ => simp [_handle_validate_tls, Connection.set_status, unauthorized]

/-- Witness for claim C2: a client that offers a token which the validator rejects. -/
theorem handle_validate_status_and_subprotocol_witness :
    example_server._jwt_validator = some example_validator ∧
    (((example_server._handle_validate example_bad_connection).1 = false →
      (example_server._handle_validate example_bad_connection).2.1 =
        example_bad_connection.set_status unauthorized ∧
      (example_server._handle_validate example_bad_connection).2.1.status = some 401 ∧
      (example_server._handle_validate example_bad_connection).2.1.subprotocol =
        example_bad_connection.subprotocol) ∧
    ((example_server._handle_validate example_bad_connection).1 = true →
      ∃ token, example_bad_connection.requested_subprotocols = [token] ∧
        (example_server._handle_validate example_bad_connection).2.1 =
          example_bad_connection.select_subprotocol token ∧
        (example_server._handle_validate example_bad_connection).2.1.subprotocol = some token ∧
        (example_server._handle_validate example_bad_connection).2.1.status =
          example_bad_connection.status)) :=
  ⟨rfl, handle_validate_status_and_subprotocol example_server example_validator
    example_bad_connection rfl⟩

/-- Claim C3. Without a validator, `_handle_validate` admits every connection, whatever
subprotocols were requested; it calls no setter of the connection and does not call
`verify`. -/
theorem handle_validate_without_validator (srv : Server) (c : Connection)
    (hv : srv._jwt_validator = none) :
    srv._handle_validate c = (true, c, []) := by
  unfold Server._handle_validate
  rw [hv]

/-- Witness for claim C3: a server without validator and a client that requests two
subprotocols. -/
theorem handle_validate_without_validator_witness :
    example_open_server._jwt_validator = none ∧
    example_open_server._handle_validate ⟨["a", "b"], none, none⟩ =
      (true, ⟨["a", "b"], none, none⟩, []) :=
  ⟨rfl, handle_validate_without_validator example_open_server ⟨["a", "b"], none, none⟩ rfl⟩

/-! ## Field extraction -/

/-- The escaped form of a string without characters that JSON escapes is the string. -/
theorem escape_plain (s : String) (h : plain s = true) : escape s.data = s.data := by
  unfold plain at h
  unfold escape
  generalize s.data = l at h
  induction l with
  | nil => rfl
  | cons c cs ih =>
      simp only [List.all_cons, Bool.and_eq_true, Bool.not_eq_true'] at h
      have hc := h.1
      simp only [needs_escape, Bool.or_eq_false_iff, decide_eq_false_iff_not] at hc
      obtain ⟨⟨h1, h2⟩, h3⟩ := hc
      have e : escape_char c = [c] := by
        unfold escape_char
        have n1 : ¬ c = '\x08' := fun e => h3 (by rw [e]; decide)
        have n2 : ¬ c = '\x0c' := fun e => h3 (by rw [e]; decide)
        have n3 : ¬ c = '\n' := fun e => h3 (by rw [e]; decide)
        have n4 : ¬ c = '\r' := fun e => h3 (by rw [e]; decide)
        have n5 : ¬ c = '\t' := fun e => h3 (by rw [e]; decide)
        simp [h1, h2, h3, n1, n2, n3, n4, n5]
      rw [List.flatMap_cons, e, ih (by simpa using h.2)]
      rfl

/-- Trimming the dump of a JSON string leaves its escaped form. -/
theorem trim_quotes_dump_string (s : String) :
    trim_quotes (Json.string s).dump.data = escape s.data := by
  have hd : (Json.string s).dump.data = '"' :: (escape s.data ++ ['"']) := by
    simp [Json.dump, dump_chars]
  rw [hd]
  simp [trim_quotes, str_find, str_substr]

/-- What `get_required_string` returns for a key whose value is a JSON string. -/
theorem get_required_string_of_string (msg : Json) (key s : String)
    (h : msg.find key = some (Json.string s)) :
    get_required_string msg key = Except.ok (String.mk (escape s.data)) := by
  simp [get_required_string, h, trim_quotes_dump_string]

/-- For a JSON string without escaped characters `get_required_string` returns the string. -/
theorem get_required_string_plain (msg : Json) (key s : String)
    (h : msg.find key = some (Json.string s)) (hp : plain s = true) :
    get_required_string msg key = Except.ok s := by
  rw [get_required_string_of_string msg key s h, escape_plain s hp]

/-- For a JSON string without escaped characters `get_optional_string` returns the string. -/
theorem get_optional_string_plain (msg : Json) (key s : String)
    (h : msg.find key = some (Json.string s)) (hp : plain s = true) :
    get_optional_string msg key = s := by
  simp [get_optional_string, h, trim_quotes_dump_string, escape_plain s hp]

/-- The dispatch reaches the branch of the op code found in the message. -/
theorem interpret_json_of_op (X : JsonXtypes) (self : JsonEncoding) (msg : Json) (op : String)
    (c : ConnectionHandle) (h : msg.find JsonOpKey = some (Json.string op)) :
    interpret_json X self msg c = interpret_op X self msg op c := by
  simp [interpret_json, h, Json.get_string]

/-! ## Decoding -/

/-- Claim C4, evaluated at the frame `{"op":1}`: the `type_error` of `get<std::string>()` on the
number leaves `interpret_websocket_msg`, for every conversion library, every state of the
encoding and every connection; no endpoint call is made and the state is not changed. -/
theorem interpret_websocket_msg_op_not_string (X : JsonXtypes) (self : JsonEncoding)
    (connection_handle : ConnectionHandle) :
    Json.parse "\x7b\"op\":1\x7d" = some (Json.object [("op", Json.number_unsigned 1)]) ∧
    (self.interpret_websocket_msg X "\x7b\"op\":1\x7d" connection_handle).exit =
      Exit.fault (Fault.json_exception 302) ∧
    (self.interpret_websocket_msg X "\x7b\"op\":1\x7d" connection_handle).calls = [] :=
  ⟨rfl, rfl, rfl⟩

/-- Claim C5, as amended: a `publish` frame whose topic is a JSON string without characters
that JSON escapes, bound to a type name that the registry resolves, and whose `msg` converts
to that type, makes `interpret_websocket_msg` return after exactly one endpoint call,
`receive_publication_ws` with the topic, the converted value and the connection of the frame;
the encoding is left as it was. -/
theorem publish_frame_delivered (X : JsonXtypes) (self : JsonEncoding) (msg_str : String)
    (msg : Json) (connection_handle : ConnectionHandle) (topic type_name : String)
    (dest_type : DynamicType) (payload : Json) (data : DynamicData)
    (hparse : Json.parse msg_str = some msg)
    (hop : msg.find JsonOpKey = some (Json.string JsonOpPublishKey))
    (htopic : msg.find JsonTopicNameKey = some (Json.string topic))
    (hplain : plain topic = true)
    (hbind : self.types_by_topic_ topic = some type_name)
    (hreg : self.get_type type_name = some dest_type)
    (hmsg : msg.find JsonMsgKey = some payload)
    (hconv : X.to_data dest_type payload = Except.ok data) :
    self.interpret_websocket_msg X msg_str connection_handle =
      ⟨Exit.returned, self,
        [EndpointCall.receive_publication_ws topic data connection_handle]⟩ := by
  have hget : self.get_type_by_topic topic = (some dest_type, self) := by
    simp only [JsonEncoding.get_type_by_topic, StdMap.index, hbind]
    exact Prod.ext hreg rfl
  simp only [JsonEncoding.interpret_websocket_msg, hparse,
    interpret_json_of_op X self msg JsonOpPublishKey connection_handle hop, interpret_op,
    if_true, interpret_publish, get_required_string_plain msg JsonTopicNameKey topic htopic hplain,
    hget, get_required_msg, hmsg, hconv]

/-- Witness for claim C5: the frame of the dispatch test, for the topic
`dispatch_into_client`, after a local subscription to that topic. -/
theorem publish_frame_delivered_witness :
    Json.parse "\x7b\"op\":\"publish\",\"topic\":\"dispatch_into_client\",\"msg\":\x7b\"name\":\"apple\",\"number\":1\x7d\x7d" =
      some (Json.object [("msg", apple.content), ("op", Json.string "publish"),
        ("topic", Json.string "dispatch_into_client")]) ∧
    (example_encoding.encode_subscribe_msg "dispatch_into_client" "Dispatch" "").2.interpret_websocket_msg
        example_xtypes
        "\x7b\"op\":\"publish\",\"topic\":\"dispatch_into_client\",\"msg\":\x7b\"name\":\"apple\",\"number\":1\x7d\x7d"
        1 =
      ⟨Exit.returned, (example_encoding.encode_subscribe_msg "dispatch_into_client" "Dispatch" "").2,
        [EndpointCall.receive_publication_ws "dispatch_into_client" apple 1]⟩ :=
  ⟨by rfl,
    publish_frame_delivered example_xtypes
      (example_encoding.encode_subscribe_msg "dispatch_into_client" "Dispatch" "").2
      "\x7b\"op\":\"publish\",\"topic\":\"dispatch_into_client\",\"msg\":\x7b\"name\":\"apple\",\"number\":1\x7d\x7d"
      (Json.object [("msg", apple.content), ("op", Json.string "publish"),
        ("topic", Json.string "dispatch_into_client")])
      1 "dispatch_into_client" "Dispatch" Dispatch apple.content apple
      (by rfl) (by rfl) (by rfl) (by rfl) (by rfl) (by rfl) (by rfl) (by rfl)⟩

/-- Counterexample to claim C5 as stated. The local side has subscribed to the topic `a"b`
with the registered type `Dispatch`, so the topic is bound; a `publish` frame for that topic,
as `encode_publication_msg` itself writes it, carries a `msg` that converts; yet
`interpret_websocket_msg` makes no endpoint call, because it looks the binding up under the
escaped text `a\"b`. -/
theorem publish_frame_quoted_topic_dropped :
    quoted_topic_encoding.types_by_topic_ "a\"b" = some "Dispatch" ∧
    quoted_topic_encoding.get_type "Dispatch" = some Dispatch ∧
    (quoted_topic_encoding.encode_publication_msg example_xtypes "a\"b" "Dispatch" "" apple).1 =
      "\x7b\"msg\":\x7b\"name\":\"apple\",\"number\":1\x7d,\"op\":\"publish\",\"topic\":\"a\\\"b\"\x7d" ∧
    Json.parse "\x7b\"msg\":\x7b\"name\":\"apple\",\"number\":1\x7d,\"op\":\"publish\",\"topic\":\"a\\\"b\"\x7d" =
      some (Json.object [("msg", apple.content), ("op", Json.string "publish"),
        ("topic", Json.string "a\"b")]) ∧
    example_xtypes.to_data Dispatch apple.content = Except.ok apple ∧
    (quoted_topic_encoding.interpret_websocket_msg example_xtypes
      "\x7b\"msg\":\x7b\"name\":\"apple\",\"number\":1\x7d,\"op\":\"publish\",\"topic\":\"a\\\"b\"\x7d" 1).calls = [] ∧
    get_required_string
      (Json.object [("msg", apple.content), ("op", Json.string "publish"),
        ("topic", Json.string "a\"b")]) JsonTopicNameKey = Except.ok "a\\\"b" :=
  ⟨by rfl, by rfl, by rfl, by rfl, by rfl, by rfl, by rfl⟩

/-- Claim C6, evaluated at a failing input. The registry holds a type under the empty name and
the topic `t` has no binding; the subscript `types_by_topic_[topic_name]` yields the empty
string, `get_type` resolves it, and the `publish` frame is handed to the endpoint instead of
being dropped. -/
theorem publish_without_binding_not_dropped :
    nameless_encoding.types_by_topic_ "t" = none ∧
    Json.parse "\x7b\"op\":\"publish\",\"topic\":\"t\",\"msg\":\x7b\x7d\x7d" =
      some (Json.object [("msg", Json.object []), ("op", Json.string "publish"),
        ("topic", Json.string "t")]) ∧
    (nameless_encoding.interpret_websocket_msg example_xtypes
      "\x7b\"op\":\"publish\",\"topic\":\"t\",\"msg\":\x7b\x7d\x7d" 1).calls =
      [EndpointCall.receive_publication_ws "t" ⟨nameless_type, Json.object []⟩ 1] ∧
    (nameless_encoding.interpret_websocket_msg example_xtypes
      "\x7b\"op\":\"call_service\",\"service\":\"t\",\"args\":\x7b\x7d\x7d" 1).calls = [] ∧
    (nameless_encoding.interpret_websocket_msg example_xtypes
      "\x7b\"op\":\"service_response\",\"service\":\"t\",\"values\":\x7b\x7d\x7d" 1).calls = [] :=
  ⟨by rfl, by rfl, by rfl, by rfl, by rfl⟩

/-- The part of claim C6 that the code keeps, for `publish`: a frame for a topic whose bound
type name the registry does not resolve is dropped, and so is a frame for a topic without
binding unless a type is registered under the empty name. -/
theorem publish_unresolved_dropped (X : JsonXtypes) (self : JsonEncoding) (msg : Json)
    (connection_handle : ConnectionHandle) (topic : String)
    (htopic : get_required_string msg JsonTopicNameKey = Except.ok topic)
    (h : (self.types_by_topic_ topic = none ∧ self.types_ "" = none) ∨
      ∃ type_name, self.types_by_topic_ topic = some type_name ∧
        self.get_type type_name = none) :
    (interpret_publish X self msg connection_handle).calls = [] := by
  have hempty : transform_type "" = "" := by decide
  rcases h with ⟨hb, he⟩ | ⟨type_name, hb, hr⟩
  · simp [interpret_publish, htopic, JsonEncoding.get_type_by_topic, StdMap.index, hb,
      JsonEncoding.get_type, hempty, he]
  · have hr' : self.types_ (transform_type type_name) = none := hr
    simp [interpret_publish, htopic, JsonEncoding.get_type_by_topic, StdMap.index, hb,
      JsonEncoding.get_type, hr']

/-- The part of claim C6 for `call_service`: a frame for a service without a request half, or
whose request type name the registry does not resolve, is dropped. -/
theorem call_service_unresolved_dropped (X : JsonXtypes) (self : JsonEncoding) (msg : Json)
    (connection_handle : ConnectionHandle) (service : String)
    (hservice : get_required_string msg JsonServiceKey = Except.ok service)
    (h : self.types_by_service_ service = none ∨
      ∃ req rep, self.types_by_service_ service = some (req, rep) ∧
        (req = "" ∨ self.get_type req = none)) :
    (interpret_call_service X self msg connection_handle).calls = [] := by
  rcases h with hb | ⟨req, rep, hb, hr⟩
  · simp [interpret_call_service, hservice, JsonEncoding.get_req_type_from_service,
      StdMap.index, hb]
  · rcases hr with hr | hr
    · simp [interpret_call_service, hservice, JsonEncoding.get_req_type_from_service,
        StdMap.index, hb, hr]
    · have hr' : self.types_ (transform_type req) = none := hr
      by_cases he : req = ""
      · simp [interpret_call_service, hservice, JsonEncoding.get_req_type_from_service,
          StdMap.index, hb, he]
      · simp [interpret_call_service, hservice, JsonEncoding.get_req_type_from_service,
          StdMap.index, hb, he, JsonEncoding.get_type, hr']

/-- The part of claim C6 for `service_response`: a frame for a service without a reply half,
or whose reply type name the registry does not resolve, is dropped. -/
theorem service_response_unresolved_dropped (X : JsonXtypes) (self : JsonEncoding)
    (msg : Json) (connection_handle : ConnectionHandle) (service : String)
    (hservice : get_required_string msg JsonServiceKey = Except.ok service)
    (h : self.types_by_service_ service = none ∨
      ∃ req rep, self.types_by_service_ service = some (req, rep) ∧
        (rep = "" ∨ self.get_type rep = none)) :
    (interpret_service_response X self msg connection_handle).calls = [] := by
  rcases h with hb | ⟨req, rep, hb, hr⟩
  · simp [interpret_service_response, hservice, JsonEncoding.get_rep_type_from_service,
      StdMap.index, hb]
  · rcases hr with hr | hr
    · simp [interpret_service_response, hservice, JsonEncoding.get_rep_type_from_service,
        StdMap.index, hb, hr]
    · have hr' : self.types_ (transform_type rep) = none := hr
      by_cases he : rep = ""
      · simp [interpret_service_response, hservice, JsonEncoding.get_rep_type_from_service,
          StdMap.index, hb, he]
      · simp [interpret_service_response, hservice, JsonEncoding.get_rep_type_from_service,
          StdMap.index, hb, he, JsonEncoding.get_type, hr']

/-- The canonical form contains no `/`. -/
theorem transform_type_no_slash (s : String) : '/' ∉ (transform_type s).data := by
  rw [transform_type_eq_reference, canon_reference_data]
  exact canon_list_not_mem s.data

/-- A string without `/` is its own canonical form. -/
theorem transform_type_of_no_slash (s : String) (h : '/' ∉ s.data) : transform_type s = s := by
  rw [transform_type_eq_reference]
  show String.mk (s.data.flatMap _) = s
  rw [canon_list_of_not_mem s.data h]

/-- Looking up a canonical name is looking it up as it is. -/
theorem get_type_transform_type (self : JsonEncoding) (s : String) :
    self.get_type (transform_type s) = self.get_type s := by
  unfold JsonEncoding.get_type
  rw [transform_type_of_no_slash _ (transform_type_no_slash s)]

/-- Only the empty string has an empty canonical form. -/
theorem transform_type_ne_empty (s : String) (h : s ≠ "") : transform_type s ≠ "" := by
  intro he
  have hl : (transform_type s).length = s.length + s.data.count '/' := by
    rw [transform_type_eq_reference]
    exact canon_list_length s.data
  rw [he] at hl
  have h0 : s.length = 0 := by
    have : ("" : String).length = 0 := rfl
    omega
  apply h
  have hd : s.data = [] := List.length_eq_zero.mp h0
  cases s
  simp_all

/-- What decoding an `advertise_service` frame does when both type names are JSON strings
without escaped characters that the registry resolves. -/
theorem interpret_advertise_service_resolved (self : JsonEncoding) (msg : Json)
    (c : ConnectionHandle) (service req_name rep_name : String) (req rep : DynamicType)
    (hs : msg.find JsonServiceKey = some (Json.string service)) (hsp : plain service = true)
    (hq : msg.find JsonRequestTypeNameKey = some (Json.string req_name))
    (hqp : plain req_name = true)
    (hr : msg.find JsonReplyTypeNameKey = some (Json.string rep_name))
    (hrp : plain rep_name = true)
    (hqt : self.get_type req_name = some req) (hrt : self.get_type rep_name = some rep) :
    interpret_advertise_service self msg c =
      ⟨Exit.returned,
        { self with
          types_by_service_ := self.types_by_service_.assign service
            (transform_type req_name, transform_type rep_name) },
        [EndpointCall.receive_service_advertisement_ws service req rep c]⟩ := by
  simp only [interpret_advertise_service,
    get_required_string_plain msg JsonRequestTypeNameKey req_name hq hqp,
    get_required_string_plain msg JsonReplyTypeNameKey rep_name hr hrp,
    get_required_string_plain msg JsonServiceKey service hs hsp, hqt, hrt]

/-- The reply half of a service binding after `encode_call_service_msg` is what it was. -/
theorem encode_call_service_msg_keeps_reply (X : JsonXtypes) (self : JsonEncoding)
    (service service_type id : String) (request : DynamicData) (q r : String)
    (h : self.types_by_service_ service = some (q, r)) :
    ∃ q2, (self.encode_call_service_msg X service service_type request id).2.types_by_service_
        service = some (q2, r) ∧
      (self.encode_call_service_msg X service service_type request id).2.types_ =
        self.types_ := by
  unfold JsonEncoding.encode_call_service_msg
  cases X.to_json request with
  | error e => exact ⟨q, by simpa using h, rfl⟩
  | ok j => exact ⟨transform_type service_type, by simp [h, StdMap.assign], rfl⟩

/-- What decoding a `service_response` frame does when the service is a JSON string without
escaped characters whose reply half is a non-empty name that the registry resolves and the
`values` convert. -/
theorem interpret_service_response_resolved (X : JsonXtypes) (self : JsonEncoding) (msg : Json)
    (c : ConnectionHandle) (service q r : String) (rep : DynamicType) (values : Json)
    (data : DynamicData)
    (hs : msg.find JsonServiceKey = some (Json.string service)) (hsp : plain service = true)
    (hb : self.types_by_service_ service = some (q, r)) (hne : r ≠ "")
    (hrt : self.get_type r = some rep)
    (hv : msg.find JsonValuesKey = some values) (hconv : X.to_data rep values = Except.ok data) :
    interpret_service_response X self msg c =
      ⟨Exit.returned, self,
        [EndpointCall.receive_service_response_ws service data
          (get_optional_string msg JsonIdKey) c]⟩ := by
  have hget : self.get_rep_type_from_service service = (some rep, self) := by
    simp only [JsonEncoding.get_rep_type_from_service, StdMap.index, hb, hne, if_false]
    exact Prod.ext hrt rfl
  simp only [interpret_service_response,
    get_required_string_plain msg JsonServiceKey service hs hsp, hget, get_required_msg, hv,
    hconv]

/-- Claim C7, as amended. Let the service name, the two type names and the id be JSON strings
without characters that JSON escapes, the reply type name not empty, and both type names
resolved by the registry. After a remote `advertise_service` frame for the service has been
interpreted and a local call has been encoded with `encode_call_service_msg`, interpreting a
`service_response` frame for the service whose `values` convert to the reply type returns
after exactly one endpoint call: `receive_service_response_ws` with the service name, the
converted value, the id and the connection of the response frame. -/
theorem service_roundtrip (X : JsonXtypes) (self : JsonEncoding) (adv_str resp_str : String)
    (adv resp : Json) (c1 c2 : ConnectionHandle) (S Req Rep I call_id : String)
    (req rep : DynamicType) (request : DynamicData) (V : Json) (data : DynamicData)
    (hS : plain S = true) (hReq : plain Req = true) (hRep : plain Rep = true)
    (hI : plain I = true) (hne : Rep ≠ "")
    (hq : self.get_type Req = some req) (hr : self.get_type Rep = some rep)
    (hadv : Json.parse adv_str = some adv)
    (hadv_op : adv.find JsonOpKey = some (Json.string JsonOpAdvertiseServiceKey))
    (hadv_s : adv.find JsonServiceKey = some (Json.string S))
    (hadv_q : adv.find JsonRequestTypeNameKey = some (Json.string Req))
    (hadv_r : adv.find JsonReplyTypeNameKey = some (Json.string Rep))
    (hresp : Json.parse resp_str = some resp)
    (hresp_op : resp.find JsonOpKey = some (Json.string JsonOpServiceResponseKey))
    (hresp_s : resp.find JsonServiceKey = some (Json.string S))
    (hresp_id : resp.find JsonIdKey = some (Json.string I))
    (hresp_v : resp.find JsonValuesKey = some V)
    (hconv : X.to_data rep V = Except.ok data) :
    (self.interpret_websocket_msg X adv_str c1).calls =
      [EndpointCall.receive_service_advertisement_ws S req rep c1] ∧
    (((self.interpret_websocket_msg X adv_str c1).encoding.encode_call_service_msg X S Req
        request call_id).2.interpret_websocket_msg X resp_str c2).exit = Exit.returned ∧
    (((self.interpret_websocket_msg X adv_str c1).encoding.encode_call_service_msg X S Req
        request call_id).2.interpret_websocket_msg X resp_str c2).calls =
      [EndpointCall.receive_service_response_ws S data I c2] := by
  have h1 : self.interpret_websocket_msg X adv_str c1 =
      ⟨Exit.returned,
        { self with
          types_by_service_ := self.types_by_service_.assign S
            (transform_type Req, transform_type Rep) },
        [EndpointCall.receive_service_advertisement_ws S req rep c1]⟩ := by
    simp only [JsonEncoding.interpret_websocket_msg, hadv,
      interpret_json_of_op X self adv JsonOpAdvertiseServiceKey c1 hadv_op]
    rw [← interpret_advertise_service_resolved self adv c1 S Req Rep req rep hadv_s hS hadv_q
      hReq hadv_r hRep hq hr]
    rfl
  rw [h1]
  refine ⟨rfl, ?_⟩
  obtain ⟨q2, hb2, ht2⟩ := encode_call_service_msg_keeps_reply X
    { self with
      types_by_service_ := self.types_by_service_.assign S
        (transform_type Req, transform_type Rep) }
    S Req call_id request (transform_type Req) (transform_type Rep)
    (by simp [StdMap.assign])
  have hrt : JsonEncoding.get_type
      (JsonEncoding.encode_call_service_msg X
        { self with
          types_by_service_ := self.types_by_service_.assign S
            (transform_type Req, transform_type Rep) }
        S Req request call_id).2 (transform_type Rep) = some rep := by
    rw [get_type_transform_type]
    unfold JsonEncoding.get_type
    rw [ht2]
    exact hr
  have h3 := interpret_service_response_resolved X _ resp c2 S q2 (transform_type Rep) rep V
    data hresp_s hS hb2 (transform_type_ne_empty Rep hne) hrt hresp_v hconv
  simp only [JsonEncoding.interpret_websocket_msg, hresp,
    interpret_json_of_op X _ resp JsonOpServiceResponseKey c2 hresp_op]
  have hop : interpret_op X
      (JsonEncoding.encode_call_service_msg X
        { self with
          types_by_service_ := self.types_by_service_.assign S
            (transform_type Req, transform_type Rep) }
        S Req request call_id).2 resp JsonOpServiceResponseKey c2 =
      interpret_service_response X
        (JsonEncoding.encode_call_service_msg X
          { self with
            types_by_service_ := self.types_by_service_.assign S
              (transform_type Req, transform_type Rep) }
          S Req request call_id).2 resp c2 := rfl
  rw [hop, h3, get_optional_string_plain resp JsonIdKey I hresp_id hI]
  exact ⟨rfl, rfl⟩

/-- Witness for claim C7: the frames of the services test, service `client_request`, types
`Data_Request` and `Data_Response`, id `1`. -/
theorem service_roundtrip_witness :
    Json.parse advertise_service_frame =
      some (Json.object [("op", Json.string "advertise_service"),
        ("reply_type", Json.string "Data_Response"),
        ("request_type", Json.string "Data_Request"),
        ("service", Json.string "client_request")]) ∧
    Json.parse service_response_frame =
      some (Json.object [("id", Json.string "1"), ("op", Json.string "service_response"),
        ("result", Json.string "true"), ("service", Json.string "client_request"),
        ("type", Json.string "Data_Response"), ("values", server_response.content)]) ∧
    (example_encoding.interpret_websocket_msg example_xtypes advertise_service_frame 1).calls =
      [EndpointCall.receive_service_advertisement_ws "client_request" Data_Request
        Data_Response 1] ∧
    (((example_encoding.interpret_websocket_msg example_xtypes advertise_service_frame
        1).encoding.encode_call_service_msg example_xtypes "client_request" "Data_Request"
        client_request "1").2.interpret_websocket_msg example_xtypes service_response_frame
        1).exit = Exit.returned ∧
    (((example_encoding.interpret_websocket_msg example_xtypes advertise_service_frame
        1).encoding.encode_call_service_msg example_xtypes "client_request" "Data_Request"
        client_request "1").2.interpret_websocket_msg example_xtypes service_response_frame
        1).calls =
      [EndpointCall.receive_service_response_ws "client_request" server_response "1" 1] :=
  ⟨by rfl, by rfl,
    service_roundtrip example_xtypes example_encoding advertise_service_frame
      service_response_frame
      (Json.object [("op", Json.string "advertise_service"),
        ("reply_type", Json.string "Data_Response"),
        ("request_type", Json.string "Data_Request"),
        ("service", Json.string "client_request")])
      (Json.object [("id", Json.string "1"), ("op", Json.string "service_response"),
        ("result", Json.string "true"), ("service", Json.string "client_request"),
        ("type", Json.string "Data_Response"), ("values", server_response.content)])
      1 1 "client_request" "Data_Request" "Data_Response" "1" "1" Data_Request Data_Response
      client_request server_response.content server_response
      (by rfl) (by rfl) (by rfl) (by rfl) (by decide) (by rfl) (by rfl) (by rfl) (by rfl)
      (by rfl) (by rfl) (by rfl) (by rfl) (by rfl) (by rfl) (by rfl) (by rfl) (by rfl)⟩

/-- Counterexample to claim C7 as stated. First part: for the service `a"b`, with both types
registered, the frames being those that the encoders of this encoding write, the response is
handed to the endpoint under the name `a\"b` (with the backslash), not under the name of the
service. Second part: the id `x"y` of a response reaches the endpoint as `x\"y`. Third part:
with the reply type registered under the name `T"x`, the advertisement that names it is
dropped and so is the response. Fourth part: with a type registered under the empty name and
an advertisement whose type names are empty, both types resolve, yet the response is dropped,
because an empty reply half counts as missing. -/
theorem service_roundtrip_fails_for_quoted_or_empty_names :
    (example_encoding.encode_advertise_service_msg "a\"b" "Data_Request" "Data_Response" "").1 =
      quoted_advertise_service_frame ∧
    (example_encoding.encode_service_response_msg example_xtypes "a\"b" "Data_Response" "1"
      server_response true).1 = quoted_service_response_frame ∧
    (example_encoding.interpret_websocket_msg example_xtypes quoted_advertise_service_frame
      1).calls =
      [EndpointCall.receive_service_advertisement_ws "a\\\"b" Data_Request Data_Response 1] ∧
    (((example_encoding.interpret_websocket_msg example_xtypes quoted_advertise_service_frame
        1).encoding.encode_call_service_msg example_xtypes "a\"b" "Data_Request"
        client_request "1").2.interpret_websocket_msg example_xtypes
        quoted_service_response_frame 1).calls =
      [EndpointCall.receive_service_response_ws "a\\\"b" server_response "1" 1] ∧
    "a\\\"b" ≠ "a\"b" ∧
    (((example_encoding.interpret_websocket_msg example_xtypes advertise_service_frame
        1).encoding.encode_call_service_msg example_xtypes "client_request" "Data_Request"
        client_request "1").2.interpret_websocket_msg example_xtypes
        quoted_id_service_response_frame 1).calls =
      [EndpointCall.receive_service_response_ws "client_request" server_response "x\\\"y" 1] ∧
    "x\\\"y" ≠ "x\"y" ∧
    (example_encoding.add_type Data_Response "T\"x").1.get_type "T\"x" = some Data_Response ∧
    ((example_encoding.add_type Data_Response "T\"x").1.interpret_websocket_msg example_xtypes
      quoted_type_advertise_service_frame 1).calls = [] ∧
    ((((example_encoding.add_type Data_Response "T\"x").1.interpret_websocket_msg
        example_xtypes quoted_type_advertise_service_frame
        1).encoding.encode_call_service_msg example_xtypes "client_request" "Data_Request"
        client_request "1").2.interpret_websocket_msg example_xtypes service_response_frame
        1).calls = [] ∧
    nameless_encoding.get_type "" = some nameless_type ∧
    (nameless_encoding.interpret_websocket_msg example_xtypes nameless_advertise_service_frame
      1).calls =
      [EndpointCall.receive_service_advertisement_ws "s" nameless_type nameless_type 1] ∧
    (((nameless_encoding.interpret_websocket_msg example_xtypes
        nameless_advertise_service_frame 1).encoding.encode_call_service_msg example_xtypes
        "s" "" ⟨nameless_type, Json.object []⟩ "1").2.interpret_websocket_msg example_xtypes
        nameless_service_response_frame 1).calls = [] :=
  ⟨by rfl, by rfl, by rfl, by rfl, by decide, by rfl, by decide, by rfl, by rfl, by rfl, by rfl,
    by rfl, by rfl⟩

/-! ## `Json::parse` after `dump()` on objects of strings -/

/-- A character that needs no escape is no quote, no backslash and no control character. -/
theorem needs_escape_false (c : Char) (h : needs_escape c = false) :
    c ≠ '"' ∧ c ≠ '\\' ∧ ¬ c.toNat < 0x20 := by
  simp only [needs_escape, Bool.or_eq_false_iff, decide_eq_false_iff_not] at h
  obtain ⟨⟨h1, h2⟩, h3⟩ := h
  exact ⟨h1, h2, by omega⟩
/-- The string scanner reads a run of characters without escapes up to the closing quote. -/
theorem scan_string_loop_plain (s rest : List Char) (h : ∀ c ∈ s, needs_escape c = false) :
    ∀ n, s.length < n → scan_string_loop n (s ++ '"' :: rest) = some (s, rest) := by
  induction s with
  | nil =>
      intro n hn
      obtain ⟨m, rfl⟩ : ∃ m, n = m + 1 := ⟨n - 1, by simp at hn; omega⟩
      rw [List.nil_append, scan_string_loop, if_pos rfl]
  | cons c cs ih =>
      intro n hn
      obtain ⟨m, rfl⟩ : ∃ m, n = m + 1 := ⟨n - 1, by simp at hn; omega⟩
      obtain ⟨h1, h2, h3⟩ := needs_escape_false c (h c (List.mem_cons_self _ _))
      have ih' := ih (fun d hd => h d (List.mem_cons_of_mem _ hd)) m
        (by simp at hn; omega)
      rw [List.cons_append, scan_string_loop, if_neg h1, if_neg h2, if_neg h3, ih']
      rfl
/-- The string scanner on a run of characters without escapes, with its own bound. -/
theorem scan_string_plain (s rest : List Char) (h : ∀ c ∈ s, needs_escape c = false) :
    scan_string (s ++ '"' :: rest) = some (s, rest) :=
  scan_string_loop_plain s rest h _ (by simp)
/-- The test `plain` as a statement about the characters. -/
theorem plain_iff (s : String) : plain s = true ↔ ∀ c ∈ s.data, needs_escape c = false := by
  simp [plain, List.all_eq_true]
/-- Skipping white space stops at a character that is none. -/
theorem skip_ws_cons (c : Char) (cs : List Char) (h : is_ws c = false) :
    skip_ws (c :: cs) = c :: cs := by
  rw [skip_ws, h]; rfl
/-- A string without escapes is read back as a value. -/
theorem parse_value_string (fuel : Nat) (s rest : List Char)
    (h : ∀ c ∈ s, needs_escape c = false) :
    parse_value (fuel + 1) ('"' :: (s ++ '"' :: rest)) = some (Json.string (String.mk s), rest) := by
  rw [parse_value, skip_ws_cons _ _ (by decide)]
  simp only [if_neg (show ¬ '"' = '{' by decide), if_neg (show ¬ '"' = '[' by decide), if_true]
  rw [scan_string_plain s rest h]
  rfl

/-- One member with a string value, followed by the character `sep`, read by `parse_members`
up to the point after the value. -/
theorem parse_members_step (fuel n : Nat) (acc : List (String × Json)) (k v : String)
    (sep : Char) (tail : List Char) (hk : plain k = true) (hv : plain v = true)
    (hsep : is_ws sep = false) :
    parse_members (parse_value (fuel + 1)) (n + 1) acc
        ('"' :: (k.data ++ '"' :: ':' :: '"' :: (v.data ++ '"' :: sep :: tail))) =
      if sep = ',' then
        parse_members (parse_value (fuel + 1)) n (obj_set acc k (Json.string v)) tail
      else if sep = '}' then some (obj_set acc k (Json.string v), tail)
      else none := by
  rw [parse_members, skip_ws_cons _ _ (by decide)]
  simp only [if_true]
  rw [scan_string_plain k.data _ ((plain_iff k).mp hk)]
  simp only []
  rw [skip_ws_cons _ _ (by decide)]
  simp only [if_true]
  rw [parse_value_string fuel v.data _ ((plain_iff v).mp hv)]
  simp only []
  rw [skip_ws_cons _ _ hsep]


/-- The text of a member whose value is a string without escaped characters. -/
theorem dump_members_cons_string (k v : String) (ms : List (String × Json))
    (hk : plain k = true) (hv : plain v = true) (tail : List Char) :
    dump_members ((k, Json.string v) :: ms) ++ tail =
      '"' :: (k.data ++ '"' :: ':' :: '"' :: (v.data ++ '"' ::
        (match ms with
          | [] => tail
          | _ :: _ => ',' :: (dump_members ms ++ tail)))) := by
  cases ms with
  | nil =>
      simp only [dump_members, dump_chars, escape_plain k hk, escape_plain v hv,
        List.cons_append, List.append_assoc, List.nil_append]
  | cons q ms' =>
      simp only [dump_members, dump_chars, escape_plain k hk, escape_plain v hv,
        List.cons_append, List.append_assoc, List.nil_append]

/-- The members of an object whose values are strings, all keys and values without escaped
characters, are read back in order. -/
theorem parse_members_strings (fuel : Nat) (rest : List Char) :
    ∀ (ms : List (String × String)) (n : Nat) (acc : List (String × Json)), ms ≠ [] →
      (∀ p ∈ ms, plain p.1 = true ∧ plain p.2 = true) → ms.length ≤ n →
      parse_members (parse_value (fuel + 1)) n acc
          (dump_members (ms.map (fun p => (p.1, Json.string p.2))) ++ '}' :: rest) =
        some (ms.foldl (fun a p => obj_set a p.1 (Json.string p.2)) acc, rest) := by
  intro ms
  induction ms with
  | nil => intro _ _ h; exact absurd rfl h
  | cons p ms' ih =>
      intro n acc _ hp hn
      obtain ⟨m, rfl⟩ : ∃ m, n = m + 1 := ⟨n - 1, by simp at hn; omega⟩
      obtain ⟨hk, hv⟩ := hp p (List.mem_cons_self _ _)
      rw [List.map_cons, dump_members_cons_string p.1 p.2 _ hk hv]
      cases ms' with
      | nil =>
          simp only [List.map_nil]
          rw [parse_members_step fuel m acc p.1 p.2 '}' rest hk hv (by decide)]
          simp
      | cons q ms'' =>
          simp only [List.map_cons]
          rw [parse_members_step fuel m acc p.1 p.2 ',' _ hk hv (by decide)]
          simp only [if_true]
          have := ih m (obj_set acc p.1 (Json.string p.2)) (by simp)
            (fun r hr => hp r (List.mem_cons_of_mem _ hr)) (by simp at hn ⊢; omega)
          simp only [List.map_cons] at this
          rw [this]
          rfl

/-- The text of a non-empty list of members is not shorter than the list. -/
theorem dump_members_length (ms : List (String × Json)) : ms.length ≤ (dump_members ms).length := by
  induction ms with
  | nil => simp
  | cons p ms' ih =>
      obtain ⟨k, v⟩ := p
      cases ms' with
      | nil => simp [dump_members]
      | cons q ms'' =>
          simp only [dump_members, List.length_cons, List.length_append] at ih ⊢
          omega

/-- Parsing the dump of an object whose values are strings, keys and values without escaped
characters, gives the object that the assignments of the members in order build. -/
theorem parse_dump_string_object (ms : List (String × String)) (hne : ms ≠ [])
    (hp : ∀ p ∈ ms, plain p.1 = true ∧ plain p.2 = true) :
    Json.parse (Json.object (ms.map (fun p => (p.1, Json.string p.2)))).dump =
      some (Json.object (ms.foldl (fun a p => obj_set a p.1 (Json.string p.2)) [])) := by
  obtain ⟨p, ms', rfl⟩ : ∃ p ms', ms = p :: ms' := by
    cases ms with
    | nil => exact absurd rfl hne
    | cons p ms' => exact ⟨p, ms', rfl⟩
  obtain ⟨hk, hv⟩ := hp p (List.mem_cons_self _ _)
  have htext : (Json.object ((p :: ms').map (fun p => (p.1, Json.string p.2)))).dump.data =
      '{' :: (dump_members ((p :: ms').map (fun p => (p.1, Json.string p.2))) ++ '}' :: []) := by
    simp [Json.dump, dump_chars]
  have hhead : ∃ t, dump_members ((p :: ms').map (fun p => (p.1, Json.string p.2))) ++ '}' :: []
      = '"' :: t := by
    rw [List.map_cons, dump_members_cons_string p.1 p.2 _ hk hv]
    exact ⟨_, rfl⟩
  obtain ⟨t, ht⟩ := hhead
  have hlen : (p :: ms').length ≤ (dump_members ((p :: ms').map (fun p => (p.1, Json.string p.2)))
      ++ '}' :: []).length := by
    have := dump_members_length ((p :: ms').map (fun p => (p.1, Json.string p.2)))
    simp only [List.length_map, List.length_append] at this ⊢
    omega
  have hm := parse_members_strings
    ((dump_members ((p :: ms').map (fun p => (p.1, Json.string p.2))) ++ '}' :: []).length) []
    (p :: ms') _ [] hne hp hlen
  unfold Json.parse
  rw [htext]
  have hbom : skip_bom ('{' :: (dump_members ((p :: ms').map (fun p => (p.1, Json.string p.2)))
      ++ '}' :: [])) = '{' :: (dump_members ((p :: ms').map (fun p => (p.1, Json.string p.2)))
      ++ '}' :: []) := by
    rw [skip_bom, if_neg (by decide)]
  rw [hbom, List.length_cons, parse_value, skip_ws_cons _ _ (by decide)]
  simp only [if_true]
  rw [ht] at hm ⊢
  rw [skip_ws_cons _ _ (by decide)]
  simp only [if_neg (show ¬ '"' = '}' by decide)]
  rw [hm]
  rfl


/-- The canonical form of a string without escaped characters has none either. -/
theorem plain_transform_type (s : String) (h : plain s = true) :
    plain (transform_type s) = true := by
  rw [transform_type_eq_reference]
  rw [plain_iff] at h ⊢
  intro c hc
  rw [canon_reference_data, List.mem_flatMap] at hc
  obtain ⟨d, hd, hcd⟩ := hc
  by_cases hs : d = '/'
  · simp only [hs, if_true, List.mem_cons, List.mem_singleton, List.not_mem_nil, or_false,
      or_self] at hcd
    rw [hcd]; decide
  · simp only [hs, if_false, List.mem_singleton] at hcd
    rw [hcd]; exact h d hd

/-- The value of `output` in the encoders of topic frames, for an empty `id`. -/
theorem topic_frame_without_id (op topic type : String) :
    ((Json.null.set JsonOpKey (Json.string op)).set JsonTopicNameKey (Json.string topic)).set
        JsonTypeNameKey (Json.string type) =
      Json.object ([("op", op), ("topic", topic), ("type", type)].map
        (fun p => (p.1, Json.string p.2))) := by
  rfl

/-- The value of `output` in the encoders of topic frames, for another `id`. -/
theorem topic_frame_with_id (op topic type id : String) :
    (((Json.null.set JsonOpKey (Json.string op)).set JsonTopicNameKey (Json.string topic)).set
        JsonTypeNameKey (Json.string type)).set JsonIdKey (Json.string id) =
      Json.object ([("id", id), ("op", op), ("topic", topic), ("type", type)].map
        (fun p => (p.1, Json.string p.2))) := by
  rfl

/-- What `Json::parse` makes of a topic frame written by `encode_advertise_msg` or
`encode_subscribe_msg`. -/
theorem parse_topic_frame (op topic type id : String) (hop : plain op = true)
    (ht : plain topic = true) (hty : plain type = true) (hid : plain id = true) :
    Json.parse
        (if ¬ id = "" then
          (((Json.null.set JsonOpKey (Json.string op)).set JsonTopicNameKey
            (Json.string topic)).set JsonTypeNameKey (Json.string type)).set JsonIdKey
            (Json.string id)
        else
          ((Json.null.set JsonOpKey (Json.string op)).set JsonTopicNameKey
            (Json.string topic)).set JsonTypeNameKey (Json.string type)).dump =
      some (Json.object
        ((if id = "" then [] else [("id", Json.string id)]) ++
          [("op", Json.string op), ("topic", Json.string topic), ("type", Json.string type)])) := by
  by_cases h : id = ""
  · simp only [h, not_true_eq_false, if_false, if_true, List.nil_append]
    rw [topic_frame_without_id, parse_dump_string_object _ (by simp)]
    · rfl
    · intro p hp
      simp only [List.mem_cons, List.mem_singleton, List.not_mem_nil, or_false] at hp
      rcases hp with rfl | rfl | rfl
      · exact ⟨rfl, hop⟩
      · exact ⟨rfl, ht⟩
      · exact ⟨rfl, hty⟩
  · simp only [h, not_false_eq_true, if_true, if_false]
    rw [topic_frame_with_id, parse_dump_string_object _ (by simp)]
    · rfl
    · intro p hp
      simp only [List.mem_cons, List.mem_singleton, List.not_mem_nil, or_false] at hp
      rcases hp with rfl | rfl | rfl | rfl
      · exact ⟨rfl, hid⟩
      · exact ⟨rfl, hop⟩
      · exact ⟨rfl, ht⟩
      · exact ⟨rfl, hty⟩


/-- The fields that the decoder reads in a parsed topic frame. -/
theorem topic_frame_fields (op topic type id : String) (hid : plain id = true) :
    (Json.object
      ((if id = "" then [] else [("id", Json.string id)]) ++
        [("op", Json.string op), ("topic", Json.string topic),
          ("type", Json.string type)])).find JsonOpKey = some (Json.string op) ∧
    (Json.object
      ((if id = "" then [] else [("id", Json.string id)]) ++
        [("op", Json.string op), ("topic", Json.string topic),
          ("type", Json.string type)])).find JsonTopicNameKey = some (Json.string topic) ∧
    (Json.object
      ((if id = "" then [] else [("id", Json.string id)]) ++
        [("op", Json.string op), ("topic", Json.string topic),
          ("type", Json.string type)])).find JsonTypeNameKey = some (Json.string type) ∧
    get_optional_string (Json.object
      ((if id = "" then [] else [("id", Json.string id)]) ++
        [("op", Json.string op), ("topic", Json.string topic),
          ("type", Json.string type)])) JsonIdKey = id := by
  by_cases h : id = ""
  · subst h
    exact ⟨rfl, rfl, rfl, rfl⟩
  · simp only [h, if_false]
    refine ⟨rfl, rfl, rfl, ?_⟩
    exact get_optional_string_plain _ JsonIdKey id rfl hid

/-- Claim C8, as amended: for a topic name, an id and a type name without characters that JSON
escapes, the type name being one whose canonical form the decoding side has registered,
interpreting the frame written by `encode_advertise_msg` returns after the one endpoint call
`receive_topic_advertisement_ws` with the same topic, the same id and the type registered under
the canonical name; interpreting the frame written by `encode_subscribe_msg` returns after the
one call `receive_subscribe_request_ws` with the same topic and id and that type. The decoding
side is left as it was. -/
theorem topic_frames_roundtrip (X : JsonXtypes) (enc dec : JsonEncoding)
    (topic type id : String) (t : DynamicType) (c : ConnectionHandle)
    (ht : plain topic = true) (hty : plain type = true) (hid : plain id = true)
    (hreg : dec.types_ (transform_type type) = some t) :
    dec.interpret_websocket_msg X (enc.encode_advertise_msg topic type id).1 c =
      ⟨Exit.returned, dec, [EndpointCall.receive_topic_advertisement_ws topic t id c]⟩ ∧
    dec.interpret_websocket_msg X (enc.encode_subscribe_msg topic type id).1 c =
      ⟨Exit.returned, dec, [EndpointCall.receive_subscribe_request_ws topic (some t) id c]⟩ := by
  have hct := plain_transform_type type hty
  have hget : dec.get_type (transform_type type) = some t := by
    rw [get_type_transform_type]; exact hreg
  constructor
  · obtain ⟨f1, f2, f3, f4⟩ :=
      topic_frame_fields JsonOpAdvertiseTopicKey topic (transform_type type) id hid
    have hparse := parse_topic_frame JsonOpAdvertiseTopicKey topic (transform_type type) id
      (by rfl) ht hct hid
    show (match Json.parse _ with
      | none => (⟨Exit.returned, dec, []⟩ : Interpreted)
      | some msg => interpret_json X dec msg c) = _
    rw [JsonEncoding.encode_advertise_msg]
    simp only []
    rw [hparse]
    simp only []
    rw [interpret_json_of_op X dec _ JsonOpAdvertiseTopicKey c f1]
    show interpret_advertise dec _ c = _
    rw [interpret_advertise, get_required_string_plain _ JsonTypeNameKey _ f3 hct]
    simp only [hget]
    rw [get_required_string_plain _ JsonTopicNameKey _ f2 ht, f4]
  · obtain ⟨f1, f2, f3, f4⟩ :=
      topic_frame_fields JsonOpSubscribeKey topic (transform_type type) id hid
    have hparse := parse_topic_frame JsonOpSubscribeKey topic (transform_type type) id
      (by rfl) ht hct hid
    show (match Json.parse _ with
      | none => (⟨Exit.returned, dec, []⟩ : Interpreted)
      | some msg => interpret_json X dec msg c) = _
    rw [JsonEncoding.encode_subscribe_msg]
    simp only []
    rw [hparse]
    simp only []
    rw [interpret_json_of_op X dec _ JsonOpSubscribeKey c f1]
    show interpret_subscribe dec _ c = _
    rw [interpret_subscribe, get_optional_string_plain _ JsonTypeNameKey _ f3 hct]
    simp only [hget]
    rw [get_required_string_plain _ JsonTopicNameKey _ f2 ht, f4]

/-- Witness for claim C8: the topic `dispatch_into_server`, the id `7` and the type name
`pkg/Dispatch`, registered under its canonical form `pkg__Dispatch`. -/
theorem topic_frames_roundtrip_witness :
    (example_encoding.encode_advertise_msg "dispatch_into_server" "pkg/Dispatch" "7").1 =
      "\x7b\"id\":\"7\",\"op\":\"advertise\",\"topic\":\"dispatch_into_server\",\"type\":\"pkg__Dispatch\"\x7d" ∧
    (((example_encoding.add_type Dispatch "pkg/Dispatch").1.interpret_websocket_msg example_xtypes
        (example_encoding.encode_advertise_msg "dispatch_into_server" "pkg/Dispatch" "7").1 1 =
      ⟨Exit.returned, (example_encoding.add_type Dispatch "pkg/Dispatch").1,
        [EndpointCall.receive_topic_advertisement_ws "dispatch_into_server" Dispatch "7" 1]⟩) ∧
    ((example_encoding.add_type Dispatch "pkg/Dispatch").1.interpret_websocket_msg example_xtypes
        (example_encoding.encode_subscribe_msg "dispatch_into_server" "pkg/Dispatch" "7").1 1 =
      ⟨Exit.returned, (example_encoding.add_type Dispatch "pkg/Dispatch").1,
        [EndpointCall.receive_subscribe_request_ws "dispatch_into_server" (some Dispatch) "7"
          1]⟩)) :=
  ⟨by rfl,
    topic_frames_roundtrip example_xtypes example_encoding
      (example_encoding.add_type Dispatch "pkg/Dispatch").1 "dispatch_into_server"
      "pkg/Dispatch" "7" Dispatch 1 (by rfl) (by rfl) (by rfl) (by rfl)⟩

/-- Counterexample to claim C8 as stated, with the frames that `encode_advertise_msg` writes.
For the topic `a"b` the endpoint is called with the topic `a\"b`; for the id `x"y` it is
called with the id `x\"y`; and for the type name `T"x`, which is its own canonical form and is
registered, the frame is dropped. -/
theorem topic_frames_roundtrip_fails_for_quotes :
    (example_encoding.interpret_websocket_msg example_xtypes
      (example_encoding.encode_advertise_msg "a\"b" "Dispatch" "").1 1).calls =
      [EndpointCall.receive_topic_advertisement_ws "a\\\"b" Dispatch "" 1] ∧
    "a\\\"b" ≠ "a\"b" ∧
    (example_encoding.interpret_websocket_msg example_xtypes
      (example_encoding.encode_advertise_msg "t" "Dispatch" "x\"y").1 1).calls =
      [EndpointCall.receive_topic_advertisement_ws "t" Dispatch "x\\\"y" 1] ∧
    "x\\\"y" ≠ "x\"y" ∧
    transform_type "T\"x" = "T\"x" ∧
    (example_encoding.add_type Dispatch "T\"x").1.types_ (transform_type "T\"x") =
      some Dispatch ∧
    ((example_encoding.add_type Dispatch "T\"x").1.interpret_websocket_msg example_xtypes
      (example_encoding.encode_advertise_msg "t" "T\"x" "").1 1).calls = [] :=
  ⟨by rfl, by decide, by rfl, by decide, by rfl, by rfl, by rfl⟩

/-! ## The type registry -/

/-- Claim C11, as amended. After `add_type(t, n)` has returned `true`, `get_type(m)` returns
`t` for every name `m` whose canonical form is that of the name the type was stored under:
`n`, or the type's own name when `n` is empty. And for every encoding, `get_type(m)` returns
null exactly when the canonical form of `m` is not a key of the registry. -/
theorem get_type_after_add_type (self : JsonEncoding) (t : DynamicType) (n m : String)
    (hadd : (self.add_type t n).2 = true)
    (hm : transform_type m = transform_type (if n = "" then t.name else n)) :
    (self.add_type t n).1.get_type m = some t ∧
    ∀ (enc : JsonEncoding) (m2 : String),
      enc.get_type m2 = none ↔ enc.types_ (transform_type m2) = none := by
  refine ⟨?_, fun enc m2 => Iff.rfl⟩
  unfold JsonEncoding.add_type StdMap.emplace at hadd ⊢
  unfold JsonEncoding.get_type
  rw [hm]
  cases h : self.types_ (transform_type (if n = "" then t.name else n)) with
  | some old => simp [h] at hadd
  | none => simp [h, StdMap.assign]

/-- Witness for claim C11: the type `Dispatch` added to a fresh encoding under the name
`foo/bar/Baz` is found under `foo__bar__Baz`. -/
theorem get_type_after_add_type_witness :
    (make_json_encoding.add_type Dispatch "foo/bar/Baz").2 = true ∧
    transform_type "foo__bar__Baz" =
      transform_type (if "foo/bar/Baz" = "" then Dispatch.name else "foo/bar/Baz") ∧
    ((make_json_encoding.add_type Dispatch "foo/bar/Baz").1.get_type "foo__bar__Baz" =
        some Dispatch ∧
      ∀ (enc : JsonEncoding) (m2 : String),
        enc.get_type m2 = none ↔ enc.types_ (transform_type m2) = none) :=
  ⟨by rfl, by rfl,
    get_type_after_add_type make_json_encoding Dispatch "foo/bar/Baz" "foo__bar__Baz" (by rfl)
      (by rfl)⟩

/-- Counterexample to claim C11 as stated: `add_type(Dispatch, "")` on a fresh encoding
returns `true`, the name `""` has the canonical form of the name passed, and `get_type("")`
returns null afterwards; the type is stored under its own name. -/
theorem get_type_after_add_type_empty_name :
    (make_json_encoding.add_type Dispatch "").2 = true ∧
    transform_type "" = transform_type "" ∧
    (make_json_encoding.add_type Dispatch "").1.get_type "" = none ∧
    (make_json_encoding.add_type Dispatch "").1.get_type "Dispatch" = some Dispatch :=
  ⟨by rfl, rfl, by rfl, by rfl⟩

/-- Claim C12. `add_type(type, name)` uses the key `transform_type(name)`, or
`transform_type` of the type's own name when `name` is empty. It returns `true` exactly when
that key was not in the registry; then the key maps to `type` afterwards and every other key
maps to what it mapped to before. When the key was in the registry it returns `false` and the
encoding is left exactly as it was. The bindings are not touched in either case. -/
theorem add_type_spec (self : JsonEncoding) (type : DynamicType) (name key : String)
    (hkey : key = transform_type (if name = "" then type.name else name)) :
    ((self.add_type type name).2 = true ↔ self.types_ key = none) ∧
    (self.types_ key = none →
      (self.add_type type name).1.types_ key = some type ∧
      ∀ k, k ≠ key → (self.add_type type name).1.types_ k = self.types_ k) ∧
    (self.types_ key ≠ none →
      (self.add_type type name).2 = false ∧ (self.add_type type name).1 = self) ∧
    (self.add_type type name).1.types_by_topic_ = self.types_by_topic_ ∧
    (self.add_type type name).1.types_by_service_ = self.types_by_service_ := by
  subst hkey
  unfold JsonEncoding.add_type StdMap.emplace
  cases h : self.types_ (transform_type (if name = "" then type.name else name)) with
  | some old => simp [h]
  | none =>
      simp only [h, StdMap.assign, true_and, if_true, ne_eq, not_true_eq_false,
        IsEmpty.forall_iff, and_true, forall_true_left]
      intro k hk
      simp [hk]

/-- Witness for claim C12: on a fresh encoding `add_type` under the name `foo/bar/Baz`
inserts, and a second `add_type` under a name with the same canonical form collides with
it. -/
theorem add_type_spec_witness :
    "foo__bar__Baz" = transform_type (if "foo/bar/Baz" = "" then Dispatch.name
      else "foo/bar/Baz") ∧
    make_json_encoding.types_ "foo__bar__Baz" = none ∧
    ((make_json_encoding.add_type Dispatch "foo/bar/Baz").1.types_ "foo__bar__Baz" =
        some Dispatch ∧
      ∀ k, k ≠ "foo__bar__Baz" →
        (make_json_encoding.add_type Dispatch "foo/bar/Baz").1.types_ k =
          make_json_encoding.types_ k) ∧
    (make_json_encoding.add_type Dispatch "foo/bar/Baz").1.types_ "foo__bar__Baz" ≠ none ∧
    (((make_json_encoding.add_type Dispatch "foo/bar/Baz").1.add_type Data_Request
        "foo__bar__Baz").2 = false ∧
      ((make_json_encoding.add_type Dispatch "foo/bar/Baz").1.add_type Data_Request
        "foo__bar__Baz").1 = (make_json_encoding.add_type Dispatch "foo/bar/Baz").1) :=
  ⟨by rfl, by rfl,
    (add_type_spec make_json_encoding Dispatch "foo/bar/Baz" "foo__bar__Baz" (by rfl)).2.1
      (by rfl),
    by
      rw [show (make_json_encoding.add_type Dispatch "foo/bar/Baz").1.types_ "foo__bar__Baz" =
        some Dispatch from by rfl]
      exact Option.some_ne_none _,
    (add_type_spec (make_json_encoding.add_type Dispatch "foo/bar/Baz").1 Data_Request
      "foo__bar__Baz" "foo__bar__Baz" (by rfl)).2.2.1
      (by
        rw [show (make_json_encoding.add_type Dispatch "foo/bar/Baz").1.types_
          "foo__bar__Baz" = some Dispatch from by rfl]
        exact Option.some_ne_none _)⟩

/-! ## Bindings recorded by the encoders -/

/-- Claim C14. After `encode_publication_msg(topic, type, ..)` with a message that converts,
and after every `encode_advertise_msg(topic, type, ..)` and `encode_subscribe_msg(topic,
type, ..)`, the topic binding of `topic` is `transform_type(type)`, whatever it was before;
the bindings of all other topics, the service bindings and the type registry are what they
were. -/
theorem topic_encoders_record_binding (X : JsonXtypes) (self : JsonEncoding)
    (topic type id : String) (msg : DynamicData) (converted : Json)
    (hconv : X.to_json msg = Except.ok converted) :
    ∀ enc : JsonEncoding,
      (enc = (self.encode_publication_msg X topic type id msg).2 ∨
        enc = (self.encode_advertise_msg topic type id).2 ∨
        enc = (self.encode_subscribe_msg topic type id).2) →
      enc.types_by_topic_ topic = some (transform_type type) ∧
      (∀ other, other ≠ topic → enc.types_by_topic_ other = self.types_by_topic_ other) ∧
      enc.types_by_service_ = self.types_by_service_ ∧
      enc.types_ = self.types_ := by
  intro enc henc
  have h : enc = { self with
      types_by_topic_ := self.types_by_topic_.assign topic (transform_type type) } := by
    rcases henc with h | h | h
    · rw [h, JsonEncoding.encode_publication_msg, hconv]
    · rw [h, JsonEncoding.encode_advertise_msg]
    · rw [h, JsonEncoding.encode_subscribe_msg]
  subst h
  refine ⟨by simp [StdMap.assign], ?_, rfl, rfl⟩
  intro other hne
  simp [StdMap.assign, hne]

/-- Witness for claim C14: the three encoders on the example encoding, for a topic that was
bound to another type before. -/
theorem topic_encoders_record_binding_witness :
    example_xtypes.to_json apple = Except.ok apple.content ∧
    (example_encoding.encode_advertise_msg "fruit" "Data_Request" "").2.types_by_topic_
      "fruit" = some "Data_Request" ∧
    ∀ enc : JsonEncoding,
      (enc = ((example_encoding.encode_advertise_msg "fruit" "Data_Request"
            "").2.encode_publication_msg example_xtypes "fruit" "pkg/Dispatch" "" apple).2 ∨
        enc = ((example_encoding.encode_advertise_msg "fruit" "Data_Request"
            "").2.encode_advertise_msg "fruit" "pkg/Dispatch" "").2 ∨
        enc = ((example_encoding.encode_advertise_msg "fruit" "Data_Request"
            "").2.encode_subscribe_msg "fruit" "pkg/Dispatch" "").2) →
      enc.types_by_topic_ "fruit" = some (transform_type "pkg/Dispatch") ∧
      (∀ other, other ≠ "fruit" →
        enc.types_by_topic_ other =
          (example_encoding.encode_advertise_msg "fruit" "Data_Request" "").2.types_by_topic_
            other) ∧
      enc.types_by_service_ =
        (example_encoding.encode_advertise_msg "fruit" "Data_Request" "").2.types_by_service_ ∧
      enc.types_ = (example_encoding.encode_advertise_msg "fruit" "Data_Request" "").2.types_ :=
  ⟨rfl, by rfl,
    topic_encoders_record_binding example_xtypes
      (example_encoding.encode_advertise_msg "fruit" "Data_Request" "").2 "fruit"
      "pkg/Dispatch" "" apple apple.content rfl⟩

/-- Claim C15. After `encode_call_service_msg(S, reqType, ..)` with a request that converts,
the binding of `S` is `(transform_type(reqType), r)`, `r` being the reply half that `S` had
before, or the empty string if `S` had no binding. After `encode_service_response_msg(S,
repType, ..)` with a response that converts, it is `(q, transform_type(repType))`, `q` being
the request half that `S` had before, or the empty string. The bindings of all other services,
the topic bindings and the registry are what they were. -/
theorem service_encoders_update_one_half (X : JsonXtypes) (self : JsonEncoding)
    (S service_type id : String) (data : DynamicData) (result : Bool) (converted : Json)
    (hconv : X.to_json data = Except.ok converted) :
    ((self.encode_call_service_msg X S service_type data id).2.types_by_service_ S =
        some (transform_type service_type,
          match self.types_by_service_ S with
          | some binding => binding.2
          | none => "") ∧
      (∀ other, other ≠ S →
        (self.encode_call_service_msg X S service_type data id).2.types_by_service_ other =
          self.types_by_service_ other) ∧
      (self.encode_call_service_msg X S service_type data id).2.types_by_topic_ =
        self.types_by_topic_ ∧
      (self.encode_call_service_msg X S service_type data id).2.types_ = self.types_) ∧
    ((self.encode_service_response_msg X S service_type id data result).2.types_by_service_ S =
        some (
          (match self.types_by_service_ S with
            | some binding => binding.1
            | none => ""),
          transform_type service_type) ∧
      (∀ other, other ≠ S →
        (self.encode_service_response_msg X S service_type id data
          result).2.types_by_service_ other = self.types_by_service_ other) ∧
      (self.encode_service_response_msg X S service_type id data result).2.types_by_topic_ =
        self.types_by_topic_ ∧
      (self.encode_service_response_msg X S service_type id data result).2.types_ =
        self.types_) := by
  constructor
  · rw [JsonEncoding.encode_call_service_msg, hconv]
    refine ⟨?_, ?_, rfl, rfl⟩
    · cases self.types_by_service_ S <;> simp [StdMap.assign]
    · intro other hne
      simp [StdMap.assign, hne]
  · rw [JsonEncoding.encode_service_response_msg, hconv]
    refine ⟨?_, ?_, rfl, rfl⟩
    · cases self.types_by_service_ S <;> simp [StdMap.assign]
    · intro other hne
      simp [StdMap.assign, hne]

/-- Witness for claim C15: the service `client_request` after a local advertisement of it, so
that both halves are set; the call keeps the reply half and the response keeps the request
half. -/
theorem service_encoders_update_one_half_witness :
    example_xtypes.to_json client_request = Except.ok client_request.content ∧
    advertised_encoding.types_by_service_ "client_request" =
      some ("Data_Request", "Data_Response") ∧
    (advertised_encoding.encode_call_service_msg example_xtypes "client_request" "pkg/Req"
      client_request "1").2.types_by_service_ "client_request" =
      some ("pkg__Req", "Data_Response") ∧
    (advertised_encoding.encode_service_response_msg example_xtypes "client_request" "pkg/Rep"
      "1" client_request true).2.types_by_service_ "client_request" =
      some ("Data_Request", "pkg__Rep") ∧
    (∀ other, other ≠ "client_request" →
      (advertised_encoding.encode_call_service_msg example_xtypes "client_request" "pkg/Req"
        client_request "1").2.types_by_service_ other =
        advertised_encoding.types_by_service_ other) :=
  ⟨rfl, by rfl, by rfl, by rfl,
    (service_encoders_update_one_half example_xtypes advertised_encoding "client_request"
      "pkg/Req" "1" client_request true client_request.content rfl).1.2.1⟩

/-! ## `Json::parse` after `dump()` on objects of arbitrary strings -/

/-- A character that `dump()` writes as itself. -/
theorem escape_char_plain (c : Char) (h : needs_escape c = false) : escape_char c = [c] := by
  simp only [needs_escape, Bool.or_eq_false_iff, decide_eq_false_iff_not] at h
  obtain ⟨⟨h1, h2⟩, h3⟩ := h
  unfold escape_char
  have n1 : ¬ c = '\x08' := fun e => h3 (by rw [e]; decide)
  have n2 : ¬ c = '\x0c' := fun e => h3 (by rw [e]; decide)
  have n3 : ¬ c = '\n' := fun e => h3 (by rw [e]; decide)
  have n4 : ¬ c = '\r' := fun e => h3 (by rw [e]; decide)
  have n5 : ¬ c = '\t' := fun e => h3 (by rw [e]; decide)
  simp [h1, h2, h3, n1, n2, n3, n4, n5]

/-- One step of the string scanner reads back what `dump()` wrote for one control
character. -/
theorem scan_escaped_control (k m : Nat) (R : List Char) (hk : k < 32) :
    scan_string_loop (m + 1) (escape_char (Char.ofNat k) ++ R) =
      push_char (Char.ofNat k) (scan_string_loop m R) := by
  interval_cases k <;> rfl

/-- One step of the string scanner reads back what `dump()` wrote for one character. -/
theorem scan_escaped_char (c : Char) (m : Nat) (R : List Char) :
    scan_string_loop (m + 1) (escape_char c ++ R) = push_char c (scan_string_loop m R) := by
  by_cases hq : c = '"'
  · subst hq; rfl
  by_cases hb : c = '\\'
  · subst hb; rfl
  by_cases hc : c.toNat ≤ 0x1F
  · have h := scan_escaped_control c.toNat m R (by omega)
    rwa [Char.ofNat_toNat] at h
  · have hp : needs_escape c = false := by
      simp [needs_escape, hq, hb, hc]
    rw [escape_char_plain c hp, List.singleton_append, scan_string_loop, if_neg hq, if_neg hb,
      if_neg (by omega)]

/-- The string scanner reads back the escaped form of every string. -/
theorem scan_string_loop_escape (s rest : List Char) :
    ∀ n, s.length < n → scan_string_loop n (escape s ++ '"' :: rest) = some (s, rest) := by
  induction s with
  | nil =>
      intro n hn
      obtain ⟨m, rfl⟩ : ∃ m, n = m + 1 := ⟨n - 1, by simp at hn; omega⟩
      show scan_string_loop (m + 1) ('"' :: rest) = some ([], rest)
      rw [scan_string_loop, if_pos rfl]
  | cons c cs ih =>
      intro n hn
      obtain ⟨m, rfl⟩ : ∃ m, n = m + 1 := ⟨n - 1, by simp at hn; omega⟩
      have e : escape (c :: cs) ++ '"' :: rest = escape_char c ++ (escape cs ++ '"' :: rest) := by
        simp [escape, List.flatMap_cons]
      rw [e, scan_escaped_char, ih m (by simp at hn; omega)]
      rfl

/-- The escaped form of a string is not shorter than the string. -/
theorem length_le_escape (s : List Char) : s.length ≤ (escape s).length := by
  induction s with
  | nil => simp [escape]
  | cons c cs ih =>
      have e : escape (c :: cs) = escape_char c ++ escape cs := by
        simp [escape, List.flatMap_cons]
      have h1 : 1 ≤ (escape_char c).length := by
        unfold escape_char
        repeat' split
        all_goals simp
      rw [e, List.length_append, List.length_cons]
      omega

/-- The string scanner, with its own bound, reads back the escaped form of every string. -/
theorem scan_string_escape (s rest : List Char) :
    scan_string (escape s ++ '"' :: rest) = some (s, rest) :=
  scan_string_loop_escape s rest _ (by
    have := length_le_escape s
    simp only [List.length_append, List.length_cons]
    omega)

/-- Every string is read back as a value from its dump. -/
theorem parse_value_escaped_string (fuel : Nat) (s rest : List Char) :
    parse_value (fuel + 1) ('"' :: (escape s ++ '"' :: rest)) =
      some (Json.string (String.mk s), rest) := by
  rw [parse_value, skip_ws_cons _ _ (by decide)]
  simp only [if_neg (show ¬ '"' = '{' by decide), if_neg (show ¬ '"' = '[' by decide), if_true]
  rw [scan_string_escape s rest]
  rfl

/-- One member with a string value, followed by the character `sep`, read by `parse_members`
up to the point after the value. -/
theorem parse_members_escaped_step (fuel n : Nat) (acc : List (String × Json)) (k v : String)
    (sep : Char) (tail : List Char) (hsep : is_ws sep = false) :
    parse_members (parse_value (fuel + 1)) (n + 1) acc
        ('"' :: (escape k.data ++ '"' :: ':' :: '"' :: (escape v.data ++ '"' :: sep :: tail))) =
      if sep = ',' then
        parse_members (parse_value (fuel + 1)) n (obj_set acc k (Json.string v)) tail
      else if sep = '}' then some (obj_set acc k (Json.string v), tail)
      else none := by
  rw [parse_members, skip_ws_cons _ _ (by decide)]
  simp only [if_true]
  rw [scan_string_escape k.data _]
  simp only []
  rw [skip_ws_cons _ _ (by decide)]
  simp only [if_true]
  rw [parse_value_escaped_string fuel v.data _]
  simp only []
  rw [skip_ws_cons _ _ hsep]

/-- The text that `dump()` writes for a member whose value is a string. -/
theorem dump_members_cons_escaped (k v : String) (ms : List (String × Json))
    (tail : List Char) :
    dump_members ((k, Json.string v) :: ms) ++ tail =
      '"' :: (escape k.data ++ '"' :: ':' :: '"' :: (escape v.data ++ '"' ::
        (match ms with
          | [] => tail
          | _ :: _ => ',' :: (dump_members ms ++ tail)))) := by
  cases ms with
  | nil =>
      simp only [dump_members, dump_chars, List.cons_append, List.append_assoc,
        List.nil_append]
  | cons q ms' =>
      simp only [dump_members, dump_chars, List.cons_append, List.append_assoc,
        List.nil_append]

/-- The members of an object whose values are strings are read back in order. -/
theorem parse_members_escaped (fuel : Nat) (rest : List Char) :
    ∀ (ms : List (String × String)) (n : Nat) (acc : List (String × Json)), ms ≠ [] →
      ms.length ≤ n →
      parse_members (parse_value (fuel + 1)) n acc
          (dump_members (ms.map (fun p => (p.1, Json.string p.2))) ++ '}' :: rest) =
        some (ms.foldl (fun a p => obj_set a p.1 (Json.string p.2)) acc, rest) := by
  intro ms
  induction ms with
  | nil => intro _ _ h; exact absurd rfl h
  | cons p ms' ih =>
      intro n acc _ hn
      obtain ⟨m, rfl⟩ : ∃ m, n = m + 1 := ⟨n - 1, by simp at hn; omega⟩
      rw [List.map_cons, dump_members_cons_escaped p.1 p.2]
      cases ms' with
      | nil =>
          simp only [List.map_nil]
          rw [parse_members_escaped_step fuel m acc p.1 p.2 '}' rest (by decide)]
          simp
      | cons q ms'' =>
          simp only [List.map_cons]
          rw [parse_members_escaped_step fuel m acc p.1 p.2 ',' _ (by decide)]
          simp only [if_true]
          have := ih m (obj_set acc p.1 (Json.string p.2)) (by simp)
            (by simp at hn ⊢; omega)
          simp only [List.map_cons] at this
          rw [this]
          rfl

/-- Parsing the dump of an object whose values are strings gives the object that the
assignments of the members in order build. -/
theorem parse_dump_escaped_object (ms : List (String × String)) (hne : ms ≠ []) :
    Json.parse (Json.object (ms.map (fun p => (p.1, Json.string p.2)))).dump =
      some (Json.object (ms.foldl (fun a p => obj_set a p.1 (Json.string p.2)) [])) := by
  obtain ⟨p, ms', rfl⟩ : ∃ p ms', ms = p :: ms' := by
    cases ms with
    | nil => exact absurd rfl hne
    | cons p ms' => exact ⟨p, ms', rfl⟩
  have htext : (Json.object ((p :: ms').map (fun p => (p.1, Json.string p.2)))).dump.data =
      '{' :: (dump_members ((p :: ms').map (fun p => (p.1, Json.string p.2))) ++ '}' :: []) := by
    simp [Json.dump, dump_chars]
  have hhead : ∃ t, dump_members ((p :: ms').map (fun p => (p.1, Json.string p.2))) ++ '}' :: []
      = '"' :: t := by
    rw [List.map_cons, dump_members_cons_escaped p.1 p.2]
    exact ⟨_, rfl⟩
  obtain ⟨t, ht⟩ := hhead
  have hlen : (p :: ms').length ≤ (dump_members ((p :: ms').map (fun p => (p.1, Json.string p.2)))
      ++ '}' :: []).length := by
    have := dump_members_length ((p :: ms').map (fun p => (p.1, Json.string p.2)))
    simp only [List.length_map, List.length_append] at this ⊢
    omega
  have hm := parse_members_escaped
    ((dump_members ((p :: ms').map (fun p => (p.1, Json.string p.2))) ++ '}' :: []).length) []
    (p :: ms') _ [] hne hlen
  unfold Json.parse
  rw [htext]
  have hbom : skip_bom ('{' :: (dump_members ((p :: ms').map (fun p => (p.1, Json.string p.2)))
      ++ '}' :: [])) = '{' :: (dump_members ((p :: ms').map (fun p => (p.1, Json.string p.2)))
      ++ '}' :: []) := by
    rw [skip_bom, if_neg (by decide)]
  rw [hbom, List.length_cons, parse_value, skip_ws_cons _ _ (by decide)]
  simp only [if_true]
  rw [ht] at hm ⊢
  rw [skip_ws_cons _ _ (by decide)]
  simp only [if_neg (show ¬ '"' = '}' by decide)]
  rw [hm]
  rfl

/-- What `Json::parse` makes of a topic frame written by `encode_advertise_msg` or
`encode_subscribe_msg`, for arbitrary strings. -/
theorem parse_topic_frame_escaped (op topic type id : String) :
    Json.parse
        (if ¬ id = "" then
          (((Json.null.set JsonOpKey (Json.string op)).set JsonTopicNameKey
            (Json.string topic)).set JsonTypeNameKey (Json.string type)).set JsonIdKey
            (Json.string id)
        else
          ((Json.null.set JsonOpKey (Json.string op)).set JsonTopicNameKey
            (Json.string topic)).set JsonTypeNameKey (Json.string type)).dump =
      some (Json.object
        ((if id = "" then [] else [("id", Json.string id)]) ++
          [("op", Json.string op), ("topic", Json.string topic), ("type", Json.string type)])) := by
  by_cases h : id = ""
  · simp only [h, not_true_eq_false, if_false, if_true, List.nil_append]
    rw [topic_frame_without_id, parse_dump_escaped_object _ (by simp)]
    rfl
  · simp only [h, not_false_eq_true, if_true, if_false]
    rw [topic_frame_with_id, parse_dump_escaped_object _ (by simp)]
    rfl

/-- What `Json::parse` makes of the frame written by `encode_advertise_service_msg`. -/
theorem parse_advertise_service_frame (self : JsonEncoding)
    (service request_type reply_type id : String) :
    Json.parse (self.encode_advertise_service_msg service request_type reply_type id).1 =
      some (Json.object
        [("op", Json.string JsonOpAdvertiseServiceKey),
          ("reply_type", Json.string (transform_type reply_type)),
          ("request_type", Json.string (transform_type request_type)),
          ("service", Json.string service)]) := by
  have h : (self.encode_advertise_service_msg service request_type reply_type id).1 =
      (Json.object ([("op", JsonOpAdvertiseServiceKey),
        ("reply_type", transform_type reply_type),
        ("request_type", transform_type request_type),
        ("service", service)].map (fun p => (p.1, Json.string p.2)))).dump := by
    rfl
  rw [h, parse_dump_escaped_object _ (by simp)]
  rfl

/-- Claim C13. For all inputs, the frames written by `encode_advertise_msg` and
`encode_subscribe_msg` parse to an object whose `type` field is the string
`transform_type` of the given type name, the frame written by
`encode_advertise_service_msg` parses to an object whose `request_type` and `reply_type`
fields are `transform_type` of the given names, and `transform_type` of a name contains no
`/`. -/
theorem emitted_type_names_canonical (self : JsonEncoding)
    (topic type id service request_type reply_type : String) :
    (∃ frame, Json.parse (self.encode_advertise_msg topic type id).1 = some frame ∧
      frame.find JsonTypeNameKey = some (Json.string (transform_type type))) ∧
    (∃ frame, Json.parse (self.encode_subscribe_msg topic type id).1 = some frame ∧
      frame.find JsonTypeNameKey = some (Json.string (transform_type type))) ∧
    (∃ frame,
      Json.parse (self.encode_advertise_service_msg service request_type reply_type id).1 =
        some frame ∧
      frame.find JsonRequestTypeNameKey = some (Json.string (transform_type request_type)) ∧
      frame.find JsonReplyTypeNameKey = some (Json.string (transform_type reply_type))) ∧
    '/' ∉ (transform_type type).data ∧
    '/' ∉ (transform_type request_type).data ∧
    '/' ∉ (transform_type reply_type).data := by
  refine ⟨⟨_, parse_topic_frame_escaped JsonOpAdvertiseTopicKey topic (transform_type type) id,
      ?_⟩,
    ⟨_, parse_topic_frame_escaped JsonOpSubscribeKey topic (transform_type type) id, ?_⟩,
    ⟨_, parse_advertise_service_frame self service request_type reply_type id, rfl, rfl⟩,
    transform_type_no_slash type, transform_type_no_slash request_type,
    transform_type_no_slash reply_type⟩
  · by_cases h : id = ""
    · subst h; rfl
    · simp only [h, if_false]; rfl
  · by_cases h : id = ""
    · subst h; rfl
    · simp only [h, if_false]; rfl

/-! ## Decoding of advertisements -/

/-- Claim C16, as amended. Let an `advertise_service` frame carry the service name and the two
type names as JSON strings without characters that JSON escapes. If the registry resolves both
type names, `interpret_websocket_msg` returns after the one endpoint call
`receive_service_advertisement_ws` with the service name, the two resolved types and the
connection, and afterwards the binding of the service is the pair of the canonical type names,
all other bindings and the registry being what they were. If the registry does not resolve one
of the two names, no endpoint call is made and the encoding is left as it was. -/
theorem advertise_service_frame_decoded (X : JsonXtypes) (self : JsonEncoding)
    (msg_str : String) (msg : Json) (c : ConnectionHandle) (S Req Rep : String)
    (hS : plain S = true) (hReq : plain Req = true) (hRep : plain Rep = true)
    (hparse : Json.parse msg_str = some msg)
    (hop : msg.find JsonOpKey = some (Json.string JsonOpAdvertiseServiceKey))
    (hs : msg.find JsonServiceKey = some (Json.string S))
    (hq : msg.find JsonRequestTypeNameKey = some (Json.string Req))
    (hr : msg.find JsonReplyTypeNameKey = some (Json.string Rep)) :
    (∀ req rep, self.get_type Req = some req → self.get_type Rep = some rep →
      (self.interpret_websocket_msg X msg_str c).exit = Exit.returned ∧
      (self.interpret_websocket_msg X msg_str c).calls =
        [EndpointCall.receive_service_advertisement_ws S req rep c] ∧
      (self.interpret_websocket_msg X msg_str c).encoding.types_by_service_ S =
        some (transform_type Req, transform_type Rep) ∧
      (∀ other, other ≠ S →
        (self.interpret_websocket_msg X msg_str c).encoding.types_by_service_ other =
          self.types_by_service_ other) ∧
      (self.interpret_websocket_msg X msg_str c).encoding.types_by_topic_ =
        self.types_by_topic_ ∧
      (self.interpret_websocket_msg X msg_str c).encoding.types_ = self.types_) ∧
    ((self.get_type Req = none ∨ self.get_type Rep = none) →
      self.interpret_websocket_msg X msg_str c = ⟨Exit.returned, self, []⟩) := by
  have hrun : self.interpret_websocket_msg X msg_str c =
      interpret_advertise_service self msg c := by
    simp only [JsonEncoding.interpret_websocket_msg, hparse,
      interpret_json_of_op X self msg JsonOpAdvertiseServiceKey c hop]
    rfl
  rw [hrun]
  constructor
  · intro req rep hqt hrt
    rw [interpret_advertise_service_resolved self msg c S Req Rep req rep hs hS hq hReq hr hRep
      hqt hrt]
    refine ⟨rfl, rfl, by simp [StdMap.assign], ?_, rfl, rfl⟩
    intro other hne
    simp [StdMap.assign, hne]
  · intro hnone
    simp only [interpret_advertise_service,
      get_required_string_plain msg JsonRequestTypeNameKey Req hq hReq,
      get_required_string_plain msg JsonReplyTypeNameKey Rep hr hRep]
    rcases hnone with h | h
    · rw [h]
    · rw [h]
      cases self.get_type Req <;> rfl

/-- Witness for claim C16: the advertisement frame of the services test, on the example
encoding. -/
theorem advertise_service_frame_decoded_witness :
    Json.parse advertise_service_frame =
      some (Json.object [("op", Json.string "advertise_service"),
        ("reply_type", Json.string "Data_Response"),
        ("request_type", Json.string "Data_Request"),
        ("service", Json.string "client_request")]) ∧
    example_encoding.get_type "Data_Request" = some Data_Request ∧
    example_encoding.get_type "Data_Response" = some Data_Response ∧
    (example_encoding.interpret_websocket_msg example_xtypes advertise_service_frame 1).calls =
      [EndpointCall.receive_service_advertisement_ws "client_request" Data_Request
        Data_Response 1] ∧
    (example_encoding.interpret_websocket_msg example_xtypes advertise_service_frame
      1).encoding.types_by_service_ "client_request" =
      some (transform_type "Data_Request", transform_type "Data_Response") ∧
    make_json_encoding.get_type "Data_Request" = none ∧
    make_json_encoding.interpret_websocket_msg example_xtypes advertise_service_frame 1 =
      ⟨Exit.returned, make_json_encoding, []⟩ :=
  ⟨by rfl, by rfl, by rfl,
    ((advertise_service_frame_decoded example_xtypes example_encoding advertise_service_frame
      _ 1 "client_request" "Data_Request" "Data_Response" (by rfl) (by rfl) (by rfl) (by rfl)
      (by rfl) (by rfl) (by rfl) (by rfl)).1 Data_Request Data_Response (by rfl)
      (by rfl)).2.1,
    ((advertise_service_frame_decoded example_xtypes example_encoding advertise_service_frame
      _ 1 "client_request" "Data_Request" "Data_Response" (by rfl) (by rfl) (by rfl) (by rfl)
      (by rfl) (by rfl) (by rfl) (by rfl)).1 Data_Request Data_Response (by rfl)
      (by rfl)).2.2.1,
    by rfl,
    (advertise_service_frame_decoded example_xtypes make_json_encoding advertise_service_frame
      _ 1 "client_request" "Data_Request" "Data_Response" (by rfl) (by rfl) (by rfl) (by rfl)
      (by rfl) (by rfl) (by rfl) (by rfl)).2 (Or.inl (by rfl))⟩

/-- Counterexample to claim C16 as stated: the advertisement frame for the service `a"b`, as
`encode_advertise_service_msg` writes it, with both types registered. The endpoint is called
with the name `a\"b`, the binding is stored under `a\"b`, and the service `a"b` has no binding
afterwards. -/
theorem advertise_service_frame_quoted_name :
    (example_encoding.encode_advertise_service_msg "a\"b" "Data_Request" "Data_Response" "").1 =
      quoted_advertise_service_frame ∧
    example_encoding.get_type "Data_Request" = some Data_Request ∧
    example_encoding.get_type "Data_Response" = some Data_Response ∧
    (example_encoding.interpret_websocket_msg example_xtypes quoted_advertise_service_frame
      1).calls =
      [EndpointCall.receive_service_advertisement_ws "a\\\"b" Data_Request Data_Response 1] ∧
    "a\\\"b" ≠ "a\"b" ∧
    (example_encoding.interpret_websocket_msg example_xtypes quoted_advertise_service_frame
      1).encoding.types_by_service_ "a\"b" = none ∧
    (example_encoding.interpret_websocket_msg example_xtypes quoted_advertise_service_frame
      1).encoding.types_by_service_ "a\\\"b" = some ("Data_Request", "Data_Response") :=
  ⟨by rfl, by rfl, by rfl, by rfl, by decide, by rfl, by rfl⟩

/-- Claim C17, as amended. Let an `advertise` frame carry its topic and its type name as JSON
strings without characters that JSON escapes, the type name being resolved by the registry,
and let its `id` be absent or such a string. Then `interpret_websocket_msg` returns after the
one endpoint call `receive_topic_advertisement_ws` with the topic, the resolved type, the id
(empty if absent) and the connection, and the encoding - registry, topic bindings, service
bindings - is exactly what it was; consequently every later frame, a `publish` on that topic
among them, is interpreted exactly as it would have been without the advertise frame. -/
theorem advertise_frame_stores_nothing (X : JsonXtypes) (self : JsonEncoding)
    (msg_str later : String) (msg : Json) (c c2 : ConnectionHandle) (topic type_name id : String)
    (t : DynamicType)
    (htopic_plain : plain topic = true) (htype_plain : plain type_name = true)
    (hparse : Json.parse msg_str = some msg)
    (hop : msg.find JsonOpKey = some (Json.string JsonOpAdvertiseTopicKey))
    (htopic : msg.find JsonTopicNameKey = some (Json.string topic))
    (htype : msg.find JsonTypeNameKey = some (Json.string type_name))
    (hid : (msg.find JsonIdKey = none ∧ id = "") ∨
      (msg.find JsonIdKey = some (Json.string id) ∧ plain id = true))
    (hreg : self.get_type type_name = some t) :
    self.interpret_websocket_msg X msg_str c =
      ⟨Exit.returned, self, [EndpointCall.receive_topic_advertisement_ws topic t id c]⟩ ∧
    (self.interpret_websocket_msg X msg_str c).encoding.interpret_websocket_msg X later c2 =
      self.interpret_websocket_msg X later c2 := by
  have hidv : get_optional_string msg JsonIdKey = id := by
    rcases hid with ⟨h, rfl⟩ | ⟨h, hp⟩
    · simp [get_optional_string, h]
    · exact get_optional_string_plain msg JsonIdKey id h hp
  have hrun : self.interpret_websocket_msg X msg_str c =
      ⟨Exit.returned, self, [EndpointCall.receive_topic_advertisement_ws topic t id c]⟩ := by
    simp only [JsonEncoding.interpret_websocket_msg, hparse,
      interpret_json_of_op X self msg JsonOpAdvertiseTopicKey c hop]
    show interpret_advertise self msg c = _
    rw [interpret_advertise, get_required_string_plain msg JsonTypeNameKey type_name htype
      htype_plain]
    simp only [hreg]
    rw [get_required_string_plain msg JsonTopicNameKey topic htopic htopic_plain, hidv]
  rw [hrun]
  exact ⟨rfl, rfl⟩

/-- Witness for claim C17: an `advertise` frame for the topic `fruit` on the example encoding,
followed by a `publish` frame for that topic, which is dropped as it would have been
before. -/
theorem advertise_frame_stores_nothing_witness :
    Json.parse advertise_frame =
      some (Json.object [("id", Json.string "7"), ("op", Json.string "advertise"),
        ("topic", Json.string "fruit"), ("type", Json.string "Dispatch")]) ∧
    example_encoding.get_type "Dispatch" = some Dispatch ∧
    (example_encoding.interpret_websocket_msg example_xtypes advertise_frame 1 =
        ⟨Exit.returned, example_encoding,
          [EndpointCall.receive_topic_advertisement_ws "fruit" Dispatch "7" 1]⟩ ∧
      (example_encoding.interpret_websocket_msg example_xtypes advertise_frame
        1).encoding.interpret_websocket_msg example_xtypes publish_frame 1 =
        example_encoding.interpret_websocket_msg example_xtypes publish_frame 1) ∧
    (example_encoding.interpret_websocket_msg example_xtypes publish_frame 1).calls = [] :=
  ⟨by rfl, by rfl,
    advertise_frame_stores_nothing example_xtypes example_encoding advertise_frame
      publish_frame _ 1 1 "fruit" "Dispatch" "7" Dispatch (by rfl) (by rfl) (by rfl) (by rfl)
      (by rfl) (by rfl) (Or.inr ⟨by rfl, by rfl⟩) (by rfl),
    by rfl⟩

/-- Counterexample to claim C17 as stated. First part: the advertise frame for the topic
`a"b`, as `encode_advertise_msg` writes it, reaches the endpoint with the topic `a\"b`.
Second part: on an encoding with a type registered under the empty name, which has encoded
nothing for the topic `t`, a `publish` frame on `t` that follows an advertise frame for `t`
is decoded and handed to the endpoint. -/
theorem advertise_frame_quoted_topic_and_unbound_publish :
    (example_encoding.encode_advertise_msg "a\"b" "Dispatch" "").1 = quoted_advertise_frame ∧
    (example_encoding.interpret_websocket_msg example_xtypes quoted_advertise_frame 1).calls =
      [EndpointCall.receive_topic_advertisement_ws "a\\\"b" Dispatch "" 1] ∧
    "a\\\"b" ≠ "a\"b" ∧
    nameless_encoding.types_by_topic_ "t" = none ∧
    (nameless_encoding.interpret_websocket_msg example_xtypes nameless_advertise_frame
      1).calls = [EndpointCall.receive_topic_advertisement_ws "t" nameless_type "" 1] ∧
    ((nameless_encoding.interpret_websocket_msg example_xtypes nameless_advertise_frame
      1).encoding.interpret_websocket_msg example_xtypes nameless_publish_frame 1).calls =
      [EndpointCall.receive_publication_ws "t" ⟨nameless_type, Json.object []⟩ 1] :=
  ⟨by rfl, by rfl, by decide, by rfl, by rfl, by rfl⟩

/-! ## Optional and required fields -/

/-- The `publish` branch calls nothing but `receive_publication_ws`. -/
theorem interpret_publish_calls (X : JsonXtypes) (self : JsonEncoding) (msg : Json)
    (c : ConnectionHandle) :
    (interpret_publish X self msg c).calls = [] ∨
      ∃ t d, (interpret_publish X self msg c).calls = [EndpointCall.receive_publication_ws t d c] := by
  unfold interpret_publish
  cases get_required_string msg JsonTopicNameKey with
  | error f => exact Or.inl rfl
  | ok topic =>
      simp only []
      generalize self.get_type_by_topic topic = r
      rcases r with ⟨_ | t, s1⟩
      · exact Or.inl rfl
      · simp only []
        cases get_required_msg X msg t JsonMsgKey with
        | error f => exact Or.inl rfl
        | ok o =>
            cases o with
            | none => exact Or.inl rfl
            | some d => exact Or.inr ⟨_, _, rfl⟩

/-- The `call_service` branch calls nothing but `receive_service_request_ws`. -/
theorem interpret_call_service_calls (X : JsonXtypes) (self : JsonEncoding) (msg : Json)
    (c : ConnectionHandle) :
    (interpret_call_service X self msg c).calls = [] ∨
      ∃ s d i, (interpret_call_service X self msg c).calls =
        [EndpointCall.receive_service_request_ws s d i c] := by
  unfold interpret_call_service
  cases get_required_string msg JsonServiceKey with
  | error f => exact Or.inl rfl
  | ok service =>
      simp only []
      generalize self.get_req_type_from_service service = r
      rcases r with ⟨_ | t, s1⟩
      · exact Or.inl rfl
      · simp only []
        cases get_required_msg X msg t JsonArgsKey with
        | error f => exact Or.inl rfl
        | ok o =>
            cases o with
            | none => exact Or.inl rfl
            | some d => exact Or.inr ⟨_, _, _, rfl⟩

/-- The `service_response` branch calls nothing but `receive_service_response_ws`. -/
theorem interpret_service_response_calls (X : JsonXtypes) (self : JsonEncoding) (msg : Json)
    (c : ConnectionHandle) :
    (interpret_service_response X self msg c).calls = [] ∨
      ∃ s d i, (interpret_service_response X self msg c).calls =
        [EndpointCall.receive_service_response_ws s d i c] := by
  unfold interpret_service_response
  cases get_required_string msg JsonServiceKey with
  | error f => exact Or.inl rfl
  | ok service =>
      simp only []
      generalize self.get_rep_type_from_service service = r
      rcases r with ⟨_ | t, s1⟩
      · exact Or.inl rfl
      · simp only []
        cases get_required_msg X msg t JsonValuesKey with
        | error f => exact Or.inl rfl
        | ok o =>
            cases o with
            | none => exact Or.inl rfl
            | some d => exact Or.inr ⟨_, _, _, rfl⟩

/-- The `advertise` branch calls nothing but `receive_topic_advertisement_ws`. -/
theorem interpret_advertise_calls (self : JsonEncoding) (msg : Json) (c : ConnectionHandle) :
    (interpret_advertise self msg c).calls = [] ∨
      ∃ t ty i, (interpret_advertise self msg c).calls =
        [EndpointCall.receive_topic_advertisement_ws t ty i c] := by
  unfold interpret_advertise
  cases get_required_string msg JsonTypeNameKey with
  | error f => exact Or.inl rfl
  | ok type_name =>
      simp only []
      cases self.get_type type_name with
      | none => exact Or.inl rfl
      | some ty =>
          simp only []
          cases get_required_string msg JsonTopicNameKey with
          | error f => exact Or.inl rfl
          | ok topic => exact Or.inr ⟨_, _, _, rfl⟩

/-- The `subscribe` branch calls nothing but `receive_subscribe_request_ws`, with a type
that is not null. -/
theorem interpret_subscribe_calls (self : JsonEncoding) (msg : Json) (c : ConnectionHandle) :
    (interpret_subscribe self msg c).calls = [] ∨
      ∃ t ty i, (interpret_subscribe self msg c).calls =
        [EndpointCall.receive_subscribe_request_ws t (some ty) i c] := by
  unfold interpret_subscribe
  cases self.get_type (get_optional_string msg JsonTypeNameKey) with
  | none => exact Or.inl rfl
  | some ty =>
      simp only []
      cases get_required_string msg JsonTopicNameKey with
      | error f => exact Or.inl rfl
      | ok topic => exact Or.inr ⟨_, _, _, rfl⟩

/-- The `unadvertise_service` branch calls nothing but `receive_service_unadvertisement_ws`,
with a type that is not null. -/
theorem interpret_unadvertise_service_calls (self : JsonEncoding) (msg : Json)
    (c : ConnectionHandle) :
    (interpret_unadvertise_service self msg c).calls = [] ∨
      ∃ s ty, (interpret_unadvertise_service self msg c).calls =
        [EndpointCall.receive_service_unadvertisement_ws s (some ty) c] := by
  unfold interpret_unadvertise_service
  cases self.get_type (get_optional_string msg JsonTypeNameKey) with
  | none => exact Or.inl rfl
  | some ty =>
      simp only []
      cases get_required_string msg JsonServiceKey with
      | error f => exact Or.inl rfl
      | ok service => exact Or.inr ⟨_, _, rfl⟩

/-- The `unadvertise` branch calls nothing but `receive_topic_unadvertisement_ws`. -/
theorem interpret_unadvertise_calls (self : JsonEncoding) (msg : Json) (c : ConnectionHandle) :
    (interpret_unadvertise self msg c).calls = [] ∨
      ∃ t i, (interpret_unadvertise self msg c).calls =
        [EndpointCall.receive_topic_unadvertisement_ws t i c] := by
  unfold interpret_unadvertise
  cases get_required_string msg JsonTopicNameKey with
  | error f => exact Or.inl rfl
  | ok topic => exact Or.inr ⟨_, _, rfl⟩

/-- The `unsubscribe` branch calls nothing but `receive_unsubscribe_request_ws`. -/
theorem interpret_unsubscribe_calls (self : JsonEncoding) (msg : Json) (c : ConnectionHandle) :
    (interpret_unsubscribe self msg c).calls = [] ∨
      ∃ t i, (interpret_unsubscribe self msg c).calls =
        [EndpointCall.receive_unsubscribe_request_ws t i c] := by
  unfold interpret_unsubscribe
  cases get_required_string msg JsonTopicNameKey with
  | error f => exact Or.inl rfl
  | ok topic => exact Or.inr ⟨_, _, rfl⟩

/-- The `advertise_service` branch calls nothing but `receive_service_advertisement_ws`. -/
theorem interpret_advertise_service_calls (self : JsonEncoding) (msg : Json)
    (c : ConnectionHandle) :
    (interpret_advertise_service self msg c).calls = [] ∨
      ∃ s q r, (interpret_advertise_service self msg c).calls =
        [EndpointCall.receive_service_advertisement_ws s q r c] := by
  unfold interpret_advertise_service
  cases get_required_string msg JsonRequestTypeNameKey with
  | error f => exact Or.inl rfl
  | ok req_name =>
      simp only []
      cases get_required_string msg JsonReplyTypeNameKey with
      | error f => exact Or.inl rfl
      | ok rep_name =>
          simp only []
          cases self.get_type req_name with
          | none => exact Or.inl rfl
          | some q =>
              cases self.get_type rep_name with
              | none => exact Or.inl rfl
              | some r =>
                  simp only []
                  cases get_required_string msg JsonServiceKey with
                  | error f => exact Or.inl rfl
                  | ok service => exact Or.inr ⟨_, _, _, rfl⟩

/-- Case analysis on the dispatch: what holds of the result of every branch and of the
result for an unrecognized op code holds of the result of the dispatch. -/
theorem interpret_op_cases (P : Interpreted → Prop) (X : JsonXtypes) (self : JsonEncoding)
    (msg : Json) (op : String) (c : ConnectionHandle)
    (h1 : P (interpret_publish X self msg c))
    (h2 : P (interpret_call_service X self msg c))
    (h3 : P (interpret_service_response X self msg c))
    (h4 : P (interpret_advertise self msg c))
    (h5 : P (interpret_unadvertise self msg c))
    (h6 : P (interpret_subscribe self msg c))
    (h7 : P (interpret_unsubscribe self msg c))
    (h8 : P (interpret_advertise_service self msg c))
    (h9 : P (interpret_unadvertise_service self msg c))
    (h10 : P ⟨Exit.returned, self, []⟩) :
    P (interpret_op X self msg op c) := by
  unfold interpret_op
  by_cases e1 : op = JsonOpPublishKey
  · rw [if_pos e1]; exact h1
  rw [if_neg e1]
  by_cases e2 : op = JsonOpServiceRequestKey
  · rw [if_pos e2]; exact h2
  rw [if_neg e2]
  by_cases e3 : op = JsonOpServiceResponseKey
  · rw [if_pos e3]; exact h3
  rw [if_neg e3]
  by_cases e4 : op = JsonOpAdvertiseTopicKey
  · rw [if_pos e4]; exact h4
  rw [if_neg e4]
  by_cases e5 : op = JsonOpUnadvertiseTopicKey
  · rw [if_pos e5]; exact h5
  rw [if_neg e5]
  by_cases e6 : op = JsonOpSubscribeKey
  · rw [if_pos e6]; exact h6
  rw [if_neg e6]
  by_cases e7 : op = JsonOpUnsubscribeKey
  · rw [if_pos e7]; exact h7
  rw [if_neg e7]
  by_cases e8 : op = JsonOpAdvertiseServiceKey
  · rw [if_pos e8]; exact h8
  rw [if_neg e8]
  by_cases e9 : op = JsonOpUnadvertiseServiceKey
  · rw [if_pos e9]; exact h9
  rw [if_neg e9]
  exact h10

/-- No branch of the dispatch passes a null type to the endpoint. -/
theorem interpret_op_never_null_type (X : JsonXtypes) (self : JsonEncoding) (msg : Json)
    (op : String) (c : ConnectionHandle) :
    (∀ topic id conn, EndpointCall.receive_subscribe_request_ws topic none id conn ∉
      (interpret_op X self msg op c).calls) ∧
    (∀ service conn, EndpointCall.receive_service_unadvertisement_ws service none conn ∉
      (interpret_op X self msg op c).calls) := by
  apply interpret_op_cases
    (fun r => (∀ topic id conn, EndpointCall.receive_subscribe_request_ws topic none id conn ∉
      r.calls) ∧
    (∀ service conn, EndpointCall.receive_service_unadvertisement_ws service none conn ∉
      r.calls))
  · rcases interpret_publish_calls X self msg c with h | ⟨_, _, h⟩ <;> simp [h]
  · rcases interpret_call_service_calls X self msg c with h | ⟨_, _, _, h⟩ <;> simp [h]
  · rcases interpret_service_response_calls X self msg c with h | ⟨_, _, _, h⟩ <;> simp [h]
  · rcases interpret_advertise_calls self msg c with h | ⟨_, _, _, h⟩ <;> simp [h]
  · rcases interpret_unadvertise_calls self msg c with h | ⟨_, _, h⟩ <;> simp [h]
  · rcases interpret_subscribe_calls self msg c with h | ⟨_, _, _, h⟩ <;> simp [h]
  · rcases interpret_unsubscribe_calls self msg c with h | ⟨_, _, h⟩ <;> simp [h]
  · rcases interpret_advertise_service_calls self msg c with h | ⟨_, _, _, h⟩ <;> simp [h]
  · rcases interpret_unadvertise_service_calls self msg c with h | ⟨_, _, h⟩ <;> simp [h]
  · simp

/-- No frame makes the decoder pass a null type to the endpoint. -/
theorem interpret_never_null_type (X : JsonXtypes) (self : JsonEncoding) (frame : String)
    (c : ConnectionHandle) :
    (∀ topic id conn, EndpointCall.receive_subscribe_request_ws topic none id conn ∉
      (self.interpret_websocket_msg X frame c).calls) ∧
    (∀ service conn, EndpointCall.receive_service_unadvertisement_ws service none conn ∉
      (self.interpret_websocket_msg X frame c).calls) := by
  unfold JsonEncoding.interpret_websocket_msg
  cases Json.parse frame with
  | none => simp
  | some msg =>
      simp only []
      unfold interpret_json
      cases msg.find JsonOpKey with
      | none => simp
      | some op_value =>
          simp only []
          cases op_value.get_string with
          | error f => simp
          | ok op => exact interpret_op_never_null_type X self msg op c

/-- Claim C18, evaluated on the example encoding at a `subscribe` frame that carries `topic`
but no `type` and at an `unadvertise_service` frame that carries `service` but no `type`:
neither frame leads to an endpoint call, while the `subscribe` frame with the `type`
`Dispatch` is handed to the endpoint. The `type` is read with `get_optional_string`, the empty
name is looked up, and the null test that follows ends the branch. For every conversion
library, encoding, frame and connection, neither `receive_subscribe_request_ws` nor
`receive_service_unadvertisement_ws` is called with a null type. -/
theorem untyped_frames_dropped (X : JsonXtypes) (self : JsonEncoding) (frame : String)
    (c : ConnectionHandle) :
    Json.parse untyped_subscribe_frame =
      some (Json.object [("id", Json.string "7"), ("op", Json.string "subscribe"),
        ("topic", Json.string "fruit")]) ∧
    (example_encoding.interpret_websocket_msg example_xtypes untyped_subscribe_frame 1).calls =
      [] ∧
    Json.parse untyped_unadvertise_service_frame =
      some (Json.object [("op", Json.string "unadvertise_service"),
        ("service", Json.string "client_request")]) ∧
    (example_encoding.interpret_websocket_msg example_xtypes untyped_unadvertise_service_frame
      1).calls = [] ∧
    (example_encoding.interpret_websocket_msg example_xtypes
      "\x7b\"op\":\"subscribe\",\"topic\":\"fruit\",\"type\":\"Dispatch\",\"id\":\"7\"\x7d"
      1).calls = [EndpointCall.receive_subscribe_request_ws "fruit" (some Dispatch) "7" 1] ∧
    (∀ topic id conn, EndpointCall.receive_subscribe_request_ws topic none id conn ∉
      (self.interpret_websocket_msg X frame c).calls) ∧
    (∀ service conn, EndpointCall.receive_service_unadvertisement_ws service none conn ∉
      (self.interpret_websocket_msg X frame c).calls) :=
  ⟨by rfl, by rfl, by rfl, by rfl, by rfl, (interpret_never_null_type X self frame c).1,
    (interpret_never_null_type X self frame c).2⟩

/-- Claim C19. A payload that is not valid JSON, a JSON value without an `op` field - which
every JSON value that is not an object is - and a frame whose `op` is a string other than the
nine recognized op codes have no effect: `interpret_websocket_msg` returns, no endpoint call
is made, and the encoding (registry, topic bindings, service bindings) is what it was. -/
theorem unrecognized_frame_no_effect (X : JsonXtypes) (self : JsonEncoding) (msg_str : String)
    (c : ConnectionHandle)
    (h : Json.parse msg_str = none ∨
      (∃ msg, Json.parse msg_str = some msg ∧ msg.find JsonOpKey = none) ∨
      (∃ msg op, Json.parse msg_str = some msg ∧
        msg.find JsonOpKey = some (Json.string op) ∧
        op ∉ [JsonOpAdvertiseTopicKey, JsonOpUnadvertiseTopicKey, JsonOpPublishKey,
          JsonOpSubscribeKey, JsonOpUnsubscribeKey, JsonOpServiceRequestKey,
          JsonOpAdvertiseServiceKey, JsonOpUnadvertiseServiceKey, JsonOpServiceResponseKey])) :
    self.interpret_websocket_msg X msg_str c = ⟨Exit.returned, self, []⟩ ∧
    ∀ j : Json, (∀ members, j ≠ Json.object members) → j.find JsonOpKey = none := by
  constructor
  · rcases h with h | ⟨msg, hp, hf⟩ | ⟨msg, op, hp, hf, hop⟩
    · simp only [JsonEncoding.interpret_websocket_msg, h]
    · simp only [JsonEncoding.interpret_websocket_msg, hp, interpret_json, hf]
    · simp only [List.mem_cons, List.mem_singleton, List.not_mem_nil, or_false, not_or] at hop
      obtain ⟨h4, h5, h1, h6, h7, h2, h8, h9, h3⟩ := hop
      simp only [JsonEncoding.interpret_websocket_msg, hp,
        interpret_json_of_op X self msg op c hf]
      unfold interpret_op
      rw [if_neg h1, if_neg h2, if_neg h3, if_neg h4, if_neg h5, if_neg h6, if_neg h7,
        if_neg h8, if_neg h9]
  · intro j hj
    cases j with
    | object members => exact absurd rfl (hj members)
    | null => rfl
    | boolean b => rfl
    | number_integer n => rfl
    | number_unsigned n => rfl
    | number_float l => rfl
    | string s => rfl
    | array es => rfl

/-- Witness for claim C19: a text that is not JSON, an array, an object without `op`, and a
frame with the op code `fragment`, which the decoder does not recognize. -/
theorem unrecognized_frame_no_effect_witness :
    Json.parse "not json" = none ∧
    Json.parse "[1,2]" = some (Json.array [Json.number_unsigned 1, Json.number_unsigned 2]) ∧
    Json.parse "\x7b\"topic\":\"fruit\"\x7d" =
      some (Json.object [("topic", Json.string "fruit")]) ∧
    Json.parse "\x7b\"op\":\"fragment\",\"id\":\"1\"\x7d" =
      some (Json.object [("id", Json.string "1"), ("op", Json.string "fragment")]) ∧
    example_encoding.interpret_websocket_msg example_xtypes "not json" 1 =
      ⟨Exit.returned, example_encoding, []⟩ ∧
    example_encoding.interpret_websocket_msg example_xtypes "[1,2]" 1 =
      ⟨Exit.returned, example_encoding, []⟩ ∧
    example_encoding.interpret_websocket_msg example_xtypes "\x7b\"topic\":\"fruit\"\x7d" 1 =
      ⟨Exit.returned, example_encoding, []⟩ ∧
    example_encoding.interpret_websocket_msg example_xtypes
      "\x7b\"op\":\"fragment\",\"id\":\"1\"\x7d" 1 = ⟨Exit.returned, example_encoding, []⟩ :=
  ⟨by rfl, by rfl, by rfl, by rfl,
    (unrecognized_frame_no_effect example_xtypes example_encoding "not json" 1
      (Or.inl (by rfl))).1,
    (unrecognized_frame_no_effect example_xtypes example_encoding "[1,2]" 1
      (Or.inr (Or.inl ⟨_, by rfl, by rfl⟩))).1,
    (unrecognized_frame_no_effect example_xtypes example_encoding
      "\x7b\"topic\":\"fruit\"\x7d" 1 (Or.inr (Or.inl ⟨_, by rfl, by rfl⟩))).1,
    (unrecognized_frame_no_effect example_xtypes example_encoding
      "\x7b\"op\":\"fragment\",\"id\":\"1\"\x7d" 1
      (Or.inr (Or.inr ⟨_, "fragment", by rfl, by rfl, by decide⟩))).1⟩

/-- Assigning to a key of an object does not change what is found under another key. -/
theorem obj_find_obj_set_ne (ms : List (String × Json)) (key k : String) (v : Json)
    (h : k ≠ key) : obj_find (obj_set ms key v) k = obj_find ms k := by
  induction ms with
  | nil => simp [obj_set, obj_find, h]
  | cons p ms ih =>
      obtain ⟨k0, w⟩ := p
      simp only [obj_set]
      by_cases e : key = k0
      · subst e
        simp [obj_find, h]
      · rw [if_neg e]
        by_cases l : str_lt key.data k0.data = true
        · rw [if_pos l]
          simp [obj_find, h]
        · rw [if_neg l]
          simp only [obj_find, ih]

/-- What `get_required_string` returns depends only on what is found under the key and under
`op`. -/
theorem get_required_string_congr (ms ms2 : List (String × Json)) (key : String)
    (hkey : obj_find ms2 key = obj_find ms key) (hop : obj_find ms2 "op" = obj_find ms "op") :
    get_required_string (Json.object ms2) key = get_required_string (Json.object ms) key := by
  simp only [get_required_string, Json.find, hkey, throw_missing_key, Json.at, hop]

/-- What `get_required_msg` returns depends only on what is found under the key and under
`op`. -/
theorem get_required_msg_congr (X : JsonXtypes) (ms ms2 : List (String × Json))
    (type : DynamicType) (key : String)
    (hkey : obj_find ms2 key = obj_find ms key) (hop : obj_find ms2 "op" = obj_find ms "op") :
    get_required_msg X (Json.object ms2) type key = get_required_msg X (Json.object ms) type key := by
  simp only [get_required_msg, Json.find, hkey, throw_missing_key, Json.at, hop]

/-- What `get_optional_string` returns depends only on what is found under the key. -/
theorem get_optional_string_congr (ms ms2 : List (String × Json)) (key : String)
    (hkey : obj_find ms2 key = obj_find ms key) :
    get_optional_string (Json.object ms2) key = get_optional_string (Json.object ms) key := by
  simp only [get_optional_string, Json.find, hkey]

/-- The `service_response` branch reads the fields `service`, `values`, `id` and, for its log
line, `op`, and no other. -/
theorem interpret_service_response_congr (X : JsonXtypes) (self : JsonEncoding)
    (ms ms2 : List (String × Json)) (c : ConnectionHandle)
    (hs : obj_find ms2 "service" = obj_find ms "service")
    (hv : obj_find ms2 "values" = obj_find ms "values")
    (hi : obj_find ms2 "id" = obj_find ms "id")
    (ho : obj_find ms2 "op" = obj_find ms "op") :
    interpret_service_response X self (Json.object ms2) c =
      interpret_service_response X self (Json.object ms) c := by
  unfold interpret_service_response
  rw [get_required_string_congr ms ms2 JsonServiceKey hs ho]
  have hm : ∀ t, get_required_msg X (Json.object ms2) t JsonValuesKey =
      get_required_msg X (Json.object ms) t JsonValuesKey :=
    fun t => get_required_msg_congr X ms ms2 t JsonValuesKey hv ho
  simp only [hm, get_optional_string_congr ms ms2 JsonIdKey hi]

/-- Claim C20, as amended. Of the fields that the frame table lists as required, `result` of
`service_response` is not read by the decoder: a `service_response` frame is interpreted
exactly as the same frame with `result` set to any JSON value - same way of ending, same
endpoint calls, same encoding afterwards -, so a frame that lacks `result` is not dropped on
that account. -/
theorem result_field_not_read (X : JsonXtypes) (self : JsonEncoding) (msg_str : String)
    (members : List (String × Json)) (result : Json) (c : ConnectionHandle)
    (hparse : Json.parse msg_str = some (Json.object members))
    (hop : (Json.object members).find JsonOpKey =
      some (Json.string JsonOpServiceResponseKey)) :
    interpret_json X self (Json.object (obj_set members JsonResultKey result)) c =
      self.interpret_websocket_msg X msg_str c := by
  have hne : ∀ k, k ≠ JsonResultKey →
      obj_find (obj_set members JsonResultKey result) k = obj_find members k :=
    fun k hk => obj_find_obj_set_ne members JsonResultKey k result hk
  have hop2 : (Json.object (obj_set members JsonResultKey result)).find JsonOpKey =
      some (Json.string JsonOpServiceResponseKey) := by
    have := hne JsonOpKey (by decide)
    simp only [Json.find] at hop ⊢
    rw [this, hop]
  simp only [JsonEncoding.interpret_websocket_msg, hparse,
    interpret_json_of_op X self _ JsonOpServiceResponseKey c hop,
    interpret_json_of_op X self _ JsonOpServiceResponseKey c hop2]
  show interpret_service_response X self _ c = interpret_service_response X self _ c
  exact interpret_service_response_congr X self members _ c (hne "service" (by decide))
    (hne "values" (by decide)) (hne "id" (by decide)) (hne "op" (by decide))

/-- Witness for claim C20: the response frame without `result`, after the advertisement of the
service, is interpreted as the frame with the `result` of the services test. -/
theorem result_field_not_read_witness :
    Json.parse resultless_service_response_frame =
      some (Json.object [("id", Json.string "1"), ("op", Json.string "service_response"),
        ("service", Json.string "client_request"), ("values", server_response.content)]) ∧
    interpret_json example_xtypes advertised_encoding
        (Json.object (obj_set
          [("id", Json.string "1"), ("op", Json.string "service_response"),
            ("service", Json.string "client_request"), ("values", server_response.content)]
          JsonResultKey (Json.string "true"))) 1 =
      advertised_encoding.interpret_websocket_msg example_xtypes
        resultless_service_response_frame 1 :=
  ⟨by rfl,
    result_field_not_read example_xtypes advertised_encoding resultless_service_response_frame
      _ (Json.string "true") 1 (by rfl) (by rfl)⟩

/-- Counterexample to claim C20 as stated. First part: after the advertisement of the service
`client_request`, a `service_response` frame that lacks the field `result` is handed to the
endpoint. Second part: a `publish` frame that lacks `topic` does not make
`interpret_websocket_msg` return; `throw_missing_key` writes its log line and `it.value()` is
evaluated on the end iterator. -/
theorem missing_field_not_dropped :
    Json.parse resultless_service_response_frame =
      some (Json.object [("id", Json.string "1"), ("op", Json.string "service_response"),
        ("service", Json.string "client_request"), ("values", server_response.content)]) ∧
    (advertised_encoding.interpret_websocket_msg example_xtypes
      resultless_service_response_frame 1).calls =
      [EndpointCall.receive_service_response_ws "client_request" server_response "1" 1] ∧
    Json.parse "\x7b\"op\":\"publish\"\x7d" =
      some (Json.object [("op", Json.string "publish")]) ∧
    (advertised_encoding.interpret_websocket_msg example_xtypes "\x7b\"op\":\"publish\"\x7d"
      1).exit = Exit.fault Fault.end_iterator_value :=
  ⟨by rfl, by rfl, by rfl, by rfl⟩


/-! ## The frames written by `encode_publication_msg` -/

/-- The `publish` branch reads `op`, `topic` and `msg`. -/
theorem interpret_publish_congr (X : JsonXtypes) (self : JsonEncoding)
    (ms ms2 : List (String × Json)) (c : ConnectionHandle)
    (h : ∀ k ∈ [JsonOpKey, JsonTopicNameKey, JsonMsgKey], obj_find ms2 k = obj_find ms k) :
    interpret_publish X self (Json.object ms2) c = interpret_publish X self (Json.object ms) c := by
  have ho := h JsonOpKey (by decide)
  unfold interpret_publish
  rw [get_required_string_congr ms ms2 JsonTopicNameKey (h _ (by decide)) ho]
  have hm : ∀ t, get_required_msg X (Json.object ms2) t JsonMsgKey =
      get_required_msg X (Json.object ms) t JsonMsgKey :=
    fun t => get_required_msg_congr X ms ms2 t JsonMsgKey (h _ (by decide)) ho
  simp only [hm]

/-- The `call_service` branch reads `op`, `service`, `args` and `id`. -/
theorem interpret_call_service_congr (X : JsonXtypes) (self : JsonEncoding)
    (ms ms2 : List (String × Json)) (c : ConnectionHandle)
    (h : ∀ k ∈ [JsonOpKey, JsonServiceKey, JsonArgsKey, JsonIdKey],
      obj_find ms2 k = obj_find ms k) :
    interpret_call_service X self (Json.object ms2) c =
      interpret_call_service X self (Json.object ms) c := by
  have ho := h JsonOpKey (by decide)
  unfold interpret_call_service
  rw [get_required_string_congr ms ms2 JsonServiceKey (h _ (by decide)) ho]
  have hm : ∀ t, get_required_msg X (Json.object ms2) t JsonArgsKey =
      get_required_msg X (Json.object ms) t JsonArgsKey :=
    fun t => get_required_msg_congr X ms ms2 t JsonArgsKey (h _ (by decide)) ho
  simp only [hm, get_optional_string_congr ms ms2 JsonIdKey (h _ (by decide))]

/-- The `advertise` branch reads `op`, `type`, `topic` and `id`. -/
theorem interpret_advertise_congr (self : JsonEncoding)
    (ms ms2 : List (String × Json)) (c : ConnectionHandle)
    (h : ∀ k ∈ [JsonOpKey, JsonTypeNameKey, JsonTopicNameKey, JsonIdKey],
      obj_find ms2 k = obj_find ms k) :
    interpret_advertise self (Json.object ms2) c = interpret_advertise self (Json.object ms) c := by
  have ho := h JsonOpKey (by decide)
  unfold interpret_advertise
  rw [get_required_string_congr ms ms2 JsonTypeNameKey (h _ (by decide)) ho,
    get_required_string_congr ms ms2 JsonTopicNameKey (h _ (by decide)) ho,
    get_optional_string_congr ms ms2 JsonIdKey (h _ (by decide))]

/-- The `unadvertise` branch reads `op`, `topic` and `id`. -/
theorem interpret_unadvertise_congr (self : JsonEncoding)
    (ms ms2 : List (String × Json)) (c : ConnectionHandle)
    (h : ∀ k ∈ [JsonOpKey, JsonTopicNameKey, JsonIdKey], obj_find ms2 k = obj_find ms k) :
    interpret_unadvertise self (Json.object ms2) c =
      interpret_unadvertise self (Json.object ms) c := by
  have ho := h JsonOpKey (by decide)
  unfold interpret_unadvertise
  rw [get_required_string_congr ms ms2 JsonTopicNameKey (h _ (by decide)) ho,
    get_optional_string_congr ms ms2 JsonIdKey (h _ (by decide))]

/-- The `subscribe` branch reads `op`, `type`, `topic` and `id`. -/
theorem interpret_subscribe_congr (self : JsonEncoding)
    (ms ms2 : List (String × Json)) (c : ConnectionHandle)
    (h : ∀ k ∈ [JsonOpKey, JsonTypeNameKey, JsonTopicNameKey, JsonIdKey],
      obj_find ms2 k = obj_find ms k) :
    interpret_subscribe self (Json.object ms2) c = interpret_subscribe self (Json.object ms) c := by
  have ho := h JsonOpKey (by decide)
  unfold interpret_subscribe
  rw [get_required_string_congr ms ms2 JsonTopicNameKey (h _ (by decide)) ho,
    get_optional_string_congr ms ms2 JsonIdKey (h _ (by decide)),
    get_optional_string_congr ms ms2 JsonTypeNameKey (h _ (by decide))]

/-- The `unsubscribe` branch reads `op`, `topic` and `id`. -/
theorem interpret_unsubscribe_congr (self : JsonEncoding)
    (ms ms2 : List (String × Json)) (c : ConnectionHandle)
    (h : ∀ k ∈ [JsonOpKey, JsonTopicNameKey, JsonIdKey], obj_find ms2 k = obj_find ms k) :
    interpret_unsubscribe self (Json.object ms2) c =
      interpret_unsubscribe self (Json.object ms) c := by
  have ho := h JsonOpKey (by decide)
  unfold interpret_unsubscribe
  rw [get_required_string_congr ms ms2 JsonTopicNameKey (h _ (by decide)) ho,
    get_optional_string_congr ms ms2 JsonIdKey (h _ (by decide))]

/-- The `advertise_service` branch reads `op`, `request_type`, `reply_type` and `service`. -/
theorem interpret_advertise_service_congr (self : JsonEncoding)
    (ms ms2 : List (String × Json)) (c : ConnectionHandle)
    (h : ∀ k ∈ [JsonOpKey, JsonRequestTypeNameKey, JsonReplyTypeNameKey, JsonServiceKey],
      obj_find ms2 k = obj_find ms k) :
    interpret_advertise_service self (Json.object ms2) c =
      interpret_advertise_service self (Json.object ms) c := by
  have ho := h JsonOpKey (by decide)
  unfold interpret_advertise_service
  rw [get_required_string_congr ms ms2 JsonRequestTypeNameKey (h _ (by decide)) ho,
    get_required_string_congr ms ms2 JsonReplyTypeNameKey (h _ (by decide)) ho,
    get_required_string_congr ms ms2 JsonServiceKey (h _ (by decide)) ho]

/-- The `unadvertise_service` branch reads `op`, `type` and `service`. -/
theorem interpret_unadvertise_service_congr (self : JsonEncoding)
    (ms ms2 : List (String × Json)) (c : ConnectionHandle)
    (h : ∀ k ∈ [JsonOpKey, JsonTypeNameKey, JsonServiceKey], obj_find ms2 k = obj_find ms k) :
    interpret_unadvertise_service self (Json.object ms2) c =
      interpret_unadvertise_service self (Json.object ms) c := by
  have ho := h JsonOpKey (by decide)
  unfold interpret_unadvertise_service
  rw [get_required_string_congr ms ms2 JsonServiceKey (h _ (by decide)) ho,
    get_optional_string_congr ms ms2 JsonTypeNameKey (h _ (by decide))]

/-- The dispatch gives the same result on two objects that agree on the keys read for the op
code. -/
theorem interpret_op_congr (X : JsonXtypes) (self : JsonEncoding)
    (ms ms2 : List (String × Json)) (op : String) (c : ConnectionHandle)
    (h : ∀ k ∈ fields_read op, obj_find ms2 k = obj_find ms k) :
    interpret_op X self (Json.object ms2) op c = interpret_op X self (Json.object ms) op c := by
  unfold interpret_op
  unfold fields_read at h
  by_cases e1 : op = JsonOpPublishKey
  · rw [if_pos e1, if_pos e1]; rw [if_pos e1] at h
    exact interpret_publish_congr X self ms ms2 c h
  rw [if_neg e1, if_neg e1]; rw [if_neg e1] at h
  by_cases e2 : op = JsonOpServiceRequestKey
  · rw [if_pos e2, if_pos e2]; rw [if_pos e2] at h
    exact interpret_call_service_congr X self ms ms2 c h
  rw [if_neg e2, if_neg e2]; rw [if_neg e2] at h
  by_cases e3 : op = JsonOpServiceResponseKey
  · rw [if_pos e3, if_pos e3]; rw [if_pos e3] at h
    exact interpret_service_response_congr X self ms ms2 c (h _ (by decide)) (h _ (by decide))
      (h _ (by decide)) (h _ (by decide))
  rw [if_neg e3, if_neg e3]; rw [if_neg e3] at h
  by_cases e4 : op = JsonOpAdvertiseTopicKey
  · rw [if_pos e4, if_pos e4]; rw [if_pos e4] at h
    exact interpret_advertise_congr self ms ms2 c h
  rw [if_neg e4, if_neg e4]; rw [if_neg e4] at h
  by_cases e5 : op = JsonOpUnadvertiseTopicKey
  · rw [if_pos e5, if_pos e5]; rw [if_pos e5] at h
    exact interpret_unadvertise_congr self ms ms2 c h
  rw [if_neg e5, if_neg e5]; rw [if_neg e5] at h
  by_cases e6 : op = JsonOpSubscribeKey
  · rw [if_pos e6, if_pos e6]; rw [if_pos e6] at h
    exact interpret_subscribe_congr self ms ms2 c h
  rw [if_neg e6, if_neg e6]; rw [if_neg e6] at h
  by_cases e7 : op = JsonOpUnsubscribeKey
  · rw [if_pos e7, if_pos e7]; rw [if_pos e7] at h
    exact interpret_unsubscribe_congr self ms ms2 c h
  rw [if_neg e7, if_neg e7]; rw [if_neg e7] at h
  by_cases e8 : op = JsonOpAdvertiseServiceKey
  · rw [if_pos e8, if_pos e8]; rw [if_pos e8] at h
    exact interpret_advertise_service_congr self ms ms2 c h
  rw [if_neg e8, if_neg e8]; rw [if_neg e8] at h
  by_cases e9 : op = JsonOpUnadvertiseServiceKey
  · rw [if_pos e9, if_pos e9]; rw [if_pos e9] at h
    exact interpret_unadvertise_service_congr self ms ms2 c h
  rw [if_neg e9, if_neg e9]

/-- The key `op` is read for every op code. -/
theorem op_mem_fields_read (op : String) : JsonOpKey ∈ fields_read op := by
  unfold fields_read
  repeat' split
  all_goals decide

/-- Claim C22. Unknown fields are tolerated. Let a frame be read by `Json::parse` as an object,
and let `key` be a key other than `op` that the decoder does not look up for the op code of the
frame, if it has one. A frame that is read as the same object with `key` set to any JSON
value - added if it was absent, changed if it was present - is interpreted exactly as the first
one: `interpret_websocket_msg` ends the same way, makes the same endpoint calls with the same
arguments, and leaves the same encoding, with the same bindings. -/
theorem unknown_fields_tolerated (X : JsonXtypes) (self : JsonEncoding)
    (msg_str msg_str2 : String) (members : List (String × Json)) (key : String)
    (value : Json) (c : ConnectionHandle)
    (hparse : Json.parse msg_str = some (Json.object members))
    (hparse2 : Json.parse msg_str2 = some (Json.object (obj_set members key value)))
    (hkey : key ≠ JsonOpKey)
    (hread : ∀ op, (Json.object members).find JsonOpKey = some (Json.string op) →
      key ∉ fields_read op) :
    self.interpret_websocket_msg X msg_str2 c = self.interpret_websocket_msg X msg_str c := by
  have hfind : (Json.object (obj_set members key value)).find JsonOpKey =
      (Json.object members).find JsonOpKey :=
    obj_find_obj_set_ne members key JsonOpKey value (fun e => hkey e.symm)
  simp only [JsonEncoding.interpret_websocket_msg, hparse, hparse2]
  unfold interpret_json
  rw [hfind]
  cases hv : (Json.object members).find JsonOpKey with
  | none => rfl
  | some v =>
      simp only
      cases hs : v.get_string with
      | error f => rfl
      | ok op =>
          have e : v = Json.string op := by
            cases v <;> simp only [Json.get_string, Except.ok.injEq, reduceCtorEq] at hs
            rw [hs]
          simp only
          exact interpret_op_congr X self members _ op c (fun k hk =>
            obj_find_obj_set_ne members key k value
              (fun e2 => hread op (by rw [hv, e]) (e2 ▸ hk)))

/-- Witness for claim C22: the response frame of the services test, which carries a `type` and
a string-valued `result`, is interpreted as the frame without these two fields, which is
handed to the endpoint; and so is a `subscribe` frame with `throttle_rate`, `queue_length` and
`compression`. -/
theorem unknown_fields_tolerated_witness :
    advertised_encoding.interpret_websocket_msg example_xtypes
        "\x7b\"id\":\"1\",\"op\":\"service_response\",\"service\":\"client_request\",\"type\":\"Data_Response\",\"values\":\x7b\"response\":\"Server Response\"\x7d\x7d" 1 =
      advertised_encoding.interpret_websocket_msg example_xtypes resultless_service_response_frame 1 ∧
    advertised_encoding.interpret_websocket_msg example_xtypes service_response_frame 1 =
      advertised_encoding.interpret_websocket_msg example_xtypes
        "\x7b\"id\":\"1\",\"op\":\"service_response\",\"service\":\"client_request\",\"type\":\"Data_Response\",\"values\":\x7b\"response\":\"Server Response\"\x7d\x7d" 1 ∧
    (advertised_encoding.interpret_websocket_msg example_xtypes resultless_service_response_frame
      1).calls = [EndpointCall.receive_service_response_ws "client_request" server_response "1" 1] ∧
    (example_encoding.interpret_websocket_msg example_xtypes throttled_subscribe_frame 1).calls =
      [EndpointCall.receive_subscribe_request_ws "fruit" (some Dispatch) "" 1] :=
  ⟨unknown_fields_tolerated example_xtypes advertised_encoding resultless_service_response_frame _
      [("id", Json.string "1"), ("op", Json.string "service_response"),
        ("service", Json.string "client_request"), ("values", server_response.content)]
      "type" (Json.string "Data_Response") 1 (by rfl) (by rfl) (by decide)
      (fun op h => by
        have e : op = "service_response" := by
          have h2 : some (Json.string "service_response") = some (Json.string op) := h
          injection h2 with h3
          injection h3 with h4
          exact h4.symm
        rw [e]
        decide),
    unknown_fields_tolerated example_xtypes advertised_encoding _ service_response_frame
      [("id", Json.string "1"), ("op", Json.string "service_response"),
        ("service", Json.string "client_request"), ("type", Json.string "Data_Response"),
        ("values", server_response.content)]
      "result" (Json.string "true") 1 (by rfl) (by rfl) (by decide)
      (fun op h => by
        have e : op = "service_response" := by
          have h2 : some (Json.string "service_response") = some (Json.string op) := h
          injection h2 with h3
          injection h3 with h4
          exact h4.symm
        rw [e]
        decide),
    by rfl, by rfl⟩

/-! ## Open connections -/

/-- The ids assigned in two sequences of steps, one after the other. -/
theorem assigned_ids_append (steps more : List ServerStep) :
    assigned_ids (steps ++ more) = assigned_ids steps ++ assigned_ids more := by
  induction steps with
  | nil => rfl
  | cons step steps ih => cases step <;> simp [assigned_ids, ih]

/-- A 16-bit counter below its largest value is incremented without wrapping. -/
theorem pre_increment_lt (counter : Nat) (h : counter < 65535) :
    pre_increment counter = counter + 1 := by
  unfold pre_increment
  exact Nat.mod_eq_of_lt (by omega)

/-- What `_handle_opening` does when the mutex is free and the server is not closing down. -/
theorem handle_opening_returns (srv : Server) (connection : ConnectionHandle)
    (hm : srv._mutex = false) (hc : srv._closing_down = false) :
    ∃ srv1, srv._handle_opening connection = some (srv1,
        [ServerStep.mutex_lock,
          ServerStep.conn_to_id_insert connection (pre_increment srv.opened_conn_counter),
          ServerStep.notify_connection_opened connection,
          ServerStep.open_connections_insert connection, ServerStep.mutex_unlock]) ∧
      srv1._mutex = false ∧ srv1._closing_down = false ∧
      srv1._use_security = srv._use_security ∧
      srv1.opened_conn_counter = pre_increment srv.opened_conn_counter ∧
      srv1.open_connections = unordered_set_insert srv.open_connections connection ∧
      srv1.open_conn_to_id = unordered_map_insert srv.open_conn_to_id connection
        (pre_increment srv.opened_conn_counter) := by
  obtain ⟨us, jv, enc, mu, otls, ctls, mtls, otcp, ctcp, mtcp, cd⟩ := srv
  simp only at hm hc
  subst hm hc
  cases us
  · exact ⟨_, rfl, rfl, rfl, rfl, rfl, rfl, rfl⟩
  · exact ⟨_, rfl, rfl, rfl, rfl, rfl, rfl, rfl⟩

/-- What `_handle_close` does when the mutex is free. -/
theorem handle_close_returns (srv : Server) (connection : ConnectionHandle)
    (hm : srv._mutex = false) :
    ∃ srv1, srv._handle_close connection = some (srv1,
        [ServerStep.mutex_lock, ServerStep.conn_to_id_erase connection,
          ServerStep.notify_connection_closed connection,
          ServerStep.open_connections_erase connection, ServerStep.mutex_unlock]) ∧
      srv1._mutex = false ∧ srv1._closing_down = srv._closing_down ∧
      srv1._use_security = srv._use_security ∧
      srv1.opened_conn_counter = srv.opened_conn_counter ∧
      srv1.open_connections = unordered_set_erase srv.open_connections connection ∧
      srv1.open_conn_to_id = unordered_map_erase
        (unordered_map_index srv.open_conn_to_id connection).2 connection := by
  obtain ⟨us, jv, enc, mu, otls, ctls, mtls, otcp, ctcp, mtcp, cd⟩ := srv
  simp only at hm
  subst hm
  cases us
  · exact ⟨_, rfl, rfl, rfl, rfl, rfl, rfl, rfl⟩
  · exact ⟨_, rfl, rfl, rfl, rfl, rfl, rfl, rfl⟩

/-- The handlers called for a sequence of events, starting with the mutex free and the server
not closing down, all return, as long as the counter does not pass its largest value; the ids
that they assign are the numbers that follow the counter, in order. -/
theorem run_returns (events : List TransportEvent) :
    ∀ srv : Server, srv._mutex = false → srv._closing_down = false →
      srv.opened_conn_counter + openings events ≤ 65535 →
      ∃ srv1 steps, srv.run events = some (srv1, steps) ∧
        srv1._mutex = false ∧ srv1._closing_down = false ∧
        srv1._use_security = srv._use_security ∧
        srv1.opened_conn_counter = srv.opened_conn_counter + openings events ∧
        assigned_ids steps = List.range' (srv.opened_conn_counter + 1) (openings events) := by
  induction events with
  | nil =>
      intro srv hm hc _
      exact ⟨srv, [], rfl, hm, hc, rfl, rfl, rfl⟩
  | cons event events ih =>
      intro srv hm hc hn
      cases event with
      | opening connection =>
          simp only [openings] at hn ⊢
          obtain ⟨srv1, h1, hm1, hc1, hs1, hk1, _, _⟩ := handle_opening_returns srv connection hm hc
          rw [pre_increment_lt _ (by omega)] at h1 hk1
          obtain ⟨srv2, more, h2, hm2, hc2, hs2, hk2, hi2⟩ :=
            ih srv1 hm1 hc1 (by rw [hk1]; omega)
          refine ⟨srv2, [ServerStep.mutex_lock,
            ServerStep.conn_to_id_insert connection (srv.opened_conn_counter + 1),
            ServerStep.notify_connection_opened connection,
            ServerStep.open_connections_insert connection, ServerStep.mutex_unlock] ++ more,
            ?_, hm2, hc2, hs2.trans hs1, ?_, ?_⟩
          · simp only [Server.run, Server.handle, h1, h2]
          · rw [hk2, hk1]; omega
          · rw [assigned_ids_append, hi2, hk1]
            simp [assigned_ids, List.range'_succ]
      | close connection =>
          simp only [openings] at hn ⊢
          obtain ⟨srv1, h1, hm1, hc1, hs1, hk1, _, _⟩ := handle_close_returns srv connection hm
          obtain ⟨srv2, more, h2, hm2, hc2, hs2, hk2, hi2⟩ :=
            ih srv1 hm1 (hc1.trans hc) (by rw [hk1]; omega)
          refine ⟨srv2, [ServerStep.mutex_lock, ServerStep.conn_to_id_erase connection,
            ServerStep.notify_connection_closed connection,
            ServerStep.open_connections_erase connection, ServerStep.mutex_unlock] ++ more,
            ?_, hm2, hc2, hs2.trans hs1, ?_, ?_⟩
          · simp only [Server.run, Server.handle, h1, h2]
          · rw [hk2, hk1]
          · rw [assigned_ids_append, hi2, hk1]
            simp [assigned_ids]

/-- Inserting a connection into a set makes it a member. -/
theorem mem_unordered_set_insert (set : List ConnectionHandle) (connection : ConnectionHandle) :
    connection ∈ unordered_set_insert set connection := by
  unfold unordered_set_insert
  split
  · assumption
  · exact List.mem_cons_self _ _

/-- Claim C23, as amended. When the mutex is free and the server is not closing down,
`_handle_opening` assigns the connection the id that the pre-incremented 16-bit counter gives,
the counter plus one modulo 65536; it calls `notify_connection_opened` exactly once, between
the insertion into the map of ids and the insertion into the set of open connections; and
afterwards the connection is in that set. If moreover the server is as constructed - counter
0 - and the transport has delivered any sequence of opening and close events with fewer than
65535 openings, then all handlers return and the id is the number of openings so far plus one,
which is strictly greater than every id assigned before. -/
theorem handle_opening_assigns_increasing_id (srv : Server) (events : List TransportEvent)
    (connection : ConnectionHandle)
    (hm : srv._mutex = false) (hc : srv._closing_down = false) :
    (∃ srv2, srv._handle_opening connection = some (srv2,
        [ServerStep.mutex_lock,
          ServerStep.conn_to_id_insert connection ((srv.opened_conn_counter + 1) % 65536),
          ServerStep.notify_connection_opened connection,
          ServerStep.open_connections_insert connection, ServerStep.mutex_unlock]) ∧
      connection ∈ srv2.open_connections ∧
      srv2.opened_conn_counter = (srv.opened_conn_counter + 1) % 65536 ∧
      (srv.open_conn_to_id connection = none →
        srv2.open_conn_to_id connection = some ((srv.opened_conn_counter + 1) % 65536))) ∧
    (srv.opened_conn_counter = 0 → openings events < 65535 →
      ∃ srv1 steps srv2, srv.run events = some (srv1, steps) ∧
        srv1._handle_opening connection = some (srv2,
          [ServerStep.mutex_lock,
            ServerStep.conn_to_id_insert connection (openings events + 1),
            ServerStep.notify_connection_opened connection,
            ServerStep.open_connections_insert connection, ServerStep.mutex_unlock]) ∧
        assigned_ids steps = List.range' 1 (openings events) ∧
        (∀ id ∈ assigned_ids steps, id < openings events + 1) ∧
        connection ∈ srv2.open_connections ∧
        srv2.opened_conn_counter = openings events + 1) := by
  constructor
  · obtain ⟨srv2, h2, _, _, _, hk2, ho2, hi2⟩ := handle_opening_returns srv connection hm hc
    refine ⟨srv2, h2, ?_, hk2, ?_⟩
    · rw [ho2]
      exact mem_unordered_set_insert _ _
    · intro hnone
      rw [hi2]
      unfold unordered_map_insert
      rw [hnone]
      simp only [if_true]
      rfl
  · intro h0 hn
    obtain ⟨srv1, steps, h1, hm1, hc1, _, hk1, hi1⟩ :=
      run_returns events srv hm hc (by rw [h0]; omega)
    rw [h0] at hk1 hi1
    simp only [Nat.zero_add] at hk1 hi1
    obtain ⟨srv2, h2, _, _, _, hk2, ho2, _⟩ := handle_opening_returns srv1 connection hm1 hc1
    rw [hk1, pre_increment_lt _ hn] at h2 hk2
    refine ⟨srv1, steps, srv2, h1, h2, hi1, ?_, ?_, hk2⟩
    · intro id hid
      rw [hi1, List.mem_range'_1] at hid
      omega
    · rw [ho2]
      exact mem_unordered_set_insert _ _

/-- Witness for claim C23, as amended: on the server of the examples, after the connection 1
was opened and closed and the connection 2 was opened, the connection 3 gets the id 3. -/
theorem handle_opening_assigns_increasing_id_witness :
    ∃ srv1 steps srv2,
      example_server.run [TransportEvent.opening 1, TransportEvent.close 1,
        TransportEvent.opening 2] = some (srv1, steps) ∧
      srv1._handle_opening 3 = some (srv2,
        [ServerStep.mutex_lock, ServerStep.conn_to_id_insert 3 3,
          ServerStep.notify_connection_opened 3,
          ServerStep.open_connections_insert 3, ServerStep.mutex_unlock]) ∧
      assigned_ids steps = [1, 2] ∧
      (∀ id ∈ assigned_ids steps, id < 3) ∧
      3 ∈ srv2.open_connections ∧
      srv2.opened_conn_counter = 3 :=
  (handle_opening_assigns_increasing_id example_server
    [TransportEvent.opening 1, TransportEvent.close 1, TransportEvent.opening 2] 3
    rfl rfl).2 rfl (by decide)

/-- Counterexample to claim C23 as stated. On the server of the examples, let the connection 1
be opened and closed 65535 times; the handlers assign the ids 1 to 65535. The connection 2,
opened next, is assigned the id 0: the 16-bit counter wraps around. -/
theorem handle_opening_id_wraps :
    (example_server.run (List.replicate 65535
        [TransportEvent.opening 1, TransportEvent.close 1]).flatten).map
      (fun result => assigned_ids result.2) = some (List.range' 1 65535) ∧
    ((example_server.run (List.replicate 65535
        [TransportEvent.opening 1, TransportEvent.close 1]).flatten).bind
      (fun result => result.1._handle_opening 2)).map (fun result => result.2) =
      some [ServerStep.mutex_lock, ServerStep.conn_to_id_insert 2 0,
        ServerStep.notify_connection_opened 2,
        ServerStep.open_connections_insert 2, ServerStep.mutex_unlock] := by
  have hop : ∀ n, openings (List.replicate n
      [TransportEvent.opening 1, TransportEvent.close 1]).flatten = n := by
    intro n
    induction n with
    | zero => rfl
    | succ n ih =>
        rw [List.replicate_succ, List.flatten_cons]
        show openings (List.replicate n
          [TransportEvent.opening 1, TransportEvent.close 1]).flatten + 1 = n + 1
        rw [ih]
  obtain ⟨srv1, steps, h1, hm1, hc1, _, hk1, hi1⟩ :=
    run_returns (List.replicate 65535
      [TransportEvent.opening 1, TransportEvent.close 1]).flatten example_server rfl rfl
      (by rw [hop]; exact Nat.le_refl _)
  rw [hop] at hk1 hi1
  obtain ⟨srv2, h2, _⟩ := handle_opening_returns srv1 2 hm1 hc1
  rw [hk1] at h2
  rw [h1]
  refine ⟨?_, ?_⟩
  · simp only [Option.map_some']
    rw [hi1]
    rfl
  · simp only [Option.some_bind, h2, Option.map_some']
    rfl

/-! ## Closed connections -/

/-- Claim C24. When the mutex is free, `_handle_close` for the connection `c` returns after
these steps, in this order: the entry of `c` is erased from the map of ids,
`notify_connection_closed(c)` is called, once, and only then `c` is erased from the set of
open connections. When it returns, `c` is in neither the set of open connections nor the map
of ids, and for every other connection the membership in the set and the id in the map are as
before; the containers of the transport that is not in use are as before, too. -/
theorem handle_close_removes_connection (srv : Server) (c : ConnectionHandle)
    (hm : srv._mutex = false) :
    ∃ srv1, srv._handle_close c = some (srv1,
        [ServerStep.mutex_lock, ServerStep.conn_to_id_erase c,
          ServerStep.notify_connection_closed c,
          ServerStep.open_connections_erase c, ServerStep.mutex_unlock]) ∧
      c ∉ srv1.open_connections ∧ srv1.open_conn_to_id c = none ∧
      (∀ other, other ≠ c →
        (other ∈ srv1.open_connections ↔ other ∈ srv.open_connections) ∧
        srv1.open_conn_to_id other = srv.open_conn_to_id other) ∧
      (srv._use_security = true →
        srv1._open_tcp_connections = srv._open_tcp_connections ∧
        srv1._open_tcp_conn_to_id = srv._open_tcp_conn_to_id) ∧
      (srv._use_security = false →
        srv1._open_tls_connections = srv._open_tls_connections ∧
        srv1._open_tls_conn_to_id = srv._open_tls_conn_to_id) := by
  obtain ⟨srv1, h1, _, _, _, _, ho, hi⟩ := handle_close_returns srv c hm
  refine ⟨srv1, h1, ?_, ?_, ?_, ?_, ?_⟩
  · rw [ho]
    simp [unordered_set_erase]
  · rw [hi]
    simp [unordered_map_erase]
  · intro other hne
    constructor
    · rw [ho]
      simp [unordered_set_erase, hne]
    · rw [hi]
      unfold unordered_map_erase unordered_map_index
      cases srv.open_conn_to_id c <;> simp [hne]
  · intro hs
    obtain ⟨us, jv, enc, mu, otls, ctls, mtls, otcp, ctcp, mtcp, cd⟩ := srv
    simp only at hm hs
    subst hm hs
    simp only [Server._handle_close, Bool.false_eq_true, if_false, if_true, Option.some.injEq,
      Prod.mk.injEq, and_true] at h1
    rw [← h1]
    exact ⟨rfl, rfl⟩
  · intro hs
    obtain ⟨us, jv, enc, mu, otls, ctls, mtls, otcp, ctcp, mtcp, cd⟩ := srv
    simp only at hm hs
    subst hm hs
    simp only [Server._handle_close, Bool.false_eq_true, if_false, Option.some.injEq,
      Prod.mk.injEq, and_true] at h1
    rw [← h1]
    exact ⟨rfl, rfl⟩

/-- Witness for claim C24: on the server of the examples with the connections 1 and 2 open,
the close of 1 leaves 2 open with its id 2. -/
theorem handle_close_removes_connection_witness :
    ∃ srv1, two_connections_server._handle_close 1 = some (srv1,
        [ServerStep.mutex_lock, ServerStep.conn_to_id_erase 1,
          ServerStep.notify_connection_closed 1,
          ServerStep.open_connections_erase 1, ServerStep.mutex_unlock]) ∧
      1 ∉ srv1.open_connections ∧ srv1.open_conn_to_id 1 = none ∧
      2 ∈ srv1.open_connections ∧ srv1.open_conn_to_id 2 = some 2 := by
  obtain ⟨srv1, h1, h2, h3, h4, _⟩ := handle_close_removes_connection two_connections_server 1 rfl
  exact ⟨srv1, h1, h2, h3, ((h4 2 (by decide)).1).2 (by decide),
    ((h4 2 (by decide)).2).trans rfl⟩

/-! ## String extraction is dump-then-trim -/

/-- The trim of `get_optional_string` and `get_required_string`, spelled out: a text that
begins with a quote loses its first and its last character, any other text is kept. -/
theorem trim_quotes_eq (t : List Char) :
    trim_quotes t = if t.head? = some '"' then t.tail.dropLast else t := by
  cases t with
  | nil => rfl
  | cons c cs =>
      by_cases h : c = '"'
      · subst h
        simp only [trim_quotes, str_find, if_true, str_substr, List.head?_cons, List.tail_cons,
          List.drop_succ_cons, List.drop_zero, List.length_cons, List.dropLast_eq_take]
        congr 1
      · have n : str_find (c :: cs) '"' 0 ≠ some 0 := by
          simp only [str_find, if_neg h]
          cases str_find cs '"' 0 <;> simp
        simp [trim_quotes, n, h]

/-- A decimal digit is not a quote. -/
theorem digitChar_ne_quote (k : Nat) (h : k < 10) : Nat.digitChar k ≠ '"' := by
  interval_cases k <;> decide

/-- The decimal digits of a number contain no quote. -/
theorem toDigitsCore_no_quote (fuel n : Nat) (ds : List Char) (h : ∀ c ∈ ds, c ≠ '"') :
    ∀ c ∈ Nat.toDigitsCore 10 fuel n ds, c ≠ '"' := by
  induction fuel generalizing n ds with
  | zero => simpa [Nat.toDigitsCore] using h
  | succ f ih =>
      have hd : ∀ c ∈ Nat.digitChar (n % 10) :: ds, c ≠ '"' := by
        intro c hc
        rcases List.mem_cons.1 hc with e | hc
        · rw [e]; exact digitChar_ne_quote _ (Nat.mod_lt _ (by decide))
        · exact h c hc
      simp only [Nat.toDigitsCore]
      split
      · exact hd
      · exact ih _ _ hd

/-- The decimal text of a natural number contains no quote. -/
theorem nat_text_no_quote (n : Nat) : ∀ c ∈ (toString n).data, c ≠ '"' :=
  toDigitsCore_no_quote _ _ [] (by simp)

/-- A text without a quote is kept by the trim. -/
theorem trim_quotes_of_head (t : List Char) (h : t.head? ≠ some '"') : trim_quotes t = t := by
  rw [trim_quotes_eq, if_neg h]

/-- The dump of a value that is not a string and not a floating-point number does not begin
with a quote. -/
theorem dump_head_not_quote (v : Json)
    (h : v = Json.null ∨ (∃ b, v = Json.boolean b) ∨ (∃ n, v = Json.number_integer n) ∨
      (∃ n, v = Json.number_unsigned n) ∨ (∃ es, v = Json.array es) ∨
      (∃ ms, v = Json.object ms)) :
    v.dump.data.head? ≠ some '"' := by
  rcases h with rfl | ⟨b, rfl⟩ | ⟨n, rfl⟩ | ⟨n, rfl⟩ | ⟨es, rfl⟩ | ⟨ms, rfl⟩
  · decide
  · cases b <;> decide
  · cases n with
    | ofNat m =>
        intro e
        exact nat_text_no_quote m _ (List.mem_of_mem_head? e) rfl
    | negSucc m =>
        intro e
        have : (Json.number_integer (Int.negSucc m)).dump.data =
            '-' :: (toString (m + 1)).data := rfl
        rw [this] at e
        simp at e
  · intro e
    exact nat_text_no_quote n _ (List.mem_of_mem_head? e) rfl
  · simp [Json.dump, dump_chars]
  · simp [Json.dump, dump_chars]

/-- The escaped form of a character that JSON escapes has at least two characters. -/
theorem two_le_escape_char (c : Char) (h : needs_escape c = true) :
    2 ≤ (escape_char c).length := by
  unfold escape_char
  repeat' split
  all_goals try simp
  rename_i h1 h2 _ _ _ _ _ h8
  simp only [needs_escape, Bool.or_eq_true, decide_eq_true_eq] at h
  rcases h with (h | h) | h
  · exact h1 h
  · exact h2 h
  · exact h8 h

/-- The escaped form of a string with a character that JSON escapes is longer than the
string. -/
theorem length_lt_escape (s : List Char) (h : ∃ c ∈ s, needs_escape c = true) :
    s.length < (escape s).length := by
  induction s with
  | nil => simp at h
  | cons c cs ih =>
      have e : escape (c :: cs) = escape_char c ++ escape cs := by
        simp [escape, List.flatMap_cons]
      rw [e, List.length_append, List.length_cons]
      by_cases hc : needs_escape c = true
      · have := two_le_escape_char c hc
        have := length_le_escape cs
        omega
      · have hc2 : needs_escape c = false := by simpa using hc
        rw [escape_char_plain c hc2]
        obtain ⟨d, hd, hn⟩ := h
        rcases List.mem_cons.1 hd with rfl | hd
        · exact absurd hn hc
        · have := ih ⟨d, hd, hn⟩
          simp only [List.length_cons, List.length_nil]
          omega

/-- Claim C25. String extraction is dump-then-trim. For a key that is present with the value
`v`, `get_required_string` and `get_optional_string` return the text of `v.dump()` without its
first and last character when that text begins with a quote, and the text unchanged otherwise;
the latter is the case for null, booleans, integers, arrays and objects. For a key that is
absent `get_optional_string` returns the empty string. For a string value the result is the
escaped form of the string, in which a quote is written as backslash and quote and a backslash
as two backslashes; it is the string itself when the string has no character that JSON
escapes, and it differs from the string otherwise. -/
theorem string_extraction_dump_then_trim (object : Json) (key : String) :
    (∀ v, object.find key = some v →
      get_required_string object key = Except.ok (String.mk
        (if v.dump.data.head? = some '"' then v.dump.data.tail.dropLast else v.dump.data)) ∧
      get_optional_string object key = String.mk
        (if v.dump.data.head? = some '"' then v.dump.data.tail.dropLast else v.dump.data)) ∧
    (∀ v, object.find key = some v →
      (v = Json.null ∨ (∃ b, v = Json.boolean b) ∨ (∃ n, v = Json.number_integer n) ∨
        (∃ n, v = Json.number_unsigned n) ∨ (∃ es, v = Json.array es) ∨
        (∃ ms, v = Json.object ms)) →
      get_required_string object key = Except.ok v.dump ∧
      get_optional_string object key = v.dump) ∧
    (object.find key = none → get_optional_string object key = "") ∧
    (∀ s, object.find key = some (Json.string s) →
      get_required_string object key = Except.ok (String.mk (escape s.data)) ∧
      get_optional_string object key = String.mk (escape s.data) ∧
      (plain s = true → String.mk (escape s.data) = s) ∧
      (plain s = false → String.mk (escape s.data) ≠ s)) ∧
    escape_char '"' = ['\\', '"'] ∧ escape_char '\\' = ['\\', '\\'] := by
  refine ⟨?_, ?_, ?_, ?_, rfl, rfl⟩
  · intro v h
    simp only [get_required_string, get_optional_string, h, trim_quotes_eq, and_self]
  · intro v h hv
    have t := trim_quotes_of_head _ (dump_head_not_quote v hv)
    constructor
    · simp only [get_required_string, h, t]
    · simp only [get_optional_string, h, t]
  · intro h
    simp only [get_optional_string, h]
  · intro s h
    refine ⟨get_required_string_of_string object key s h, ?_, ?_, ?_⟩
    · simp only [get_optional_string, h, trim_quotes_dump_string]
    · intro hp
      rw [escape_plain s hp]
    · intro hp e
      have hex : ∃ c ∈ s.data, needs_escape c = true := by
        by_contra hn
        have : plain s = true := (plain_iff s).2 (fun c hc => by
          cases hq : needs_escape c
          · rfl
          · exact absurd ⟨c, hc, hq⟩ hn)
        rw [this] at hp
        exact Bool.noConfusion hp
      have hl := length_lt_escape s.data hex
      have e2 : (String.mk (escape s.data)).data = s.data := by rw [e]
      simp only at e2
      rw [e2] at hl
      exact Nat.lt_irrefl _ hl

/-- Witness for claim C25, at a frame whose `topic` is the string `a"b`, whose `id` is the
number 7 and which has no `type`: the topic is returned in its escaped form, the number as its
text, the absent key as the empty string. -/
theorem string_extraction_dump_then_trim_witness :
    get_required_string (Json.object [("id", Json.number_unsigned 7),
      ("op", Json.string "publish"), ("topic", Json.string "a\"b")]) "topic" =
      Except.ok "a\\\"b" ∧
    get_optional_string (Json.object [("id", Json.number_unsigned 7),
      ("op", Json.string "publish"), ("topic", Json.string "a\"b")]) "id" = "7" ∧
    get_optional_string (Json.object [("id", Json.number_unsigned 7),
      ("op", Json.string "publish"), ("topic", Json.string "a\"b")]) "type" = "" :=
  ⟨((string_extraction_dump_then_trim _ "topic").2.2.2.1 "a\"b" (by rfl)).1,
    ((string_extraction_dump_then_trim _ "id").2.1 (Json.number_unsigned 7) (by rfl)
      (Or.inr (Or.inr (Or.inr (Or.inl ⟨7, rfl⟩))))).2,
    (string_extraction_dump_then_trim _ "type").2.2.1 (by rfl)⟩

/-! ## The bindings after a frame that is dropped -/

/-- The subscript `m[key]` changes the map at most by a value-initialized entry under `key`,
where there was none. -/
theorem index_spec {V : Type} (m : StdMap V) (key : String) (dflt : V) (k : String) :
    (m.index key dflt).2 k = m k ∨ (m k = none ∧ (m.index key dflt).2 k = some dflt) := by
  unfold StdMap.index
  cases h : m key with
  | some v => exact Or.inl rfl
  | none =>
      by_cases e : k = key
      · subst e
        exact Or.inr ⟨h, by simp [StdMap.assign]⟩
      · exact Or.inl (by simp [StdMap.assign, e])

/-- The branch `publish` leaves the encoding as it was or as `get_type_by_topic` left it. -/
theorem interpret_publish_encoding (X : JsonXtypes) (self : JsonEncoding) (msg : Json)
    (c : ConnectionHandle) :
    (interpret_publish X self msg c).encoding = self ∨
    ∃ topic, (interpret_publish X self msg c).encoding = (self.get_type_by_topic topic).2 := by
  unfold interpret_publish
  cases get_required_string msg JsonTopicNameKey with
  | error f => exact Or.inl rfl
  | ok topic =>
      refine Or.inr ⟨topic, ?_⟩
      simp only
      generalize self.get_type_by_topic topic = r
      obtain ⟨t, self1⟩ := r
      cases t with
      | none => rfl
      | some dest_type =>
          simp only
          generalize get_required_msg X msg dest_type JsonMsgKey = r
          rcases r with f | _ | d <;> rfl

/-- The branch `call_service` leaves the encoding as it was or as `get_req_type_from_service`
left it. -/
theorem interpret_call_service_encoding (X : JsonXtypes) (self : JsonEncoding) (msg : Json)
    (c : ConnectionHandle) :
    (interpret_call_service X self msg c).encoding = self ∨
    ∃ service, (interpret_call_service X self msg c).encoding =
      (self.get_req_type_from_service service).2 := by
  unfold interpret_call_service
  cases get_required_string msg JsonServiceKey with
  | error f => exact Or.inl rfl
  | ok service =>
      refine Or.inr ⟨service, ?_⟩
      simp only
      generalize self.get_req_type_from_service service = r
      obtain ⟨t, self1⟩ := r
      cases t with
      | none => rfl
      | some dest_type =>
          simp only
          generalize get_required_msg X msg dest_type JsonArgsKey = r
          rcases r with f | _ | d <;> rfl

/-- The branch `service_response` leaves the encoding as it was or as
`get_rep_type_from_service` left it. -/
theorem interpret_service_response_encoding (X : JsonXtypes) (self : JsonEncoding) (msg : Json)
    (c : ConnectionHandle) :
    (interpret_service_response X self msg c).encoding = self ∨
    ∃ service, (interpret_service_response X self msg c).encoding =
      (self.get_rep_type_from_service service).2 := by
  unfold interpret_service_response
  cases get_required_string msg JsonServiceKey with
  | error f => exact Or.inl rfl
  | ok service =>
      refine Or.inr ⟨service, ?_⟩
      simp only
      generalize self.get_rep_type_from_service service = r
      obtain ⟨t, self1⟩ := r
      cases t with
      | none => rfl
      | some dest_type =>
          simp only
          generalize get_required_msg X msg dest_type JsonValuesKey = r
          rcases r with f | _ | d <;> rfl

/-- The encoding that `get_type_by_topic` leaves. -/
theorem get_type_by_topic_encoding (self : JsonEncoding) (topic : String) :
    (self.get_type_by_topic topic).2 =
      { self with types_by_topic_ := (self.types_by_topic_.index topic "").2 } := rfl

/-- The encoding that `get_req_type_from_service` leaves. -/
theorem get_req_type_from_service_encoding (self : JsonEncoding) (service : String) :
    (self.get_req_type_from_service service).2 =
      { self with types_by_service_ := (self.types_by_service_.index service ("", "")).2 } := by
  unfold JsonEncoding.get_req_type_from_service
  simp only
  split <;> rfl

/-- The encoding that `get_rep_type_from_service` leaves. -/
theorem get_rep_type_from_service_encoding (self : JsonEncoding) (service : String) :
    (self.get_rep_type_from_service service).2 =
      { self with types_by_service_ := (self.types_by_service_.index service ("", "")).2 } := by
  unfold JsonEncoding.get_rep_type_from_service
  simp only
  split <;> rfl

/-- The branch `advertise_service` leaves the encoding as it was when it makes no endpoint
call. -/
theorem interpret_advertise_service_dropped (self : JsonEncoding) (msg : Json)
    (c : ConnectionHandle) (h : (interpret_advertise_service self msg c).calls = []) :
    (interpret_advertise_service self msg c).encoding = self := by
  unfold interpret_advertise_service at h ⊢
  cases h1 : get_required_string msg JsonRequestTypeNameKey with
  | error f => rfl
  | ok request_type_name =>
      rw [h1] at h
      simp only at h ⊢
      cases h2 : get_required_string msg JsonReplyTypeNameKey with
      | error f => rfl
      | ok reply_type_name =>
          rw [h2] at h
          simp only at h ⊢
          cases h3 : self.get_type request_type_name with
          | none => rfl
          | some req =>
              cases h4 : self.get_type reply_type_name with
              | none => rfl
              | some reply =>
                  rw [h3, h4] at h
                  simp only at h ⊢
                  cases h5 : get_required_string msg JsonServiceKey with
                  | error f => rfl
                  | ok service_name =>
                      rw [h5] at h
                      simp at h

/-- What a call of the dispatch that makes no endpoint call does with the encoding: the type
registry is kept, and each binding table is kept up to one entry with empty type names under a
name that had no entry. -/
theorem interpret_op_dropped (X : JsonXtypes) (self : JsonEncoding) (msg : Json) (op : String)
    (c : ConnectionHandle) (h : (interpret_op X self msg op c).calls = []) :
    (interpret_op X self msg op c).encoding.types_ = self.types_ ∧
    (∀ k, (interpret_op X self msg op c).encoding.types_by_topic_ k = self.types_by_topic_ k ∨
      (self.types_by_topic_ k = none ∧
        (interpret_op X self msg op c).encoding.types_by_topic_ k = some "")) ∧
    (∀ k, (interpret_op X self msg op c).encoding.types_by_service_ k =
        self.types_by_service_ k ∨
      (self.types_by_service_ k = none ∧
        (interpret_op X self msg op c).encoding.types_by_service_ k = some ("", ""))) := by
  have hself : ∀ r : Interpreted, r.encoding = self →
      r.encoding.types_ = self.types_ ∧
      (∀ k, r.encoding.types_by_topic_ k = self.types_by_topic_ k ∨
        (self.types_by_topic_ k = none ∧ r.encoding.types_by_topic_ k = some "")) ∧
      (∀ k, r.encoding.types_by_service_ k = self.types_by_service_ k ∨
        (self.types_by_service_ k = none ∧
          r.encoding.types_by_service_ k = some ("", ""))) := by
    intro r e
    rw [e]
    exact ⟨rfl, fun _ => Or.inl rfl, fun _ => Or.inl rfl⟩
  revert h
  refine interpret_op_cases (fun r => r.calls = [] →
      r.encoding.types_ = self.types_ ∧
      (∀ k, r.encoding.types_by_topic_ k = self.types_by_topic_ k ∨
        (self.types_by_topic_ k = none ∧ r.encoding.types_by_topic_ k = some "")) ∧
      (∀ k, r.encoding.types_by_service_ k = self.types_by_service_ k ∨
        (self.types_by_service_ k = none ∧
          r.encoding.types_by_service_ k = some ("", "")))) X self msg op c
    ?_ ?_ ?_ ?_ ?_ ?_ ?_ ?_ ?_ ?_
  · intro _
    rcases interpret_publish_encoding X self msg c with e | ⟨topic, e⟩
    · exact hself _ e
    · rw [e, get_type_by_topic_encoding]
      exact ⟨rfl, fun k => index_spec _ _ _ k, fun _ => Or.inl rfl⟩
  · intro _
    rcases interpret_call_service_encoding X self msg c with e | ⟨service, e⟩
    · exact hself _ e
    · rw [e, get_req_type_from_service_encoding]
      exact ⟨rfl, fun _ => Or.inl rfl, fun k => index_spec _ _ _ k⟩
  · intro _
    rcases interpret_service_response_encoding X self msg c with e | ⟨service, e⟩
    · exact hself _ e
    · rw [e, get_rep_type_from_service_encoding]
      exact ⟨rfl, fun _ => Or.inl rfl, fun k => index_spec _ _ _ k⟩
  · intro _
    refine hself _ ?_
    unfold interpret_advertise
    repeat' split
    all_goals rfl
  · intro _
    refine hself _ ?_
    unfold interpret_unadvertise
    repeat' split
    all_goals rfl
  · intro _
    refine hself _ ?_
    unfold interpret_subscribe
    repeat' split
    all_goals rfl
  · intro _
    refine hself _ ?_
    unfold interpret_unsubscribe
    repeat' split
    all_goals rfl
  · intro h
    exact hself _ (interpret_advertise_service_dropped self msg c h)
  · intro _
    refine hself _ ?_
    unfold interpret_unadvertise_service
    repeat' split
    all_goals rfl
  · intro _
    exact hself _ rfl

/-- Claim C26, as amended. A frame for which `interpret_websocket_msg` makes no endpoint call
leaves the type registry as it was, and leaves every entry of the topic bindings and of the
service bindings as it was; the only change that it can make to a binding table is a new entry
with empty type names under a name that had no entry. A frame that is not read as JSON or that
has no `op` leaves the encoding as it was. -/
theorem dropped_frame_keeps_bindings (X : JsonXtypes) (self : JsonEncoding) (msg_str : String)
    (c : ConnectionHandle) (h : (self.interpret_websocket_msg X msg_str c).calls = []) :
    (self.interpret_websocket_msg X msg_str c).encoding.types_ = self.types_ ∧
    (∀ k, (self.interpret_websocket_msg X msg_str c).encoding.types_by_topic_ k =
        self.types_by_topic_ k ∨
      (self.types_by_topic_ k = none ∧
        (self.interpret_websocket_msg X msg_str c).encoding.types_by_topic_ k = some "")) ∧
    (∀ k, (self.interpret_websocket_msg X msg_str c).encoding.types_by_service_ k =
        self.types_by_service_ k ∨
      (self.types_by_service_ k = none ∧
        (self.interpret_websocket_msg X msg_str c).encoding.types_by_service_ k =
          some ("", ""))) ∧
    ((Json.parse msg_str = none ∨ ∃ msg, Json.parse msg_str = some msg ∧
        msg.find JsonOpKey = none) →
      (self.interpret_websocket_msg X msg_str c).encoding = self) := by
  have hlast : (Json.parse msg_str = none ∨ ∃ msg, Json.parse msg_str = some msg ∧
        msg.find JsonOpKey = none) →
      (self.interpret_websocket_msg X msg_str c).encoding = self := by
    rintro (hp | ⟨msg, hp, ho⟩)
    · simp only [JsonEncoding.interpret_websocket_msg, hp]
    · simp only [JsonEncoding.interpret_websocket_msg, hp, interpret_json, ho]
  have hself : (self.interpret_websocket_msg X msg_str c).encoding = self →
      (self.interpret_websocket_msg X msg_str c).encoding.types_ = self.types_ ∧
      (∀ k, (self.interpret_websocket_msg X msg_str c).encoding.types_by_topic_ k =
          self.types_by_topic_ k ∨
        (self.types_by_topic_ k = none ∧
          (self.interpret_websocket_msg X msg_str c).encoding.types_by_topic_ k = some "")) ∧
      (∀ k, (self.interpret_websocket_msg X msg_str c).encoding.types_by_service_ k =
          self.types_by_service_ k ∨
        (self.types_by_service_ k = none ∧
          (self.interpret_websocket_msg X msg_str c).encoding.types_by_service_ k =
            some ("", ""))) := by
    intro e
    rw [e]
    exact ⟨rfl, fun _ => Or.inl rfl, fun _ => Or.inl rfl⟩
  suffices hmain : (self.interpret_websocket_msg X msg_str c).encoding.types_ = self.types_ ∧
      (∀ k, (self.interpret_websocket_msg X msg_str c).encoding.types_by_topic_ k =
          self.types_by_topic_ k ∨
        (self.types_by_topic_ k = none ∧
          (self.interpret_websocket_msg X msg_str c).encoding.types_by_topic_ k = some "")) ∧
      (∀ k, (self.interpret_websocket_msg X msg_str c).encoding.types_by_service_ k =
          self.types_by_service_ k ∨
        (self.types_by_service_ k = none ∧
          (self.interpret_websocket_msg X msg_str c).encoding.types_by_service_ k =
            some ("", ""))) from ⟨hmain.1, hmain.2.1, hmain.2.2, hlast⟩
  cases hp : Json.parse msg_str with
  | none => exact hself (hlast (Or.inl hp))
  | some msg =>
      cases ho : msg.find JsonOpKey with
      | none => exact hself (hlast (Or.inr ⟨msg, hp, ho⟩))
      | some v =>
          cases hs : v.get_string with
          | error f =>
              refine hself ?_
              simp only [JsonEncoding.interpret_websocket_msg, hp, interpret_json, ho, hs]
          | ok op =>
              have e : self.interpret_websocket_msg X msg_str c =
                  interpret_op X self msg op c := by
                simp only [JsonEncoding.interpret_websocket_msg, hp, interpret_json, ho, hs]
              rw [e] at h ⊢
              exact interpret_op_dropped X self msg op c h

/-- Witness for claim C26, as amended: the `publish` frame for the topic `fruit`, which has no
binding in the example encoding, is dropped; the registry is kept. -/
theorem dropped_frame_keeps_bindings_witness :
    (example_encoding.interpret_websocket_msg example_xtypes publish_frame 1).calls = [] ∧
    (example_encoding.interpret_websocket_msg example_xtypes publish_frame 1).encoding.types_ =
      example_encoding.types_ :=
  ⟨by rfl, (dropped_frame_keeps_bindings example_xtypes example_encoding publish_frame 1
    (by rfl)).1⟩

/-- Counterexample to claim C26 as stated. In the example encoding the topic `fruit` and the
service `client_request` have no binding. The `publish` frame for `fruit` and the
`service_response` frame for `client_request` are dropped, and afterwards the topic bindings
have the key `fruit`, the service bindings the key `client_request`, with empty type names. -/
theorem dropped_frame_adds_key :
    example_encoding.types_by_topic_ "fruit" = none ∧
    (example_encoding.interpret_websocket_msg example_xtypes publish_frame 1).calls = [] ∧
    (example_encoding.interpret_websocket_msg example_xtypes publish_frame
      1).encoding.types_by_topic_ "fruit" = some "" ∧
    example_encoding.types_by_service_ "client_request" = none ∧
    (example_encoding.interpret_websocket_msg example_xtypes resultless_service_response_frame
      1).calls = [] ∧
    (example_encoding.interpret_websocket_msg example_xtypes resultless_service_response_frame
      1).encoding.types_by_service_ "client_request" = some ("", "") :=
  ⟨by rfl, by rfl, by rfl, by rfl, by rfl, by rfl⟩

/-! ## The mutex of the transport handlers -/

/-- Claim C27, at a server that is closing down, such as the server of the examples while it
is closing down: `_handle_opening` locks the mutex, closes the new connection with the reason
`shutdown` and returns from inside the branch, past `_mutex.unlock()`; the mutex, free on
entry, is held on exit, and the connection is not registered. A handler called afterwards does not get past `_mutex.lock()`. On the other
paths - `_handle_opening` when the server is not closing down, `_handle_close`,
`runtime_advertisement` - the mutex is free again on exit. This holds for both transports and
whatever the other members of the server are. -/
theorem handle_opening_closing_down_keeps_mutex (srv : Server) (c other : ConnectionHandle)
    (topic id : String) (message_type : DynamicType) :
    (closing_server._handle_opening 1).map (fun result => (result.1._mutex, result.2)) =
      some (true, [ServerStep.mutex_lock, ServerStep.close 1 "shutdown"]) ∧
    (Server._handle_opening { srv with _mutex := false, _closing_down := true } c).map
        (fun result => (result.1._mutex, result.1.open_connections, result.2)) =
      some (true, srv.open_connections,
        [ServerStep.mutex_lock, ServerStep.close c "shutdown"]) ∧
    ((Server._handle_opening { srv with _mutex := false, _closing_down := true } c).bind
        (fun result => result.1._handle_close other)).isNone = true ∧
    ((Server._handle_opening { srv with _mutex := false, _closing_down := true } c).bind
        (fun result => result.1._handle_opening other)).isNone = true ∧
    ((Server._handle_opening { srv with _mutex := false, _closing_down := true } c).bind
        (fun result => result.1.runtime_advertisement topic message_type id)).isNone = true ∧
    (Server._handle_opening { srv with _mutex := false, _closing_down := false } c).map
        (fun result => result.1._mutex) = some false ∧
    (Server._handle_close { srv with _mutex := false } c).map
        (fun result => result.1._mutex) = some false ∧
    (Server.runtime_advertisement { srv with _mutex := false } topic message_type id).map
        (fun result => result.1._mutex) = some false := by
  obtain ⟨us, jv, enc, mu, otls, ctls, mtls, otcp, ctcp, mtcp, cd⟩ := srv
  cases us
  · exact ⟨rfl, rfl, rfl, rfl, rfl, rfl, rfl, rfl⟩
  · exact ⟨rfl, rfl, rfl, rfl, rfl, rfl, rfl, rfl⟩

/-! ## Encoders whose frame cannot be written -/

/-- The dump of an object is not the empty string: it begins with a brace. -/
theorem dump_object_ne_empty (ms : List (String × Json)) : (Json.object ms).dump ≠ "" := by
  intro h
  have := congrArg String.data h
  simp [Json.dump, dump_chars] at this

/-- An assignment to a key of a `Json` that is null or an object leaves an object. -/
theorem set_is_object (j : Json) (key : String) (v : Json)
    (h : j = Json.null ∨ ∃ ms, j = Json.object ms) : ∃ ms, j.set key v = Json.object ms := by
  rcases h with rfl | ⟨ms, rfl⟩
  · exact ⟨_, rfl⟩
  · exact ⟨_, rfl⟩

/-- The dump of a `Json` on which a key was assigned is not the empty string. -/
theorem dump_set_ne_empty (j : Json) (key : String) (v : Json)
    (h : j = Json.null ∨ ∃ ms, j = Json.object ms) : (j.set key v).dump ≠ "" := by
  obtain ⟨ms, e⟩ := set_is_object j key v h
  rw [e]
  exact dump_object_ne_empty ms

/-- The decoder reads the bytes of ASCII text as that text. -/
theorem utf8_decode_from_ascii (cs : List Char) (h : ∀ c ∈ cs, c.toNat ≤ 0x7F) :
    utf8_decode_from (cs.map Char.toNat) [] 0 = some cs := by
  induction cs with
  | nil => rfl
  | cons c cs ih =>
      have hc : c.toNat ≤ 0x7F := h c (List.mem_cons_self _ _)
      rw [List.map_cons, utf8_decode_from, if_pos hc,
        ih (fun d hd => h d (List.mem_cons_of_mem _ hd))]
      simp [Char.ofNat_toNat]

/-- The bytes of ASCII text are well-formed UTF-8, and they are that text. -/
theorem utf8_decode_ascii (s : String) (h : ∀ c ∈ s.data, c.toNat ≤ 0x7F) :
    utf8_decode (s.data.map Char.toNat) = some s := by
  unfold utf8_decode
  rw [utf8_decode_from_ascii s.data h]
  rfl

/-- For an `id` whose bytes are well-formed UTF-8, the three encoders do what they do for the
text of these bytes. -/
theorem encode_bytes_of_text (X : JsonXtypes) (self : JsonEncoding) (name type : String)
    (id : List Nat) (id_text : String) (payload : DynamicData) (result : Bool)
    (h : utf8_decode id = some id_text) :
    self.encode_publication_msg_bytes X name type id payload =
      self.encode_publication_msg X name type id_text payload ∧
    self.encode_call_service_msg_bytes X name type payload id =
      self.encode_call_service_msg X name type payload id_text ∧
    self.encode_service_response_msg_bytes X name type id payload result =
      self.encode_service_response_msg X name type id_text payload result := by
  refine ⟨?_, ?_, ?_⟩
  · unfold JsonEncoding.encode_publication_msg_bytes JsonEncoding.encode_publication_msg
    cases X.to_json payload with
    | error e => rfl
    | ok converted => simp only [h]
  · unfold JsonEncoding.encode_call_service_msg_bytes JsonEncoding.encode_call_service_msg
    cases X.to_json payload with
    | error e => rfl
    | ok converted =>
        simp only [h]
        try rfl
  · unfold JsonEncoding.encode_service_response_msg_bytes
      JsonEncoding.encode_service_response_msg
    cases X.to_json payload with
    | error e => rfl
    | ok converted =>
        simp only [h]
        try rfl

/-- On text arguments: when the conversion of the payload to JSON fails, the three encoders
return the empty string and leave the encoding as it was; when the conversion succeeds, the
string that they return is not empty. -/
theorem encoders_on_text (X : JsonXtypes) (self : JsonEncoding)
    (name type id : String) (payload : DynamicData) (result : Bool) :
    (∀ e, X.to_json payload = Except.error e →
      self.encode_publication_msg X name type id payload = ("", self) ∧
      self.encode_call_service_msg X name type payload id = ("", self) ∧
      self.encode_service_response_msg X name type id payload result = ("", self)) ∧
    (∀ converted, X.to_json payload = Except.ok converted →
      (self.encode_publication_msg X name type id payload).1 ≠ "" ∧
      (self.encode_call_service_msg X name type payload id).1 ≠ "" ∧
      (self.encode_service_response_msg X name type id payload result).1 ≠ "") := by
  constructor
  · intro e h
    simp only [JsonEncoding.encode_publication_msg, JsonEncoding.encode_call_service_msg,
      JsonEncoding.encode_service_response_msg, h, and_self]
  · intro converted h
    refine ⟨?_, ?_, ?_⟩
    · simp only [JsonEncoding.encode_publication_msg, h]
      by_cases hid : id = ""
      · rw [if_neg (not_not.2 hid)]
        exact dump_set_ne_empty _ _ _ (Or.inr (set_is_object _ _ _ (Or.inr ⟨_, rfl⟩)))
      · rw [if_pos hid]
        exact dump_set_ne_empty _ _ _ (Or.inr (set_is_object _ _ _
          (Or.inr (set_is_object _ _ _ (Or.inr ⟨_, rfl⟩)))))
    · simp only [JsonEncoding.encode_call_service_msg, h]
      by_cases hid : id = ""
      · rw [if_neg (not_not.2 hid)]
        exact dump_set_ne_empty _ _ _ (Or.inr (set_is_object _ _ _ (Or.inr ⟨_, rfl⟩)))
      · rw [if_pos hid]
        exact dump_set_ne_empty _ _ _ (Or.inr (set_is_object _ _ _
          (Or.inr (set_is_object _ _ _ (Or.inr ⟨_, rfl⟩)))))
    · simp only [JsonEncoding.encode_service_response_msg, h]
      by_cases hid : id = ""
      · rw [if_neg (not_not.2 hid)]
        exact dump_set_ne_empty _ _ _ (Or.inr (set_is_object _ _ _
          (Or.inr (set_is_object _ _ _ (Or.inr ⟨_, rfl⟩)))))
      · rw [if_pos hid]
        exact dump_set_ne_empty _ _ _ (Or.inr (set_is_object _ _ _
          (Or.inr (set_is_object _ _ _ (Or.inr (set_is_object _ _ _ (Or.inr ⟨_, rfl⟩)))))))

/-- The three encoders when `output.dump()` throws because of the `id`: the conversion of the
payload has succeeded, the empty string is returned, and the binding is written. -/
theorem encode_bytes_dump_throws (X : JsonXtypes) (self : JsonEncoding) (name type : String)
    (id : List Nat) (payload : DynamicData) (converted : Json) (result : Bool)
    (hconv : X.to_json payload = Except.ok converted) (hid : utf8_decode id = none) :
    self.encode_publication_msg_bytes X name type id payload =
      ("", { self with
        types_by_topic_ := self.types_by_topic_.assign name (transform_type type) }) ∧
    (self.encode_call_service_msg_bytes X name type payload id).1 = "" ∧
    (∃ reply, (self.encode_call_service_msg_bytes X name type payload id).2.types_by_service_
      name = some (transform_type type, reply)) ∧
    (self.encode_service_response_msg_bytes X name type id payload result).1 = "" ∧
    (∃ request, (self.encode_service_response_msg_bytes X name type id payload
      result).2.types_by_service_ name = some (request, transform_type type)) := by
  refine ⟨?_, ?_, ?_, ?_, ?_⟩
  · simp only [JsonEncoding.encode_publication_msg_bytes, hconv, hid]
  · simp only [JsonEncoding.encode_call_service_msg_bytes, hconv, hid]
  · simp only [JsonEncoding.encode_call_service_msg_bytes, hconv, hid, StdMap.assign, if_true]
    cases self.types_by_service_ name <;> exact ⟨_, rfl⟩
  · simp only [JsonEncoding.encode_service_response_msg_bytes, hconv, hid]
  · simp only [JsonEncoding.encode_service_response_msg_bytes, hconv, hid, StdMap.assign,
      if_true]
    cases self.types_by_service_ name <;> exact ⟨_, rfl⟩

/-- Claim C28, evaluated at an `id` that holds the one byte `0xFF`, with the encoding, the
conversion library and the value `apple` of the examples. The conversion of the payload to
JSON succeeds. `encode_publication_msg` nevertheless returns the empty string, and the topic
`dispatch_into_server`, which had no binding, is bound to `Dispatch` afterwards: the binding
was written before `output.dump()` threw. `encode_call_service_msg` and
`encode_service_response_msg` likewise return the empty string and leave a changed service
binding. The one byte `0x37`, the text `7`, gives a frame. -/
theorem encode_returns_empty_after_binding :
    utf8_decode [0xFF] = none ∧
    example_xtypes.to_json apple = Except.ok apple.content ∧
    example_encoding.types_by_topic_ "dispatch_into_server" = none ∧
    (example_encoding.encode_publication_msg_bytes example_xtypes "dispatch_into_server"
      "Dispatch" [0xFF] apple).1 = "" ∧
    (example_encoding.encode_publication_msg_bytes example_xtypes "dispatch_into_server"
      "Dispatch" [0xFF] apple).2.types_by_topic_ "dispatch_into_server" = some "Dispatch" ∧
    example_encoding.types_by_service_ "client_request" = none ∧
    (example_encoding.encode_call_service_msg_bytes example_xtypes "client_request"
      "Data_Request" client_request [0xFF]).1 = "" ∧
    (example_encoding.encode_call_service_msg_bytes example_xtypes "client_request"
      "Data_Request" client_request [0xFF]).2.types_by_service_ "client_request" =
      some ("Data_Request", "") ∧
    (example_encoding.encode_service_response_msg_bytes example_xtypes "client_request"
      "Data_Response" [0xFF] server_response true).1 = "" ∧
    (example_encoding.encode_service_response_msg_bytes example_xtypes "client_request"
      "Data_Response" [0xFF] server_response true).2.types_by_service_ "client_request" =
      some ("", "Data_Response") ∧
    (example_encoding.encode_publication_msg_bytes example_xtypes "dispatch_into_server"
      "Dispatch" [0x37] apple).1 =
      "\x7b\"id\":\"7\",\"msg\":\x7b\"name\":\"apple\",\"number\":1\x7d,\"op\":\"publish\",\"topic\":\"dispatch_into_server\"\x7d" :=
  ⟨by rfl, by rfl, by rfl, by rfl, by rfl, by rfl, by rfl, by rfl, by rfl, by rfl, by rfl⟩

/-! ## The built-in types of a fresh encoding -/

/-- What `get_type` finds in a fresh encoding under a name in canonical form is one of the
structs of the built-in IDL, and it has that name. -/
theorem builtin_found (name : String) (hn : transform_type name = name)
    (hs : (make_json_encoding.get_type name).isSome = true) :
    ∃ builtin, builtin ∈ idl_messages ∧ builtin.name = name ∧
      make_json_encoding.get_type name = some builtin := by
  cases h : make_json_encoding.get_type name with
  | none => rw [h] at hs; exact Bool.noConfusion hs
  | some builtin =>
      have h2 : idl_messages.find? (fun type => decide (type.name = transform_type name)) =
          some builtin := h
      refine ⟨builtin, List.mem_of_find?_eq_some h2, ?_, rfl⟩
      have := List.find?_some h2
      rw [hn] at this
      simpa using this

/-- Claim C29. The registry of a freshly constructed `JsonEncoding` holds the fifteen structs
of the built-in IDL under their names. For each of these names, `add_type` of any user type
under that name - given as the `type_name` argument, or as the name of the type when the
argument is empty - returns `false` and leaves the encoding as it was, and `get_type` of the
name returns the built-in struct, before and after that call. -/
theorem builtin_types_shadow_user_types (name : String) (type : DynamicType)
    (h : name ∈ ["fragment", "png", "cbor", "set_level", "status", "auth", "advertise",
      "unadvertise", "publish", "subscribe", "unsubscribe", "call_service", "advertise_service",
      "unadvertise_service", "service_response"]) :
    idl_messages.map (fun builtin => builtin.name) =
      ["fragment", "png", "cbor", "set_level", "status", "auth", "advertise", "unadvertise",
        "publish", "subscribe", "unsubscribe", "call_service", "advertise_service",
        "unadvertise_service", "service_response"] ∧
    make_json_encoding.add_type type name = (make_json_encoding, false) ∧
    make_json_encoding.add_type { type with name := name } "" = (make_json_encoding, false) ∧
    ∃ builtin, builtin ∈ idl_messages ∧ builtin.name = name ∧
      make_json_encoding.get_type name = some builtin ∧
      (make_json_encoding.add_type type name).1.get_type name = some builtin := by
  have hall : transform_type name = name ∧
      (make_json_encoding.get_type name).isSome = true ∧
      make_json_encoding.add_type type name = (make_json_encoding, false) ∧
      make_json_encoding.add_type { type with name := name } "" =
        (make_json_encoding, false) := by
    simp only [List.mem_cons, List.mem_singleton, List.not_mem_nil, or_false] at h
    rcases h with rfl | rfl | rfl | rfl | rfl | rfl | rfl | rfl | rfl | rfl | rfl | rfl | rfl |
      rfl | rfl
    all_goals exact ⟨rfl, rfl, rfl, rfl⟩
  obtain ⟨hn, hs, ha, ha2⟩ := hall
  obtain ⟨builtin, hm, hname, hg⟩ := builtin_found name hn hs
  refine ⟨rfl, ha, ha2, builtin, hm, hname, hg, ?_⟩
  rw [ha]
  exact hg

/-- Witness for claim C29: the user type `Dispatch` cannot be registered under the name
`publish`. -/
theorem builtin_types_shadow_user_types_witness :
    make_json_encoding.add_type Dispatch "publish" = (make_json_encoding, false) ∧
    make_json_encoding.get_type "publish" =
      some { name := "publish",
             members := [("id", "string"), ("topic", "string"), ("msg", "string")] } :=
  ⟨(builtin_types_shadow_user_types "publish" Dispatch (by decide)).2.1, by rfl⟩

/-! ## The two branches of `_handle_validate` -/

/-- Claim C30. The TLS branch and the TCP branch of `_handle_validate` are equivalent. For a
connection with the same requested subprotocols, and validators whose `verify` accepts the
same tokens, the two branches return the same decision, leave the same status and the same
selected subprotocol on the connection, and call `verify` with the same tokens. Hence a server
with security enabled and one without, configured with the same validator, decide alike. -/
theorem handle_validate_branches_agree (v1 v2 : JwtValidator) (c : Connection)
    (tls tcp : Server)
    (hsame : ∀ token, c.requested_subprotocols = [token] →
      (v1.verify token = VerifyOutcome.returns ↔ v2.verify token = VerifyOutcome.returns))
    (htls : tls._use_security = true) (htcp : tcp._use_security = false)
    (hv1 : tls._jwt_validator = some v1) (hv2 : tcp._jwt_validator = some v2) :
    _handle_validate_tls v1 c = _handle_validate_tcp v2 c ∧
    tls._handle_validate c = tcp._handle_validate c := by
  have key : _handle_validate_tls v1 c = _handle_validate_tcp v2 c := by
    unfold _handle_validate_tls _handle_validate_tcp
    by_cases hl : c.requested_subprotocols.length ≠ 1
    · simp only [if_pos hl]
    · simp only [if_neg hl]
      have hl1 : c.requested_subprotocols.length = 1 := not_not.1 hl
      obtain ⟨token, ht⟩ := List.length_eq_one.1 hl1
      have hs := hsame token ht
      rw [ht]
      simp only [List.headD_cons]
      cases h1 : v1.verify token with
      | returns =>
          rw [hs.1 h1]
      | throws_VerificationError w1 =>
          cases h2 : v2.verify token with
          | returns => rw [hs.2 h2] at h1; exact VerifyOutcome.noConfusion h1
          | throws_VerificationError w2 => rfl
  refine ⟨key, ?_⟩
  unfold Server._handle_validate
  rw [hv1, hv2]
  simp only [htls, htcp, if_true, key]
  rfl

/-- Witness for claim C30: the server of the examples, over TCP, and the same server over
TLS decide alike on the connection that offers the token `good`. -/
theorem handle_validate_branches_agree_witness :
    _handle_validate_tls example_validator example_connection =
      _handle_validate_tcp example_validator example_connection ∧
    Server._handle_validate { example_server with _use_security := true } example_connection =
      example_server._handle_validate example_connection :=
  handle_validate_branches_agree example_validator example_validator example_connection
    { example_server with _use_security := true } example_server
    (fun _ _ => Iff.rfl) rfl rfl rfl rfl

end WebSocketSH
